import Mathlib

/-!
Verification of libmsr: MSR access layer and thermal register bitfields.

A shallow embedding of `src/msr_core.c` (device registry, access by
coordinate, batched register access) and `src/msr_thermal.c` (decode and encode
of the thermal registers), followed by theorems about the embedded functions.

Conventions of the embedding.

* A `uint64_t` is a natural number below `2 ^ 64`; every operation that can
  leave that range in C is followed by an explicit `% 2 ^ 64`.
* The register file is a function from a logical unit (the index into
  `core_fd`) and a register offset to the 64-bit value stored there.  Every
  `pread` and `pwrite` is taken to transfer its eight bytes.
* A C array is a function from the index to the element.
* The structures of `msr_thermal.h` hold one array per field, indexed by core
  or by socket.  The embedding keeps one record per index: `s i` is the record
  of the `i`-th elements of all arrays of `s`.
* `assert` is taken to be enabled: a failed assertion aborts the call.
* The device files are an environment `Env` of pure functions, so a file that
  passed its checks passes them again; the system calls a routine makes are
  returned as a list, in the order of the calls.
-/

namespace Libmsr

/-! ## Topology constants -/

/-- Modelled from the spec: the header `msr_core.h` with the topology macros is
not among the sources.  The three independent constants are parameters; the
spec fixes `total_units = sockets * cores_per_socket * threads_per_core`, and
the number of cores is `cores_per_socket * sockets`. -/
structure Config where
  NUM_SOCKETS : Nat
  NUM_CORES_PER_SOCKET : Nat
  NUM_THREADS_PER_CORE : Nat
  deriving DecidableEq

/-- Modelled from the spec: `NUM_CORES`, the number of cores of the machine. -/
def Config.NUM_CORES (cfg : Config) : Nat :=
  cfg.NUM_CORES_PER_SOCKET * cfg.NUM_SOCKETS

/-- Modelled from the spec: `NUM_DEVS`, the number of logical units. -/
def Config.NUM_DEVS (cfg : Config) : Nat :=
  cfg.NUM_SOCKETS * cfg.NUM_CORES_PER_SOCKET * cfg.NUM_THREADS_PER_CORE

/-! ## Register file and scalar access (`msr_core.c`) -/

/-- The register file: `st dev_idx msr` is the 64-bit value of register `msr`
on logical unit `dev_idx`. -/
abbrev RegFile := Nat → Nat → Nat

/-- Routine `read_msr_by_idx`: the value `pread` stores into `*val`. -/
def read_msr_by_idx (st : RegFile) (dev_idx msr : Nat) : Nat :=
  st dev_idx msr

/-- Routine `write_msr_by_idx`: `pwrite` of `val` at offset `msr` of unit `dev_idx`. -/
def write_msr_by_idx (st : RegFile) (dev_idx msr val : Nat) : RegFile :=
  fun d m => if d = dev_idx ∧ m = msr then val else st d m

/-- The loop shared by `read_all_sockets`, `read_all_cores` and
`read_all_threads`:
`for (dev_idx, val_idx; dev_idx < NUM_DEVS; dev_idx += stride, val_idx++)
   read_msr_by_idx(dev_idx, msr, &val[val_idx]);`
The first argument bounds the number of iterations; `none` means the bound was
reached with the loop condition still true. -/
def read_all_loop (st : RegFile) (numDevs stride msr : Nat) :
    Nat → Nat → Nat → (Nat → Nat) → Option (Nat → Nat)
  | 0, _, _, _ => none
  | fuel + 1, dev_idx, val_idx, val =>
    if dev_idx < numDevs then
      read_all_loop st numDevs stride msr fuel (dev_idx + stride) (val_idx + 1)
        (Function.update val val_idx (read_msr_by_idx st dev_idx msr))
    else some val

/-- The loop shared by `write_all_sockets_v`, `write_all_cores_v` and
`write_all_threads_v`:
`for (dev_idx, val_idx; dev_idx < NUM_DEVS; dev_idx += stride, val_idx++)
   write_msr_by_idx(dev_idx, msr, val[val_idx]);` -/
def write_all_v_loop (numDevs stride msr : Nat) (val : Nat → Nat) :
    Nat → Nat → Nat → RegFile → Option RegFile
  | 0, _, _, _ => none
  | fuel + 1, dev_idx, val_idx, st =>
    if dev_idx < numDevs then
      write_all_v_loop numDevs stride msr val fuel (dev_idx + stride) (val_idx + 1)
        (write_msr_by_idx st dev_idx msr (val val_idx))
    else some st

/-- Routine `read_all_sockets`: stride `NUM_CORES_PER_SOCKET * NUM_THREADS_PER_CORE`. -/
def read_all_sockets (cfg : Config) (st : RegFile) (msr : Nat) (val : Nat → Nat) :
    Option (Nat → Nat) :=
  read_all_loop st cfg.NUM_DEVS (cfg.NUM_CORES_PER_SOCKET * cfg.NUM_THREADS_PER_CORE) msr
    (cfg.NUM_DEVS + 1) 0 0 val

/-- Routine `read_all_cores`: stride `NUM_THREADS_PER_CORE`. -/
def read_all_cores (cfg : Config) (st : RegFile) (msr : Nat) (val : Nat → Nat) :
    Option (Nat → Nat) :=
  read_all_loop st cfg.NUM_DEVS cfg.NUM_THREADS_PER_CORE msr (cfg.NUM_DEVS + 1) 0 0 val

/-- Routine `write_all_sockets_v`: stride `NUM_CORES_PER_SOCKET * NUM_THREADS_PER_CORE`. -/
def write_all_sockets_v (cfg : Config) (st : RegFile) (msr : Nat) (val : Nat → Nat) :
    Option RegFile :=
  write_all_v_loop cfg.NUM_DEVS (cfg.NUM_CORES_PER_SOCKET * cfg.NUM_THREADS_PER_CORE) msr val
    (cfg.NUM_DEVS + 1) 0 0 st

/-- Routine `write_all_cores_v`: stride `NUM_THREADS_PER_CORE`. -/
def write_all_cores_v (cfg : Config) (st : RegFile) (msr : Nat) (val : Nat → Nat) :
    Option RegFile :=
  write_all_v_loop cfg.NUM_DEVS cfg.NUM_THREADS_PER_CORE msr val (cfg.NUM_DEVS + 1) 0 0 st

/-- Routine `read_all_threads`: stride one (`dev_idx++`). -/
def read_all_threads (cfg : Config) (st : RegFile) (msr : Nat) (val : Nat → Nat) :
    Option (Nat → Nat) :=
  read_all_loop st cfg.NUM_DEVS 1 msr (cfg.NUM_DEVS + 1) 0 0 val

/-- Routine `write_all_threads_v`: stride one (`dev_idx++`). -/
def write_all_threads_v (cfg : Config) (st : RegFile) (msr : Nat) (val : Nat → Nat) :
    Option RegFile :=
  write_all_v_loop cfg.NUM_DEVS 1 msr val (cfg.NUM_DEVS + 1) 0 0 st

/-- The arguments `(dev_idx, val_idx)` of the successive calls of
`read_msr_by_idx` made by the loop of `read_all_sockets`, `read_all_cores` and
`read_all_threads`, in the order of the calls. -/
def read_all_calls (numDevs stride : Nat) : Nat → Nat → Nat → Option (List (Nat × Nat))
  | 0, _, _ => none
  | fuel + 1, dev_idx, val_idx =>
    if dev_idx < numDevs then
      (read_all_calls numDevs stride fuel (dev_idx + stride) (val_idx + 1)).map
        (fun calls => (dev_idx, val_idx) :: calls)
    else some []

/-- The calls of `read_msr_by_idx` made by `read_all_sockets`. -/
def read_all_sockets_calls (cfg : Config) : Option (List (Nat × Nat)) :=
  read_all_calls cfg.NUM_DEVS (cfg.NUM_CORES_PER_SOCKET * cfg.NUM_THREADS_PER_CORE)
    (cfg.NUM_DEVS + 1) 0 0

/-- The calls of `read_msr_by_idx` made by `read_all_cores`. -/
def read_all_cores_calls (cfg : Config) : Option (List (Nat × Nat)) :=
  read_all_calls cfg.NUM_DEVS cfg.NUM_THREADS_PER_CORE (cfg.NUM_DEVS + 1) 0 0

/-- The calls of `read_msr_by_idx` made by `read_all_threads`. -/
def read_all_threads_calls (cfg : Config) : Option (List (Nat × Nat)) :=
  read_all_calls cfg.NUM_DEVS 1 (cfg.NUM_DEVS + 1) 0 0

/-- The loop shared by `write_all_sockets`, `write_all_cores` and
`write_all_threads`:
`for (dev_idx = 0; dev_idx < NUM_DEVS; dev_idx += stride)
   write_msr_by_idx(dev_idx, msr, val);` -/
def write_all_loop (numDevs stride msr val : Nat) : Nat → Nat → RegFile → Option RegFile
  | 0, _, _ => none
  | fuel + 1, dev_idx, st =>
    if dev_idx < numDevs then
      write_all_loop numDevs stride msr val fuel (dev_idx + stride)
        (write_msr_by_idx st dev_idx msr val)
    else some st

/-- Routine `write_all_sockets`: stride
`NUM_CORES_PER_SOCKET * NUM_THREADS_PER_CORE`. -/
def write_all_sockets (cfg : Config) (st : RegFile) (msr val : Nat) : Option RegFile :=
  write_all_loop cfg.NUM_DEVS (cfg.NUM_CORES_PER_SOCKET * cfg.NUM_THREADS_PER_CORE) msr val
    (cfg.NUM_DEVS + 1) 0 st

/-- Routine `write_all_cores`: stride `NUM_THREADS_PER_CORE`. -/
def write_all_cores (cfg : Config) (st : RegFile) (msr val : Nat) : Option RegFile :=
  write_all_loop cfg.NUM_DEVS cfg.NUM_THREADS_PER_CORE msr val (cfg.NUM_DEVS + 1) 0 st

/-- Routine `write_all_threads`: stride one (`dev_idx++`). -/
def write_all_threads (cfg : Config) (st : RegFile) (msr val : Nat) : Option RegFile :=
  write_all_loop cfg.NUM_DEVS 1 msr val (cfg.NUM_DEVS + 1) 0 st

/-! ## Access by coordinate (`msr_core.c`) -/

/-- The index expression of `read_msr_by_coord` and `write_msr_by_coord`:
`socket * NUM_CORES_PER_SOCKET + core * NUM_THREADS_PER_CORE + thread`.  The
three coordinates are C `int`s. -/
def coord_index (cfg : Config) (socket core thread : Int) : Int :=
  socket * cfg.NUM_CORES_PER_SOCKET + core * cfg.NUM_THREADS_PER_CORE + thread

/-- How a call of `read_msr_by_coord` or `write_msr_by_coord` ends. -/
inductive ByCoord (α : Type) where
  /-- An assertion failed; no register was accessed. -/
  | assertFailed : ByCoord α
  /-- The index passed on is not an index of `core_fd` (undefined in C). -/
  | outOfTable (dev_idx : Int) : ByCoord α
  /-- The access went through `core_fd[dev_idx]` and gave `result`. -/
  | accessed (dev_idx : Nat) (result : α) : ByCoord α
  deriving DecidableEq

/-- The six assertions of `read_msr_by_coord`. -/
def coord_asserts (cfg : Config) (socket core thread : Int) : Bool :=
  decide (socket < cfg.NUM_SOCKETS) && decide (core < cfg.NUM_CORES_PER_SOCKET) &&
  decide (thread < cfg.NUM_THREADS_PER_CORE) && decide (socket ≥ 0) && decide (core ≥ 0) &&
  decide (thread ≥ 0)

/-- Routine `read_msr_by_coord`: six assertions, then `read_msr_by_idx` at the
index expression. -/
def read_msr_by_coord (cfg : Config) (st : RegFile) (socket core thread : Int) (msr : Nat) :
    ByCoord Nat :=
  if coord_asserts cfg socket core thread then
    let dev_idx := coord_index cfg socket core thread
    if 0 ≤ dev_idx ∧ dev_idx < cfg.NUM_DEVS then
      .accessed dev_idx.toNat (read_msr_by_idx st dev_idx.toNat msr)
    else .outOfTable dev_idx
  else .assertFailed

/-- Routine `write_msr_by_coord`: `write_msr_by_idx` at the index expression.
The source has no assertion here. -/
def write_msr_by_coord (cfg : Config) (st : RegFile) (socket core thread : Int)
    (msr val : Nat) : ByCoord RegFile :=
  let dev_idx := coord_index cfg socket core thread
  if 0 ≤ dev_idx ∧ dev_idx < cfg.NUM_DEVS then
    .accessed dev_idx.toNat (write_msr_by_idx st dev_idx.toNat msr val)
  else .outOfTable dev_idx

/-! ## Device registry (`msr_core.c`) -/

/-- The device files as `init_msr` sees them.  A family is an index into
`filename_base`; a unit is a logical CPU. -/
structure Env where
  /-- Whether `stat` succeeds on `/dev/cpu/<unit>/<family>`. -/
  stat_ok : Nat → Nat → Bool
  /-- Whether `S_IRUSR` and `S_IWUSR` are both set in `st_mode`. -/
  rw_ok : Nat → Nat → Bool
  /-- The result of `open(filename, O_RDWR)`: `-1` or a descriptor. -/
  open_fd : Nat → Nat → Int

/-- A system call on a device file made by `init_msr` or `finalize_msr`. -/
inductive SysCall where
  /-- The `stat` of `stat_check` on family `fn_idx`, unit `dev_idx`. -/
  | stat (fn_idx dev_idx : Nat)
  /-- The `open` of `safe_open(filename, 1)`, closed again on success. -/
  | openProbe (fn_idx dev_idx : Nat)
  /-- The `open` of `safe_open(filename, 0)`, kept open. -/
  | openKeep (fn_idx dev_idx : Nat)
  /-- The `close(core_fd[dev_idx])` of `finalize_msr`. -/
  | close (dev_idx : Nat) (fd : Int)
  deriving DecidableEq

/-- The static data of `msr_core.c`: the flag `initialized` of `init_msr` and
the table `core_fd`. -/
structure Registry where
  initialized : Bool
  core_fd : Nat → Int

/-- The array `filename_base` of `init_msr`; `none` is the null pointer. -/
def filename_base : Nat → Option String
  | 0 => some "msr_dev"
  | 1 => some "msr_safe"
  | 2 => some "msr"
  | _ => none

/-- The three checks on one device file in the first loop of `init_msr`:
`stat_check`, then `rw_check`, then `safe_open(filename, 1) == -1`.  The result
is `skip_remainder` as a boolean, with the system calls made. -/
def check_dev (env : Env) (fn_idx dev_idx : Nat) : Bool × List SysCall :=
  if !env.stat_ok fn_idx dev_idx then (true, [.stat fn_idx dev_idx])
  else if !env.rw_ok fn_idx dev_idx then (true, [.stat fn_idx dev_idx])
  else (env.open_fd fn_idx dev_idx == -1, [.stat fn_idx dev_idx, .openProbe fn_idx dev_idx])

/-- The loop `for (dev_idx = 0; dev_idx < NUM_DEVS; dev_idx++)` over one
family, left by `break` at the first failing unit.  The first argument is
`NUM_DEVS - dev_idx`; the result is `skip_remainder` at the end of the loop. -/
def check_family (env : Env) (fn_idx : Nat) : Nat → Nat → Bool × List SysCall
  | 0, _ => (false, [])
  | n + 1, dev_idx =>
    let r := check_dev env fn_idx dev_idx
    if r.1 then (true, r.2)
    else
      let rest := check_family env fn_idx n (dev_idx + 1)
      (rest.1, r.2 ++ rest.2)

/-- The loop `do ... while (filename_base[fn_idx])` of `init_msr`.  The first
argument bounds the number of iterations.  The result is `fn_idx` and
`skip_remainder` at the end of the loop, with the system calls made. -/
def family_loop (env : Env) (numDevs : Nat) : Nat → Nat → Option (Nat × Bool × List SysCall)
  | 0, _ => none
  | fuel + 1, fn_idx =>
    let r := check_family env fn_idx numDevs 0
    if r.1 then
      if (filename_base (fn_idx + 1)).isSome then
        (family_loop env numDevs fuel (fn_idx + 1)).map
          (fun t => (t.1, t.2.1, r.2 ++ t.2.2))
      else some (fn_idx + 1, true, r.2)
    else some (fn_idx, false, r.2)

/-- The second loop of `init_msr`: `core_fd[dev_idx] = safe_open(filename, 0)`
for each unit, leaving by `exit(-1)` at the first `-1`.  The first argument is
`NUM_DEVS - dev_idx`; the boolean of the result is whether `exit` was
called. -/
def open_loop (env : Env) (fn_idx : Nat) :
    Nat → Nat → (Nat → Int) → (Nat → Int) × Bool × List SysCall
  | 0, _, core_fd => (core_fd, false, [])
  | n + 1, dev_idx, core_fd =>
    let fd := env.open_fd fn_idx dev_idx
    let core_fd1 := Function.update core_fd dev_idx fd
    if fd == -1 then (core_fd1, true, [.openKeep fn_idx dev_idx])
    else
      let rest := open_loop env fn_idx n (dev_idx + 1) core_fd1
      (rest.1, rest.2.1, .openKeep fn_idx dev_idx :: rest.2.2)

/-- How a call of `init_msr` ends. -/
inductive InitResult where
  /-- The call returned `ret`. -/
  | returned (ret : Int) (r : Registry) (calls : List SysCall)
  /-- The call ended the process with `exit(code)`. -/
  | exited (code : Int) (r : Registry) (calls : List SysCall)
  /-- The loop over the families did not finish. -/
  | diverged

/-- Routine `init_msr`. -/
def init_msr (cfg : Config) (env : Env) (r : Registry) : InitResult :=
  if r.initialized then .returned 0 r []
  else
    match family_loop env cfg.NUM_DEVS 4 0 with
    | none => .diverged
    | some (fn_idx, skip_remainder, calls) =>
      if skip_remainder then .exited (-1) r calls
      else
        let o := open_loop env fn_idx cfg.NUM_DEVS 0 r.core_fd
        if o.2.1 then .exited (-1) { r with core_fd := o.1 } (calls ++ o.2.2)
        else .returned 0 { initialized := true, core_fd := o.1 } (calls ++ o.2.2)

/-- The loop of `finalize_msr`: a unit with a non-zero handle is closed, and
the handle is zeroed when `close` returned `0`.  `close_rc dev_idx` is what the
`close` call for unit `dev_idx` returns.  The first argument is
`NUM_DEVS - dev_idx`. -/
def finalize_loop (close_rc : Nat → Int) :
    Nat → Nat → (Nat → Int) → (Nat → Int) × List SysCall
  | 0, _, core_fd => (core_fd, [])
  | n + 1, dev_idx, core_fd =>
    if core_fd dev_idx ≠ 0 then
      let core_fd1 :=
        if close_rc dev_idx ≠ 0 then core_fd else Function.update core_fd dev_idx 0
      let rest := finalize_loop close_rc n (dev_idx + 1) core_fd1
      (rest.1, .close dev_idx (core_fd dev_idx) :: rest.2)
    else finalize_loop close_rc n (dev_idx + 1) core_fd

/-- Routine `finalize_msr`. -/
def finalize_msr (cfg : Config) (close_rc : Nat → Int) (r : Registry) :
    Registry × List SysCall :=
  let o := finalize_loop close_rc cfg.NUM_DEVS 0 r.core_fd
  ({ r with core_fd := o.1 }, o.2)

/-! ## Bit manipulation (`msr_thermal.c`) -/

/-- Macro `MASK_RANGE(m,n)`: `(((uint64_t)1 << (m-n+1)) - 1) << n`, in 64 bits. -/
def MASK_RANGE (m n : Nat) : Nat :=
  ((((1 <<< (m - n + 1)) % 2 ^ 64 + (2 ^ 64 - 1)) % 2 ^ 64) <<< n) % 2 ^ 64

/-- Macro `MASK_VAL(x,m,n)`: `((uint64_t)x & MASK_RANGE(m,n)) >> n`. -/
def MASK_VAL (x m n : Nat) : Nat :=
  (x &&& MASK_RANGE m n) >>> n

/-- The C expression `~c` for a non-negative `int` constant `c`, converted to
`uint64_t` by the usual arithmetic conversions (sign extension): all 64 bits
are set except those of `c`. -/
def notInt (c : Nat) : Nat :=
  2 ^ 64 - (c + 1)

/-- The C expression `f << k` for a view field `f`, converted to `uint64_t`.
The field types are declared in `msr_thermal.h`, which is not among the
sources; the spec describes every field as an unsigned integer.  For every
value at which `f << k` fits a non-negative `int` the result is the same
whichever integer type the field has. -/
def shlField (f k : Nat) : Nat :=
  (f <<< k) % 2 ^ 64

/-- One statement of the set routines:
`msrVal = (msrVal & (~(c << clr))) | (f << pos)`. -/
def overlay (msrVal c clr f pos : Nat) : Nat :=
  (msrVal &&& notInt (c <<< clr)) ||| shlField f pos

/-- The test `f == 0 || f == 1` of the assertions. -/
def isBool (f : Nat) : Bool :=
  f == 0 || f == 1

/-! ## Register offsets -/

/-- Core thermal status, core scope. -/
def IA32_THERM_STATUS : Nat := 0x19C

/-- Core thermal interrupt enables, core scope. -/
def IA32_THERM_INTERRUPT : Nat := 0x19B

/-- Package thermal status, package scope. -/
def IA32_PACKAGE_THERM_STATUS : Nat := 0x1B1

/-- Package thermal interrupt enables, package scope. -/
def IA32_PACKAGE_THERM_INTERRUPT : Nat := 0x1B2

/-- Temperature target. -/
def MSR_TEMPERATURE_TARGET : Nat := 0x1A2

/-! ## Views -/

/-- The elements at one core index of the arrays of `struct therm_stat`. -/
structure therm_stat where
  raw : Nat
  status : Nat
  status_log : Nat
  PROCHOT_or_FORCEPR_event : Nat
  PROCHOT_or_FORCEPR_log : Nat
  crit_temp_status : Nat
  crit_temp_log : Nat
  therm_thresh1_status : Nat
  therm_thresh1_log : Nat
  therm_thresh2_status : Nat
  therm_thresh2_log : Nat
  power_limit_status : Nat
  power_notification_log : Nat
  readout : Nat
  resolution_deg_celsius : Nat
  readout_valid : Nat
  deriving DecidableEq

/-- The elements at one core index of the arrays of `struct therm_interrupt`. -/
structure therm_interrupt where
  raw : Nat
  high_temp_enable : Nat
  low_temp_enable : Nat
  PROCHOT_enable : Nat
  FORCEPR_enable : Nat
  crit_temp_enable : Nat
  thresh1_val : Nat
  thresh1_enable : Nat
  thresh2_val : Nat
  thresh2_enable : Nat
  pwr_limit_notification_enable : Nat
  deriving DecidableEq

/-- The elements at one socket index of the arrays of `struct pkg_therm_stat`. -/
structure pkg_therm_stat where
  raw : Nat
  status : Nat
  status_log : Nat
  PROCHOT_event : Nat
  PROCHOT_log : Nat
  crit_temp_status : Nat
  crit_temp_log : Nat
  therm_thresh1_status : Nat
  therm_thresh1_log : Nat
  therm_thresh2_status : Nat
  therm_thresh2_log : Nat
  power_limit_status : Nat
  power_notification_log : Nat
  readout : Nat
  deriving DecidableEq

/-- The elements at one socket index of the arrays of
`struct pkg_therm_interrupt`. -/
structure pkg_therm_interrupt where
  raw : Nat
  high_temp_enable : Nat
  low_temp_enable : Nat
  PROCHOT_enable : Nat
  crit_temp_enable : Nat
  thresh1_val : Nat
  thresh1_enable : Nat
  thresh2_val : Nat
  thresh2_enable : Nat
  pwr_limit_notification_enable : Nat
  deriving DecidableEq

/-! ## Decoding: the bodies of the `get_*` loops -/

/-- Body of the loop of `get_therm_stat` for one core whose `raw[i]` is `raw`. -/
def get_therm_stat_body (raw : Nat) : therm_stat where
  raw := raw
  status := MASK_VAL raw 0 0
  status_log := MASK_VAL raw 1 1
  PROCHOT_or_FORCEPR_event := MASK_VAL raw 2 2
  PROCHOT_or_FORCEPR_log := MASK_VAL raw 3 3
  crit_temp_status := MASK_VAL raw 4 4
  crit_temp_log := MASK_VAL raw 5 5
  therm_thresh1_status := MASK_VAL raw 6 6
  therm_thresh1_log := MASK_VAL raw 7 7
  therm_thresh2_status := MASK_VAL raw 8 8
  therm_thresh2_log := MASK_VAL raw 9 9
  power_limit_status := MASK_VAL raw 10 10
  power_notification_log := MASK_VAL raw 11 11
  readout := MASK_VAL raw 22 16
  resolution_deg_celsius := MASK_VAL raw 30 27
  readout_valid := MASK_VAL raw 31 31

/-- Body of the loop of `get_therm_interrupt` for one core. -/
def get_therm_interrupt_body (raw : Nat) : therm_interrupt where
  raw := raw
  high_temp_enable := MASK_VAL raw 0 0
  low_temp_enable := MASK_VAL raw 1 1
  PROCHOT_enable := MASK_VAL raw 2 2
  FORCEPR_enable := MASK_VAL raw 3 3
  crit_temp_enable := MASK_VAL raw 4 4
  thresh1_val := MASK_VAL raw 14 8
  thresh1_enable := MASK_VAL raw 15 15
  thresh2_val := MASK_VAL raw 22 16
  thresh2_enable := MASK_VAL raw 23 23
  pwr_limit_notification_enable := MASK_VAL raw 24 24

/-- Body of the loop of `get_pkg_therm_stat` for one socket. -/
def get_pkg_therm_stat_body (raw : Nat) : pkg_therm_stat where
  raw := raw
  status := MASK_VAL raw 0 0
  status_log := MASK_VAL raw 1 1
  PROCHOT_event := MASK_VAL raw 2 2
  PROCHOT_log := MASK_VAL raw 3 3
  crit_temp_status := MASK_VAL raw 4 4
  crit_temp_log := MASK_VAL raw 5 5
  therm_thresh1_status := MASK_VAL raw 6 6
  therm_thresh1_log := MASK_VAL raw 7 7
  therm_thresh2_status := MASK_VAL raw 8 8
  therm_thresh2_log := MASK_VAL raw 9 9
  power_limit_status := MASK_VAL raw 10 10
  power_notification_log := MASK_VAL raw 11 11
  readout := MASK_VAL raw 22 16

/-- Body of the loop of `get_pkg_therm_interrupt` for one socket. -/
def get_pkg_therm_interrupt_body (raw : Nat) : pkg_therm_interrupt where
  raw := raw
  high_temp_enable := MASK_VAL raw 0 0
  low_temp_enable := MASK_VAL raw 1 1
  PROCHOT_enable := MASK_VAL raw 2 2
  crit_temp_enable := MASK_VAL raw 4 4
  thresh1_val := MASK_VAL raw 14 8
  thresh1_enable := MASK_VAL raw 15 15
  thresh2_val := MASK_VAL raw 22 16
  thresh2_enable := MASK_VAL raw 23 23
  pwr_limit_notification_enable := MASK_VAL raw 24 24

/-! ## Encoding: the bodies of the `set_*` loops -/

/-- The six assertions of `set_therm_stat` for one core. -/
def set_therm_stat_asserts (s : therm_stat) : Bool :=
  isBool s.status_log && isBool s.PROCHOT_or_FORCEPR_log && isBool s.crit_temp_log &&
  isBool s.therm_thresh1_log && isBool s.therm_thresh2_log &&
  isBool s.power_notification_log

/-- The six assignments to `msrVal[i]` of `set_therm_stat`.  Each clears the bit
of its own field and shifts the field by one. -/
def set_therm_stat_update (s : therm_stat) (msrVal : Nat) : Nat :=
  let m := overlay msrVal 1 1 s.status_log 1
  let m := overlay m 1 3 s.PROCHOT_or_FORCEPR_log 1
  let m := overlay m 1 5 s.crit_temp_log 1
  let m := overlay m 1 7 s.therm_thresh1_log 1
  let m := overlay m 1 9 s.therm_thresh2_log 1
  overlay m 1 11 s.power_notification_log 1

/-- The eight assertions of `set_therm_interrupt` for one core. -/
def set_therm_interrupt_asserts (s : therm_interrupt) : Bool :=
  isBool s.high_temp_enable && isBool s.low_temp_enable && isBool s.PROCHOT_enable &&
  isBool s.FORCEPR_enable && isBool s.crit_temp_enable && isBool s.thresh1_enable &&
  isBool s.thresh2_enable && isBool s.pwr_limit_notification_enable

/-- The ten assignments to `msrVal[i]` of `set_therm_interrupt`.  The two
threshold values are cleared with the mask `7`. -/
def set_therm_interrupt_update (s : therm_interrupt) (msrVal : Nat) : Nat :=
  let m := overlay msrVal 1 0 s.high_temp_enable 0
  let m := overlay m 1 1 s.low_temp_enable 1
  let m := overlay m 1 2 s.PROCHOT_enable 2
  let m := overlay m 1 3 s.FORCEPR_enable 3
  let m := overlay m 1 4 s.crit_temp_enable 4
  let m := overlay m 7 8 s.thresh1_val 8
  let m := overlay m 1 15 s.thresh1_enable 15
  let m := overlay m 7 16 s.thresh2_val 16
  let m := overlay m 1 23 s.thresh2_enable 23
  overlay m 1 24 s.pwr_limit_notification_enable 24

/-- The six assertions of `set_pkg_therm_stat` for one socket.  The third one
reads `crit_temp_log[i] == 0 || PROCHOT_log[i] == 1`. -/
def set_pkg_therm_stat_asserts (s : pkg_therm_stat) : Bool :=
  isBool s.status_log && isBool s.PROCHOT_log &&
  (s.crit_temp_log == 0 || s.PROCHOT_log == 1) &&
  isBool s.therm_thresh1_log && isBool s.therm_thresh2_log &&
  isBool s.power_notification_log

/-- The six assignments to `msrVal[i]` of `set_pkg_therm_stat`. -/
def set_pkg_therm_stat_update (s : pkg_therm_stat) (msrVal : Nat) : Nat :=
  let m := overlay msrVal 1 1 s.status_log 1
  let m := overlay m 1 3 s.PROCHOT_log 3
  let m := overlay m 1 5 s.crit_temp_log 5
  let m := overlay m 1 7 s.therm_thresh1_log 7
  let m := overlay m 1 9 s.therm_thresh2_log 9
  overlay m 1 11 s.power_notification_log 11

/-- The seven assertions of `set_pkg_therm_interrupt` for one socket. -/
def set_pkg_therm_interrupt_asserts (s : pkg_therm_interrupt) : Bool :=
  isBool s.high_temp_enable && isBool s.low_temp_enable && isBool s.PROCHOT_enable &&
  isBool s.crit_temp_enable && isBool s.thresh1_enable && isBool s.thresh2_enable &&
  isBool s.pwr_limit_notification_enable

/-- The nine assignments to `msrVal[i]` of `set_pkg_therm_interrupt`. -/
def set_pkg_therm_interrupt_update (s : pkg_therm_interrupt) (msrVal : Nat) : Nat :=
  let m := overlay msrVal 1 0 s.high_temp_enable 0
  let m := overlay m 1 1 s.low_temp_enable 1
  let m := overlay m 1 2 s.PROCHOT_enable 2
  let m := overlay m 1 4 s.crit_temp_enable 4
  let m := overlay m 7 8 s.thresh1_val 8
  let m := overlay m 1 15 s.thresh1_enable 15
  let m := overlay m 7 16 s.thresh2_val 16
  let m := overlay m 1 23 s.thresh2_enable 23
  overlay m 1 24 s.pwr_limit_notification_enable 24

/-! ## The `get_*` and `set_*` routines -/

/-- The loop `for (i = 0; i < n; i++)` of a `get_*` routine: the fields of
index `i` are assigned from `raw[i]`. -/
def get_loop {α : Type} (rawOf : α → Nat) (body : Nat → α) :
    Nat → Nat → (Nat → α) → (Nat → α)
  | 0, _, s => s
  | n + 1, i, s => get_loop rawOf body n (i + 1) (Function.update s i (body (rawOf (s i))))

/-- The loop `for (i = 0; i < n; i++)` of a `set_*` routine: the assertions on
the fields of index `i`, then the assignments to `msrVal[i]`.  `none` is a
failed assertion. -/
def set_loop {α : Type} (asserts : α → Bool) (update : α → Nat → Nat) (s : Nat → α) :
    Nat → Nat → (Nat → Nat) → Option (Nat → Nat)
  | 0, _, msrVal => some msrVal
  | n + 1, i, msrVal =>
    if asserts (s i) then
      set_loop asserts update s n (i + 1) (Function.update msrVal i (update (s i) (msrVal i)))
    else none

/-- How a call of a `set_*` routine ends. -/
inductive Outcome where
  /-- The routine returned; the register file is as given. -/
  | done (st : RegFile)
  /-- An assertion failed; the register file at that moment is as given. -/
  | aborted (st : RegFile)
  /-- A loop did not finish. -/
  | diverged

/-- The value of a register after a call that returned. -/
def Outcome.read : Outcome → Nat → Nat → Option Nat
  | .done st, dev_idx, msr => some (st dev_idx msr)
  | _, _, _ => none

/-- Whether the call ended in a failed assertion. -/
def Outcome.isAborted : Outcome → Bool
  | .aborted _ => true
  | _ => false

/-- Routine `get_therm_stat`: `read_all_cores` into `s->raw`, then the decoding
loop over the cores. -/
def get_therm_stat (cfg : Config) (st : RegFile) (s : Nat → therm_stat) :
    Option (Nat → therm_stat) :=
  match read_all_cores cfg st IA32_THERM_STATUS (fun i => (s i).raw) with
  | none => none
  | some raw =>
    some (get_loop therm_stat.raw get_therm_stat_body cfg.NUM_CORES 0
      (fun i => { s i with raw := raw i }))

/-- Routine `get_therm_interrupt`: `read_all_cores` into `s->raw`, then the
decoding loop over the cores. -/
def get_therm_interrupt (cfg : Config) (st : RegFile) (s : Nat → therm_interrupt) :
    Option (Nat → therm_interrupt) :=
  match read_all_cores cfg st IA32_THERM_INTERRUPT (fun i => (s i).raw) with
  | none => none
  | some raw =>
    some (get_loop therm_interrupt.raw get_therm_interrupt_body cfg.NUM_CORES 0
      (fun i => { s i with raw := raw i }))

/-- Routine `get_pkg_therm_stat`: `read_all_sockets` into `s->raw`, then the
decoding loop over the sockets. -/
def get_pkg_therm_stat (cfg : Config) (st : RegFile) (s : Nat → pkg_therm_stat) :
    Option (Nat → pkg_therm_stat) :=
  match read_all_sockets cfg st IA32_PACKAGE_THERM_STATUS (fun i => (s i).raw) with
  | none => none
  | some raw =>
    some (get_loop pkg_therm_stat.raw get_pkg_therm_stat_body cfg.NUM_SOCKETS 0
      (fun i => { s i with raw := raw i }))

/-- Routine `get_pkg_therm_interrupt`: `read_all_sockets` into `s->raw`, then
the decoding loop over the sockets. -/
def get_pkg_therm_interrupt (cfg : Config) (st : RegFile) (s : Nat → pkg_therm_interrupt) :
    Option (Nat → pkg_therm_interrupt) :=
  match read_all_sockets cfg st IA32_PACKAGE_THERM_INTERRUPT (fun i => (s i).raw) with
  | none => none
  | some raw =>
    some (get_loop pkg_therm_interrupt.raw get_pkg_therm_interrupt_body cfg.NUM_SOCKETS 0
      (fun i => { s i with raw := raw i }))

/-- The shape shared by the four `set_*` routines: a batched read into the
local array `msrVal`, the loop of assertions and assignments, a batched vector
write.  The local array is not initialised in C; its elements start as `0`
here and the read overwrites those the loop uses. -/
def set_routine {α : Type} (readAll : RegFile → Nat → (Nat → Nat) → Option (Nat → Nat))
    (writeAllV : RegFile → Nat → (Nat → Nat) → Option RegFile) (msr n : Nat)
    (asserts : α → Bool) (update : α → Nat → Nat) (s : Nat → α) (st : RegFile) : Outcome :=
  match readAll st msr (fun _ => 0) with
  | none => .diverged
  | some msrVal =>
    match set_loop asserts update s n 0 msrVal with
    | none => .aborted st
    | some msrVal1 =>
      match writeAllV st msr msrVal1 with
      | none => .diverged
      | some st1 => .done st1

/-- Routine `set_therm_stat`: register `IA32_THERM_STATUS`, one value per core. -/
def set_therm_stat (cfg : Config) (s : Nat → therm_stat) (st : RegFile) : Outcome :=
  set_routine (read_all_cores cfg) (write_all_cores_v cfg) IA32_THERM_STATUS cfg.NUM_CORES
    set_therm_stat_asserts set_therm_stat_update s st

/-- Routine `set_therm_interrupt`: register `IA32_THERM_INTERRUPT`, one value per
core. -/
def set_therm_interrupt (cfg : Config) (s : Nat → therm_interrupt) (st : RegFile) : Outcome :=
  set_routine (read_all_cores cfg) (write_all_cores_v cfg) IA32_THERM_INTERRUPT cfg.NUM_CORES
    set_therm_interrupt_asserts set_therm_interrupt_update s st

/-- Routine `set_pkg_therm_stat`: register `IA32_PACKAGE_THERM_STATUS`, one value
per socket. -/
def set_pkg_therm_stat (cfg : Config) (s : Nat → pkg_therm_stat) (st : RegFile) : Outcome :=
  set_routine (read_all_sockets cfg) (write_all_sockets_v cfg) IA32_PACKAGE_THERM_STATUS
    cfg.NUM_SOCKETS set_pkg_therm_stat_asserts set_pkg_therm_stat_update s st

/-- Routine `set_pkg_therm_interrupt`: register `IA32_PACKAGE_THERM_INTERRUPT`,
one value per socket. -/
def set_pkg_therm_interrupt (cfg : Config) (s : Nat → pkg_therm_interrupt) (st : RegFile) :
    Outcome :=
  set_routine (read_all_sockets cfg) (write_all_sockets_v cfg) IA32_PACKAGE_THERM_INTERRUPT
    cfg.NUM_SOCKETS set_pkg_therm_interrupt_asserts set_pkg_therm_interrupt_update s st

/-! ## Temperature target and dumps (`msr_thermal.c`) -/

/-- The elements at one socket index of the arrays of `struct msr_temp_target`. -/
structure msr_temp_target where
  raw : Nat
  temp_target : Nat
  deriving DecidableEq

/-- Body of the loop of `get_temp_target` for one socket. -/
def get_temp_target_body (raw : Nat) : msr_temp_target where
  raw := raw
  temp_target := MASK_VAL raw 23 16

/-- Routine `get_temp_target`: `read_all_sockets` into `s->raw`, then the
decoding loop over the sockets. -/
def get_temp_target (cfg : Config) (st : RegFile) (s : Nat → msr_temp_target) :
    Option (Nat → msr_temp_target) :=
  match read_all_sockets cfg st MSR_TEMPERATURE_TARGET (fun i => (s i).raw) with
  | none => none
  | some raw =>
    some (get_loop msr_temp_target.raw get_temp_target_body cfg.NUM_SOCKETS 0
      (fun i => { s i with raw := raw i }))

/-- The file-scope statics of `msr_thermal.c` and the static `initialized` of
`is_init`. -/
structure ThermalStatics where
  initialized : Bool
  t_target : Nat → msr_temp_target
  t_stat : Nat → therm_stat
  t_interrupt : Nat → therm_interrupt
  pkg_stat : Nat → pkg_therm_stat
  pkg_interrupt : Nat → pkg_therm_interrupt

/-- Routine `is_init`: `get_temp_target(&t_target)` unless `initialized`.  The
source never assigns `initialized`. -/
def is_init (cfg : Config) (st : RegFile) (g : ThermalStatics) : Option ThermalStatics :=
  if !g.initialized then
    (get_temp_target cfg st g.t_target).map (fun t => { g with t_target := t })
  else some g

/-- One call `fprintf(stdout, fmt, args...)`: the format and the integer
arguments. -/
structure Printf where
  fmt : String
  args : List Int
  deriving DecidableEq

/-- The loop `for (i = lo; i < hi; i++) body`, with the output of the body
appended in the order of the iterations.  The first argument is `hi - i`. -/
def for_loop (body : Nat → List Printf) : Nat → Nat → List Printf
  | 0, _ => []
  | n + 1, i => body i ++ for_loop body n (i + 1)

/-- The two nested loops of the dump routines: `socket` from `0` below
`NUM_SOCKETS`, the output of `perSocket`, then `core` from
`NUM_CORES_PER_SOCKET * socket` below `NUM_CORES_PER_SOCKET * (socket + 1)`. -/
def dump_loops (cfg : Config) (perSocket : Nat → List Printf)
    (perCore : Nat → Nat → List Printf) : List Printf :=
  for_loop (fun socket =>
      perSocket socket ++
      for_loop (perCore socket)
        (cfg.NUM_CORES_PER_SOCKET * (socket + 1) - cfg.NUM_CORES_PER_SOCKET * socket)
        (cfg.NUM_CORES_PER_SOCKET * socket))
    cfg.NUM_SOCKETS 0

/-- Routine `dump_thermal_terse_label`. -/
def dump_thermal_terse_label (cfg : Config) : List Printf :=
  dump_loops cfg (fun _ => [])
    (fun socket core => [⟨"TempC_%02d_%02d ", [(socket : Int), (core : Int)]⟩])

/-- The statement `actTemp = t_target.temp_target[socket] - t_stat.readout[core]`
with `int actTemp`.  Whatever integer types of at least 32 bits the two fields
have, for values below `2 ^ 31` the `int` stored is the difference of the two
numbers. -/
def actTemp (g : ThermalStatics) (socket core : Nat) : Int :=
  ((g.t_target socket).temp_target : Int) - ((g.t_stat core).readout : Int)

/-- Routine `dump_thermal_terse`: `is_init`, `get_therm_stat(&t_stat)`, then one
`fprintf(stdout, "%d ", actTemp)` per core.  The result is the statics after
the call and the output. -/
def dump_thermal_terse (cfg : Config) (st : RegFile) (g : ThermalStatics) :
    Option (ThermalStatics × List Printf) :=
  match is_init cfg st g with
  | none => none
  | some g1 =>
    match get_therm_stat cfg st g1.t_stat with
    | none => none
    | some ts =>
      let g2 := { g1 with t_stat := ts }
      some (g2, dump_loops cfg (fun _ => [])
        (fun socket core => [⟨"%d ", [actTemp g2 socket core]⟩]))

/-- The formats of the twenty-five `fprintf` calls per socket of
`dump_thermal_verbose_label`, each with the one argument `socket`. -/
def verbose_socket_formats : List String :=
  ["socket_status_%02d ",
   "socket_log_%02d ",
   "socket_PROCHOT_event_%02d ",
   "socket_PROCHOT_log_%02d ",
   "socket_crit_temp_status_%02d ",
   "socket_crit_temp_log_%02d ",
   "socket_therm_thresh1_status_%02d ",
   "socket_therm_thresh1_log_%02d ",
   "socket_therm_thresh2_status_%02d ",
   "socket_therm_thresh2_log_%02d ",
   "socket_power_limit_status_%02d ",
   "socket_power_notification_log_%02d ",
   "socket_readout_%02d ",
   "socket_TempC_%02d ",
   "socket_high_temp_enable_%02d ",
   "socket_low_temp_enable_%02d ",
   "socket_PROCHOT_enable_%02d ",
   "socket_crit_temp_enable_%02d ",
   "socket_thresh1_val_%02d ",
   "socket_thresh1_actual_tempC_%02d ",
   "socket_thresh1_enable_%02d ",
   "socket_thresh2_val_%02d ",
   "socket_thresh2_actual_tempC_%02d ",
   "socket_thresh2_enable_%02d ",
   "socket_pwr_limit_notification_enable_%02d "]

/-- The formats of the twenty-eight `fprintf` calls per core of
`dump_thermal_verbose_label`, each with the two arguments `socket, core`. -/
def verbose_core_formats : List String :=
  ["core_status_%02d_%02d ",
   "core_log_%02d_%02d ",
   "core_PROCHOT_or_FORCEPR_event_%02d_%02d ",
   "core_PROCHOT_or_FORCEPR_log_%02d_%02d ",
   "core_crit_temp_status_%02d_%02d ",
   "core_crit_temp_log_%02d_%02d ",
   "core_therm_thresh1_status_%02d_%02d ",
   "core_therm_thresh1_log_%02d_%02d ",
   "core_therm_thresh2_status_%02d_%02d ",
   "core_therm_thresh2_log_%02d_%02d ",
   "core_power_limit_status_%02d_%02d ",
   "core_power_notification_log_%02d_%02d ",
   "core_readout_%02d_%02d ",
   "core_TempC_%02d_%02d ",
   "core_resolution_deg_celsius_%02d_%02d ",
   "core_readout_valid_%02d_%02d ",
   "core_high_temp_enable_%02d_%02d ",
   "core_low_temp_enable_%02d_%02d ",
   "core_PROCHOT_enable_%02d_%02d ",
   "core_FORCEPR_enable_%02d_%02d ",
   "core_crit_temp_enable_%02d_%02d ",
   "core_thresh1_val_%02d_%02d ",
   "core_thresh1_actual_tempC_%02d_%02d ",
   "core_thresh1_enable_%02d_%02d ",
   "core_thresh2_val_%02d_%02d ",
   "core_thresh2_actual_tempC_%02d_%02d ",
   "core_thresh2_enable_%02d_%02d ",
   "core_pwr_limit_notification_enable_%02d_%02d "]

/-- Routine `dump_thermal_verbose_label`. -/
def dump_thermal_verbose_label (cfg : Config) : List Printf :=
  dump_loops cfg
    (fun socket => verbose_socket_formats.map (fun f => ⟨f, [(socket : Int)]⟩))
    (fun socket core => verbose_core_formats.map (fun f => ⟨f, [(socket : Int), (core : Int)]⟩))

/-- Routine `dump_thermal_verbose`: `is_init` and the four `get_*` calls, then
the two loops.  Every `fprintf` of the loops is, character for character, the
one at the same place in `dump_thermal_verbose_label`: a label format with
`socket`, or `socket, core`, as arguments (the source carries the comment
`TODO: Change from printing labels to printing values`). -/
def dump_thermal_verbose (cfg : Config) (st : RegFile) (g : ThermalStatics) :
    Option (ThermalStatics × List Printf) :=
  match is_init cfg st g with
  | none => none
  | some g1 =>
    match get_therm_stat cfg st g1.t_stat with
    | none => none
    | some ts =>
      match get_therm_interrupt cfg st g1.t_interrupt with
      | none => none
      | some ti =>
        match get_pkg_therm_stat cfg st g1.pkg_stat with
        | none => none
        | some ps =>
          match get_pkg_therm_interrupt cfg st g1.pkg_interrupt with
          | none => none
          | some pi =>
            some ({ g1 with t_stat := ts, t_interrupt := ti, pkg_stat := ps,
                            pkg_interrupt := pi },
              dump_loops cfg
                (fun socket => verbose_socket_formats.map (fun f => ⟨f, [(socket : Int)]⟩))
                (fun socket core =>
                  verbose_core_formats.map (fun f => ⟨f, [(socket : Int), (core : Int)]⟩)))

/-! ## Core configuration (`cpuid.c`) -/

/-- The values `cpuid_detect_core_conf` stores through its four pointers. -/
structure CoreConf where
  coresPerSocket : Nat
  hyperThreads : Nat
  sockets : Nat
  HTenabled : Int
  deriving DecidableEq

/-- Routine `cpuid_detect_core_conf`.  `rbx0` and `rbx1` are what the two
`cpuid` instructions (leaf `0xb`, sub-leaf 0 and 1) leave in `rbx`; `allcores`
and `availcores` are the `int`s `get_nprocs_conf()` and `get_nprocs()` return.
The two quotients are `uint64_t` divisions (`allcores` is converted to
`uint64_t`); `none` is a division by zero. -/
def cpuid_detect_core_conf (rbx0 rbx1 : Nat) (allcores availcores : Int) : Option CoreConf :=
  let hyperThreads := rbx0 &&& 0xFFFF
  if hyperThreads = 0 then none
  else
    let coresPerSocket := (rbx1 &&& 0xFFFF) / hyperThreads
    if coresPerSocket = 0 then none
    else
      let sockets := (allcores % 2 ^ 64).toNat / coresPerSocket / hyperThreads
      let HTenabled : Int := if availcores ≠ allcores then 0 else 1
      some ⟨coresPerSocket, hyperThreads, sockets, HTenabled⟩

/-! ## Test values -/

/-- One socket, one core, one thread. -/
def cfg1 : Config := ⟨1, 1, 1⟩

/-- A register file whose unit 0 holds `v` in register `msr`, all else `0`. -/
def regs1 (msr v : Nat) : RegFile :=
  fun d m => if d = 0 ∧ m = msr then v else 0

/-- The arrays of a `static struct therm_stat`, zero-initialised. -/
def therm_stat_zero : Nat → therm_stat :=
  fun _ => ⟨0, 0, 0, 0, 0, 0, 0, 0, 0, 0, 0, 0, 0, 0, 0, 0⟩

/-- The arrays of a `static struct therm_interrupt`, zero-initialised. -/
def therm_interrupt_zero : Nat → therm_interrupt :=
  fun _ => ⟨0, 0, 0, 0, 0, 0, 0, 0, 0, 0, 0⟩

/-- The arrays of a `static struct pkg_therm_stat`, zero-initialised. -/
def pkg_therm_stat_zero : Nat → pkg_therm_stat :=
  fun _ => ⟨0, 0, 0, 0, 0, 0, 0, 0, 0, 0, 0, 0, 0, 0⟩

/-- The arrays of a `static struct pkg_therm_interrupt`, zero-initialised. -/
def pkg_therm_interrupt_zero : Nat → pkg_therm_interrupt :=
  fun _ => ⟨0, 0, 0, 0, 0, 0, 0, 0, 0, 0⟩

/-- Two sockets, two cores per socket, two threads per core. -/
def cfg2 : Config := ⟨2, 2, 2⟩

/-- A register file in which every register holds `v`. -/
def regsAll (v : Nat) : RegFile :=
  fun _ _ => v

/-- One socket of two cores of one thread. -/
def cfg12 : Config := ⟨1, 2, 1⟩

/-- A register file in which every register of unit `d` holds `d`. -/
def regsUnit : RegFile :=
  fun d _ => d

/-- A register file in which every unit holds `0x400000` in the thermal-status
register and `0x550000` (temperature target 85) in the temperature-target
register. -/
def regsScenario : RegFile :=
  fun _ m => if m = 0x19C then 0x400000 else if m = 0x1A2 then 0x550000 else 0

/-- The statics of `msr_thermal.c` at program start: static data is zero. -/
def thermal_statics_zero : ThermalStatics :=
  ⟨false, fun _ => ⟨0, 0⟩, therm_stat_zero, therm_interrupt_zero, pkg_therm_stat_zero,
    pkg_therm_interrupt_zero⟩

/-! ## Vocabulary of the statements -/

/-- The field of `raw` in the bit range `high:low`, in the words of the
specification: `(raw >> low) mod 2 ^ (high - low + 1)`. -/
def bitsOf (raw high low : Nat) : Nat :=
  (raw >>> low) % 2 ^ (high - low + 1)


/-- The boolean fields `set_therm_interrupt` writes. -/
inductive therm_interrupt_flag where
  | high_temp_enable
  | low_temp_enable
  | PROCHOT_enable
  | FORCEPR_enable
  | crit_temp_enable
  | thresh1_enable
  | thresh2_enable
  | pwr_limit_notification_enable
  deriving DecidableEq

/-- The view with one boolean field replaced. -/
def therm_interrupt.setFlag (s : therm_interrupt) : therm_interrupt_flag → Nat → therm_interrupt
  | .high_temp_enable, v => { s with high_temp_enable := v }
  | .low_temp_enable, v => { s with low_temp_enable := v }
  | .PROCHOT_enable, v => { s with PROCHOT_enable := v }
  | .FORCEPR_enable, v => { s with FORCEPR_enable := v }
  | .crit_temp_enable, v => { s with crit_temp_enable := v }
  | .thresh1_enable, v => { s with thresh1_enable := v }
  | .thresh2_enable, v => { s with thresh2_enable := v }
  | .pwr_limit_notification_enable, v => { s with pwr_limit_notification_enable := v }

/-- The value of one boolean field of the view. -/
def therm_interrupt.getFlag (s : therm_interrupt) : therm_interrupt_flag → Nat
  | .high_temp_enable => s.high_temp_enable
  | .low_temp_enable => s.low_temp_enable
  | .PROCHOT_enable => s.PROCHOT_enable
  | .FORCEPR_enable => s.FORCEPR_enable
  | .crit_temp_enable => s.crit_temp_enable
  | .thresh1_enable => s.thresh1_enable
  | .thresh2_enable => s.thresh2_enable
  | .pwr_limit_notification_enable => s.pwr_limit_notification_enable

/-- The boolean fields `set_pkg_therm_interrupt` writes. -/
inductive pkg_therm_interrupt_flag where
  | high_temp_enable
  | low_temp_enable
  | PROCHOT_enable
  | crit_temp_enable
  | thresh1_enable
  | thresh2_enable
  | pwr_limit_notification_enable
  deriving DecidableEq

/-- The view with one boolean field replaced. -/
def pkg_therm_interrupt.setFlag (s : pkg_therm_interrupt) :
    pkg_therm_interrupt_flag → Nat → pkg_therm_interrupt
  | .high_temp_enable, v => { s with high_temp_enable := v }
  | .low_temp_enable, v => { s with low_temp_enable := v }
  | .PROCHOT_enable, v => { s with PROCHOT_enable := v }
  | .crit_temp_enable, v => { s with crit_temp_enable := v }
  | .thresh1_enable, v => { s with thresh1_enable := v }
  | .thresh2_enable, v => { s with thresh2_enable := v }
  | .pwr_limit_notification_enable, v => { s with pwr_limit_notification_enable := v }

/-- The value of one boolean field of the view. -/
def pkg_therm_interrupt.getFlag (s : pkg_therm_interrupt) : pkg_therm_interrupt_flag → Nat
  | .high_temp_enable => s.high_temp_enable
  | .low_temp_enable => s.low_temp_enable
  | .PROCHOT_enable => s.PROCHOT_enable
  | .crit_temp_enable => s.crit_temp_enable
  | .thresh1_enable => s.thresh1_enable
  | .thresh2_enable => s.thresh2_enable
  | .pwr_limit_notification_enable => s.pwr_limit_notification_enable

/-- The six log fields `set_therm_stat` writes are each `0` or `1`. -/
def therm_stat.flagsBoolean (s : therm_stat) : Prop :=
  (s.status_log = 0 ∨ s.status_log = 1) ∧
  (s.PROCHOT_or_FORCEPR_log = 0 ∨ s.PROCHOT_or_FORCEPR_log = 1) ∧
  (s.crit_temp_log = 0 ∨ s.crit_temp_log = 1) ∧
  (s.therm_thresh1_log = 0 ∨ s.therm_thresh1_log = 1) ∧
  (s.therm_thresh2_log = 0 ∨ s.therm_thresh2_log = 1) ∧
  (s.power_notification_log = 0 ∨ s.power_notification_log = 1)

/-- The eight boolean fields `set_therm_interrupt` writes are each `0` or `1`. -/
def therm_interrupt.flagsBoolean (s : therm_interrupt) : Prop :=
  (s.high_temp_enable = 0 ∨ s.high_temp_enable = 1) ∧
  (s.low_temp_enable = 0 ∨ s.low_temp_enable = 1) ∧
  (s.PROCHOT_enable = 0 ∨ s.PROCHOT_enable = 1) ∧
  (s.FORCEPR_enable = 0 ∨ s.FORCEPR_enable = 1) ∧
  (s.crit_temp_enable = 0 ∨ s.crit_temp_enable = 1) ∧
  (s.thresh1_enable = 0 ∨ s.thresh1_enable = 1) ∧
  (s.thresh2_enable = 0 ∨ s.thresh2_enable = 1) ∧
  (s.pwr_limit_notification_enable = 0 ∨ s.pwr_limit_notification_enable = 1)

/-- The six log fields `set_pkg_therm_stat` writes are each `0` or `1`. -/
def pkg_therm_stat.flagsBoolean (s : pkg_therm_stat) : Prop :=
  (s.status_log = 0 ∨ s.status_log = 1) ∧
  (s.PROCHOT_log = 0 ∨ s.PROCHOT_log = 1) ∧
  (s.crit_temp_log = 0 ∨ s.crit_temp_log = 1) ∧
  (s.therm_thresh1_log = 0 ∨ s.therm_thresh1_log = 1) ∧
  (s.therm_thresh2_log = 0 ∨ s.therm_thresh2_log = 1) ∧
  (s.power_notification_log = 0 ∨ s.power_notification_log = 1)

/-- The seven boolean fields `set_pkg_therm_interrupt` writes are each `0` or
`1`. -/
def pkg_therm_interrupt.flagsBoolean (s : pkg_therm_interrupt) : Prop :=
  (s.high_temp_enable = 0 ∨ s.high_temp_enable = 1) ∧
  (s.low_temp_enable = 0 ∨ s.low_temp_enable = 1) ∧
  (s.PROCHOT_enable = 0 ∨ s.PROCHOT_enable = 1) ∧
  (s.crit_temp_enable = 0 ∨ s.crit_temp_enable = 1) ∧
  (s.thresh1_enable = 0 ∨ s.thresh1_enable = 1) ∧
  (s.thresh2_enable = 0 ∨ s.thresh2_enable = 1) ∧
  (s.pwr_limit_notification_enable = 0 ∨ s.pwr_limit_notification_enable = 1)

instance (s : therm_stat) : Decidable s.flagsBoolean := by
  unfold therm_stat.flagsBoolean; infer_instance

instance (s : therm_interrupt) : Decidable s.flagsBoolean := by
  unfold therm_interrupt.flagsBoolean; infer_instance

instance (s : pkg_therm_stat) : Decidable s.flagsBoolean := by
  unfold pkg_therm_stat.flagsBoolean; infer_instance

instance (s : pkg_therm_interrupt) : Decidable s.flagsBoolean := by
  unfold pkg_therm_interrupt.flagsBoolean; infer_instance

/-- The predicate `ok(family, unit)`: `stat` succeeds, the owner read and write
bits are set, and `open` succeeds. -/
def Env.ok (env : Env) (fn_idx dev_idx : Nat) : Bool :=
  env.stat_ok fn_idx dev_idx && env.rw_ok fn_idx dev_idx && (env.open_fd fn_idx dev_idx != -1)

/-- Every unit below `numDevs` passes its checks in family `fn_idx`. -/
def Env.familyOk (env : Env) (numDevs fn_idx : Nat) : Prop :=
  ∀ u, u < numDevs → env.ok fn_idx u = true

instance (env : Env) (numDevs fn_idx : Nat) : Decidable (env.familyOk numDevs fn_idx) := by
  unfold Env.familyOk; infer_instance

/-- Successive calls of `init_msr`, one per environment of the list, each
starting from the registry the previous call left; the list of their results,
ended by the first call that does not return. -/
def init_msr_calls (cfg : Config) : List Env → Registry → List InitResult
  | [], _ => []
  | env :: envs, r =>
    match init_msr cfg env r with
    | .returned ret r1 calls => .returned ret r1 calls :: init_msr_calls cfg envs r1
    | other => [other]

/-- The registry at program start: static data is zero. -/
def registry_zero : Registry :=
  ⟨false, fun _ => 0⟩

/-- An environment in which `msr_dev` lacks the write bit on unit 1, every
`msr_safe` file passes and opens as descriptor `3 + unit`, and no `msr` file
can be opened. -/
def envSafeOnly : Env where
  stat_ok := fun _ _ => true
  rw_ok := fun f u => !(f == 0 && u == 1)
  open_fd := fun f u => if f == 2 then -1 else 3 + (u : Int)

/-- An environment in which no device file exists. -/
def envNone : Env where
  stat_ok := fun _ _ => false
  rw_ok := fun _ _ => false
  open_fd := fun _ _ => -1

/-- The view of a core thermal-status value laid out field by field as the
claimed bit ranges. -/
def therm_stat_layout (raw : Nat) : therm_stat where
  raw := raw
  status := bitsOf raw 0 0
  status_log := bitsOf raw 1 1
  PROCHOT_or_FORCEPR_event := bitsOf raw 2 2
  PROCHOT_or_FORCEPR_log := bitsOf raw 3 3
  crit_temp_status := bitsOf raw 4 4
  crit_temp_log := bitsOf raw 5 5
  therm_thresh1_status := bitsOf raw 6 6
  therm_thresh1_log := bitsOf raw 7 7
  therm_thresh2_status := bitsOf raw 8 8
  therm_thresh2_log := bitsOf raw 9 9
  power_limit_status := bitsOf raw 10 10
  power_notification_log := bitsOf raw 11 11
  readout := bitsOf raw 22 16
  resolution_deg_celsius := bitsOf raw 30 27
  readout_valid := bitsOf raw 31 31

/-- The view of a package thermal-status value laid out as the claimed bit
ranges. -/
def pkg_therm_stat_layout (raw : Nat) : pkg_therm_stat where
  raw := raw
  status := bitsOf raw 0 0
  status_log := bitsOf raw 1 1
  PROCHOT_event := bitsOf raw 2 2
  PROCHOT_log := bitsOf raw 3 3
  crit_temp_status := bitsOf raw 4 4
  crit_temp_log := bitsOf raw 5 5
  therm_thresh1_status := bitsOf raw 6 6
  therm_thresh1_log := bitsOf raw 7 7
  therm_thresh2_status := bitsOf raw 8 8
  therm_thresh2_log := bitsOf raw 9 9
  power_limit_status := bitsOf raw 10 10
  power_notification_log := bitsOf raw 11 11
  readout := bitsOf raw 22 16

/-- The view of a core thermal-interrupt value laid out as the claimed bit
ranges. -/
def therm_interrupt_layout (raw : Nat) : therm_interrupt where
  raw := raw
  high_temp_enable := bitsOf raw 0 0
  low_temp_enable := bitsOf raw 1 1
  PROCHOT_enable := bitsOf raw 2 2
  FORCEPR_enable := bitsOf raw 3 3
  crit_temp_enable := bitsOf raw 4 4
  thresh1_val := bitsOf raw 14 8
  thresh1_enable := bitsOf raw 15 15
  thresh2_val := bitsOf raw 22 16
  thresh2_enable := bitsOf raw 23 23
  pwr_limit_notification_enable := bitsOf raw 24 24

/-- The view of a package thermal-interrupt value laid out as the claimed bit
ranges; bit 3 has no field. -/
def pkg_therm_interrupt_layout (raw : Nat) : pkg_therm_interrupt where
  raw := raw
  high_temp_enable := bitsOf raw 0 0
  low_temp_enable := bitsOf raw 1 1
  PROCHOT_enable := bitsOf raw 2 2
  crit_temp_enable := bitsOf raw 4 4
  thresh1_val := bitsOf raw 14 8
  thresh1_enable := bitsOf raw 15 15
  thresh2_val := bitsOf raw 22 16
  thresh2_enable := bitsOf raw 23 23
  pwr_limit_notification_enable := bitsOf raw 24 24

/-- Every one-bit field of the view is `0` or `1` and `readout` is at most
`127`. -/
def therm_stat.inRange (s : therm_stat) : Prop :=
  s.status ≤ 1 ∧ s.status_log ≤ 1 ∧ s.PROCHOT_or_FORCEPR_event ≤ 1 ∧
  s.PROCHOT_or_FORCEPR_log ≤ 1 ∧ s.crit_temp_status ≤ 1 ∧ s.crit_temp_log ≤ 1 ∧
  s.therm_thresh1_status ≤ 1 ∧ s.therm_thresh1_log ≤ 1 ∧ s.therm_thresh2_status ≤ 1 ∧
  s.therm_thresh2_log ≤ 1 ∧ s.power_limit_status ≤ 1 ∧ s.power_notification_log ≤ 1 ∧
  s.readout ≤ 127 ∧ s.readout_valid ≤ 1

/-- Every one-bit field of the view is `0` or `1` and `readout` is at most
`127`. -/
def pkg_therm_stat.inRange (s : pkg_therm_stat) : Prop :=
  s.status ≤ 1 ∧ s.status_log ≤ 1 ∧ s.PROCHOT_event ≤ 1 ∧
  s.PROCHOT_log ≤ 1 ∧ s.crit_temp_status ≤ 1 ∧ s.crit_temp_log ≤ 1 ∧
  s.therm_thresh1_status ≤ 1 ∧ s.therm_thresh1_log ≤ 1 ∧ s.therm_thresh2_status ≤ 1 ∧
  s.therm_thresh2_log ≤ 1 ∧ s.power_limit_status ≤ 1 ∧ s.power_notification_log ≤ 1 ∧
  s.readout ≤ 127

/-- Every register of the file holds a 64-bit value. -/
def RegFile.is64 (st : RegFile) : Prop :=
  ∀ dev msr, st dev msr < 2 ^ 64

/-- The two register files agree on bit `i` of every register. -/
def sameBit (st st1 : RegFile) (i : Nat) : Prop :=
  ∀ dev msr, (st1 dev msr).testBit i = (st dev msr).testBit i

/-! ## Auxiliary definitions of the proofs -/

/-- Bit `i` after a flag statement, from bit `i` before it. -/
def flagBit (i : Nat) (m : Bool) (clr pos b : Nat) : Bool :=
  (m && !decide (i = clr)) || (decide (i = pos) && decide (b = 1))

/-- Bit `i` after a threshold statement, from bit `i` before it. -/
def sevenBits (i : Nat) (m : Bool) (k v : Nat) : Bool :=
  decide (i < 64) &&
    ((m && !(decide (k ≤ i) && decide (i < k + 3))) || (decide (k ≤ i) && v.testBit (i - k)))

/-- What a batched read is required to deliver: element `j` is the register of
the `j`-th representative unit. -/
def ReadsReps (readAll : RegFile → Nat → (Nat → Nat) → Option (Nat → Nat))
    (n stride : Nat) : Prop :=
  ∀ st msr val, ∃ val1, readAll st msr val = some val1 ∧
    ∀ j, j < n → val1 j = st (j * stride) msr

/-- What a batched vector write is required to do: the register of the `j`-th
representative unit receives element `j`, and nothing else changes. -/
def WritesReps (writeAllV : RegFile → Nat → (Nat → Nat) → Option RegFile)
    (n stride : Nat) : Prop :=
  ∀ st msr val, ∃ st1, writeAllV st msr val = some st1 ∧
    (∀ j, j < n → st1 (j * stride) msr = val j) ∧
    (∀ dev m, (∀ j, j < n → dev = j * stride → m ≠ msr) → st1 dev m = st dev m)

/-! ## Bit-level lemmas -/

theorem testBit_of_lt_u64 {x : Nat} (hx : x < 2 ^ 64) {i : Nat} (hi : 64 ≤ i) :
    x.testBit i = false := by
  apply Nat.testBit_lt_two_pow
  exact lt_of_lt_of_le hx (Nat.pow_le_pow_right (by decide) hi)

theorem testBit_notInt {c : Nat} (hc : c < 2 ^ 64) (i : Nat) :
    (notInt c).testBit i = (decide (i < 64) && !c.testBit i) := by
  unfold notInt
  exact Nat.testBit_two_pow_sub_succ hc i

theorem testBit_shlField (f k i : Nat) :
    (shlField f k).testBit i = (decide (i < 64) && (decide (k ≤ i) && f.testBit (i - k))) := by
  unfold shlField
  rw [Nat.testBit_mod_two_pow, Nat.testBit_shiftLeft]

theorem testBit_seven (j : Nat) : Nat.testBit 7 j = decide (j < 3) := by
  have h : (7 : Nat) = 2 ^ 3 - 1 := by decide
  rw [h, Nat.testBit_two_pow_sub_one]

theorem testBit_one_of_ne {j : Nat} (hj : j ≠ 0) : Nat.testBit 1 j = false := by
  cases h : Nat.testBit 1 j
  · rfl
  · exact absurd (Nat.testBit_one_eq_true_iff_self_eq_zero.mp h) hj

theorem testBit_bool {b : Nat} (hb : b ≤ 1) (j : Nat) :
    b.testBit j = (decide (j = 0) && decide (b = 1)) := by
  interval_cases b
  · simp
  · by_cases hj : j = 0
    · subst hj; simp
    · simp [hj, testBit_one_of_ne hj]

theorem overlay_lt {m c clr f pos : Nat} : overlay m c clr f pos < 2 ^ 64 := by
  unfold overlay shlField notInt
  apply Nat.or_lt_two_pow
  · exact lt_of_le_of_lt Nat.and_le_right (Nat.sub_lt (Nat.two_pow_pos 64) (Nat.succ_pos _))
  · exact Nat.mod_lt _ (by decide)

/-- Bit `i` of `(m & ~(7 << k)) | (v << k)`. -/
theorem testBit_overlay_seven {m v k : Nat} (hm : m < 2 ^ 64) (hk : k + 3 ≤ 64) (i : Nat) :
    (overlay m 7 k v k).testBit i =
      (decide (i < 64) &&
        ((m.testBit i && !(decide (k ≤ i) && decide (i < k + 3))) ||
          (decide (k ≤ i) && v.testBit (i - k)))) := by
  have hc : 7 <<< k < 2 ^ 64 := by
    rw [Nat.shiftLeft_eq]
    calc 7 * 2 ^ k < 2 ^ 3 * 2 ^ k := by
          apply Nat.mul_lt_mul_of_pos_right (by decide) (Nat.two_pow_pos _)
      _ = 2 ^ (3 + k) := by rw [Nat.pow_add]
      _ ≤ 2 ^ 64 := Nat.pow_le_pow_right (by decide) (by omega)
  unfold overlay
  rw [Nat.testBit_or, Nat.testBit_and, testBit_notInt hc, testBit_shlField,
    Nat.testBit_shiftLeft, testBit_seven]
  by_cases h64 : i < 64
  · by_cases hki : k ≤ i
    · have e : (i - k < 3) = (i < k + 3) := by
        apply propext; omega
      simp [h64, hki, e]
    · simp [h64, hki]
  · have hmi : m.testBit i = false := testBit_of_lt_u64 hm (by omega)
    simp [h64, hmi]

/-- Bit `j` of a decoded field. -/
theorem testBit_MASK_VAL (x : Nat) {m n : Nat} (hnm : n ≤ m) (hm : m < 64) (hw : m - n < 63)
    (j : Nat) :
    (MASK_VAL x m n).testBit j = (decide (j ≤ m - n) && x.testBit (n + j)) := by
  have h1 : (1 <<< (m - n + 1)) % 2 ^ 64 = 2 ^ (m - n + 1) := by
    rw [Nat.one_shiftLeft]
    exact Nat.mod_eq_of_lt (Nat.pow_lt_pow_right (by decide) (by omega))
  have hpos : 0 < 2 ^ (m - n + 1) := Nat.two_pow_pos _
  have hlt : 2 ^ (m - n + 1) < 2 ^ 64 := Nat.pow_lt_pow_right (by decide) (by omega)
  have h2 : (2 ^ (m - n + 1) + (2 ^ 64 - 1)) % 2 ^ 64 = 2 ^ (m - n + 1) - 1 := by
    have e : 2 ^ (m - n + 1) + (2 ^ 64 - 1) = (2 ^ (m - n + 1) - 1) + 2 ^ 64 := by omega
    rw [e, Nat.add_mod_right]
    exact Nat.mod_eq_of_lt (by omega)
  unfold MASK_VAL MASK_RANGE
  rw [h1, h2, Nat.testBit_shiftRight, Nat.testBit_and, Nat.testBit_mod_two_pow,
    Nat.testBit_shiftLeft, Nat.testBit_two_pow_sub_one]
  have e : n + j - n = j := by omega
  rw [e]
  by_cases hj : j ≤ m - n
  · have a : n + j < 64 := by omega
    have b : j < m - n + 1 := by omega
    simp [hj, a, b]
  · have b : ¬ j < m - n + 1 := by omega
    simp [hj, b]

theorem MASK_VAL_flag (x : Nat) {n : Nat} (hn : n < 64) :
    MASK_VAL x n n = (x.testBit n).toNat := by
  apply Nat.eq_of_testBit_eq
  intro j
  rw [testBit_MASK_VAL x (le_refl n) hn (by omega)]
  by_cases hj : j = 0
  · subst hj
    cases h : x.testBit n <;> simp [h]
  · have h0 : ¬ j ≤ n - n := by omega
    cases h : x.testBit n <;> simp [h0, hj, testBit_one_of_ne hj]

theorem MASK_VAL_lt (x : Nat) {m n : Nat} (hnm : n ≤ m) (hm : m < 64) (hw : m - n < 63) :
    MASK_VAL x m n < 2 ^ (m - n + 1) := by
  apply Nat.lt_pow_two_of_testBit
  intro i hi
  rw [testBit_MASK_VAL x hnm hm hw]
  have h0 : ¬ i ≤ m - n := by omega
  simp [h0]

/-- Bit `i` of `(m & ~(1 << clr)) | (b << pos)` for a flag `b`. -/
theorem testBit_overlay_bit {m b clr pos : Nat} (hm : m < 2 ^ 64) (hb : b ≤ 1)
    (hclr : clr < 64) (hpos : pos < 64) (i : Nat) :
    (overlay m 1 clr b pos).testBit i =
      ((m.testBit i && !decide (i = clr)) || (decide (i = pos) && decide (b = 1))) := by
  have hc : 1 <<< clr < 2 ^ 64 := by
    rw [Nat.one_shiftLeft]; exact Nat.pow_lt_pow_right (by decide) hclr
  unfold overlay
  rw [Nat.testBit_or, Nat.testBit_and, testBit_notInt hc, testBit_shlField, Nat.one_shiftLeft,
    Nat.testBit_two_pow, testBit_bool hb]
  by_cases h64 : i < 64
  · have e1 : (clr = i) = (i = clr) := propext eq_comm
    have e2 : (i - pos = 0 ∧ pos ≤ i) = (i = pos) := by
      apply propext; omega
    by_cases hip : i = pos
    · subst hip; simp [h64, e1]
    · have h3 : ¬ (pos ≤ i ∧ i - pos = 0) := by omega
      by_cases hpi : pos ≤ i
      · have h4 : ¬ i - pos = 0 := by omega
        simp [h64, e1, hip, h4]
      · simp [h64, e1, hip, hpi]
  · have hmi : m.testBit i = false := testBit_of_lt_u64 hm (by omega)
    have hip : ¬ i = pos := by omega
    simp [h64, hip, hmi]

theorem MASK_VAL_flag_le (x : Nat) {n : Nat} (hn : n < 64) : MASK_VAL x n n ≤ 1 := by
  rw [MASK_VAL_flag x hn]
  cases x.testBit n <;> decide

theorem isBool_iff (f : Nat) : isBool f = true ↔ f = 0 ∨ f = 1 := by
  unfold isBool
  simp

theorem le_one_of_isBool {f : Nat} (h : isBool f = true) : f ≤ 1 := by
  rcases (isBool_iff f).mp h with h | h <;> omega

theorem testBit_set_therm_stat_update (s : therm_stat) (raw : Nat) (hraw : raw < 2 ^ 64)
    (h : set_therm_stat_asserts s = true) (i : Nat) :
    (set_therm_stat_update s raw).testBit i =
      flagBit i (flagBit i (flagBit i (flagBit i (flagBit i (flagBit i (raw.testBit i)
        1 1 s.status_log) 3 1 s.PROCHOT_or_FORCEPR_log) 5 1 s.crit_temp_log)
        7 1 s.therm_thresh1_log) 9 1 s.therm_thresh2_log) 11 1 s.power_notification_log := by
  simp only [set_therm_stat_asserts, Bool.and_eq_true] at h
  obtain ⟨⟨⟨⟨⟨h1, h2⟩, h3⟩, h4⟩, h5⟩, h6⟩ := h
  simp only [set_therm_stat_update, flagBit]
  rw [testBit_overlay_bit overlay_lt (le_one_of_isBool h6) (by decide) (by decide),
    testBit_overlay_bit overlay_lt (le_one_of_isBool h5) (by decide) (by decide),
    testBit_overlay_bit overlay_lt (le_one_of_isBool h4) (by decide) (by decide),
    testBit_overlay_bit overlay_lt (le_one_of_isBool h3) (by decide) (by decide),
    testBit_overlay_bit overlay_lt (le_one_of_isBool h2) (by decide) (by decide),
    testBit_overlay_bit hraw (le_one_of_isBool h1) (by decide) (by decide)]

theorem testBit_set_pkg_therm_stat_update (s : pkg_therm_stat) (raw : Nat)
    (hraw : raw < 2 ^ 64)
    (h1 : s.status_log ≤ 1) (h2 : s.PROCHOT_log ≤ 1) (h3 : s.crit_temp_log ≤ 1)
    (h4 : s.therm_thresh1_log ≤ 1) (h5 : s.therm_thresh2_log ≤ 1)
    (h6 : s.power_notification_log ≤ 1) (i : Nat) :
    (set_pkg_therm_stat_update s raw).testBit i =
      flagBit i (flagBit i (flagBit i (flagBit i (flagBit i (flagBit i (raw.testBit i)
        1 1 s.status_log) 3 3 s.PROCHOT_log) 5 5 s.crit_temp_log)
        7 7 s.therm_thresh1_log) 9 9 s.therm_thresh2_log) 11 11 s.power_notification_log := by
  simp only [set_pkg_therm_stat_update, flagBit]
  rw [testBit_overlay_bit overlay_lt h6 (by decide) (by decide),
    testBit_overlay_bit overlay_lt h5 (by decide) (by decide),
    testBit_overlay_bit overlay_lt h4 (by decide) (by decide),
    testBit_overlay_bit overlay_lt h3 (by decide) (by decide),
    testBit_overlay_bit overlay_lt h2 (by decide) (by decide),
    testBit_overlay_bit hraw h1 (by decide) (by decide)]

theorem testBit_set_therm_interrupt_update (s : therm_interrupt) (raw : Nat)
    (hraw : raw < 2 ^ 64) (h : set_therm_interrupt_asserts s = true) (i : Nat) :
    (set_therm_interrupt_update s raw).testBit i =
      flagBit i (flagBit i (sevenBits i (flagBit i (sevenBits i (flagBit i (flagBit i
        (flagBit i (flagBit i (flagBit i (raw.testBit i)
        0 0 s.high_temp_enable) 1 1 s.low_temp_enable) 2 2 s.PROCHOT_enable)
        3 3 s.FORCEPR_enable) 4 4 s.crit_temp_enable) 8 s.thresh1_val)
        15 15 s.thresh1_enable) 16 s.thresh2_val) 23 23 s.thresh2_enable)
        24 24 s.pwr_limit_notification_enable := by
  simp only [set_therm_interrupt_asserts, Bool.and_eq_true] at h
  obtain ⟨⟨⟨⟨⟨⟨⟨h1, h2⟩, h3⟩, h4⟩, h5⟩, h6⟩, h7⟩, h8⟩ := h
  simp only [set_therm_interrupt_update, flagBit, sevenBits]
  rw [testBit_overlay_bit overlay_lt (le_one_of_isBool h8) (by decide) (by decide),
    testBit_overlay_bit overlay_lt (le_one_of_isBool h7) (by decide) (by decide),
    testBit_overlay_seven overlay_lt (by decide),
    testBit_overlay_bit overlay_lt (le_one_of_isBool h6) (by decide) (by decide),
    testBit_overlay_seven overlay_lt (by decide),
    testBit_overlay_bit overlay_lt (le_one_of_isBool h5) (by decide) (by decide),
    testBit_overlay_bit overlay_lt (le_one_of_isBool h4) (by decide) (by decide),
    testBit_overlay_bit overlay_lt (le_one_of_isBool h3) (by decide) (by decide),
    testBit_overlay_bit overlay_lt (le_one_of_isBool h2) (by decide) (by decide),
    testBit_overlay_bit hraw (le_one_of_isBool h1) (by decide) (by decide)]

theorem testBit_set_pkg_therm_interrupt_update (s : pkg_therm_interrupt) (raw : Nat)
    (hraw : raw < 2 ^ 64) (h : set_pkg_therm_interrupt_asserts s = true) (i : Nat) :
    (set_pkg_therm_interrupt_update s raw).testBit i =
      flagBit i (flagBit i (sevenBits i (flagBit i (sevenBits i (flagBit i
        (flagBit i (flagBit i (flagBit i (raw.testBit i)
        0 0 s.high_temp_enable) 1 1 s.low_temp_enable) 2 2 s.PROCHOT_enable)
        4 4 s.crit_temp_enable) 8 s.thresh1_val)
        15 15 s.thresh1_enable) 16 s.thresh2_val) 23 23 s.thresh2_enable)
        24 24 s.pwr_limit_notification_enable := by
  simp only [set_pkg_therm_interrupt_asserts, Bool.and_eq_true] at h
  obtain ⟨⟨⟨⟨⟨⟨h1, h2⟩, h3⟩, h5⟩, h6⟩, h7⟩, h8⟩ := h
  simp only [set_pkg_therm_interrupt_update, flagBit, sevenBits]
  rw [testBit_overlay_bit overlay_lt (le_one_of_isBool h8) (by decide) (by decide),
    testBit_overlay_bit overlay_lt (le_one_of_isBool h7) (by decide) (by decide),
    testBit_overlay_seven overlay_lt (by decide),
    testBit_overlay_bit overlay_lt (le_one_of_isBool h6) (by decide) (by decide),
    testBit_overlay_seven overlay_lt (by decide),
    testBit_overlay_bit overlay_lt (le_one_of_isBool h5) (by decide) (by decide),
    testBit_overlay_bit overlay_lt (le_one_of_isBool h3) (by decide) (by decide),
    testBit_overlay_bit overlay_lt (le_one_of_isBool h2) (by decide) (by decide),
    testBit_overlay_bit hraw (le_one_of_isBool h1) (by decide) (by decide)]

theorem get_therm_interrupt_body_asserts (raw : Nat) :
    set_therm_interrupt_asserts (get_therm_interrupt_body raw) = true := by
  have h : ∀ n, n < 64 → isBool (MASK_VAL raw n n) = true := by
    intro n hn
    have := MASK_VAL_flag_le raw hn
    rw [isBool_iff]; omega
  simp only [set_therm_interrupt_asserts, get_therm_interrupt_body, Bool.and_eq_true]
  refine ⟨⟨⟨⟨⟨⟨⟨?_, ?_⟩, ?_⟩, ?_⟩, ?_⟩, ?_⟩, ?_⟩, ?_⟩ <;> exact h _ (by decide)

/-! ## Loop lemmas -/

theorem read_all_loop_spec (st : RegFile) (numDevs stride msr : Nat) (hs : 0 < stride) :
    ∀ (fuel dev_idx val_idx : Nat) (val : Nat → Nat), numDevs < dev_idx + fuel → 0 < fuel →
      ∃ val1, read_all_loop st numDevs stride msr fuel dev_idx val_idx val = some val1 ∧
        (∀ j, dev_idx + j * stride < numDevs →
          val1 (val_idx + j) = st (dev_idx + j * stride) msr) ∧
        (∀ j, j < val_idx → val1 j = val j) := by
  intro fuel
  induction fuel with
  | zero =>
    intro d k val _ h0
    omega
  | succ fuel ih =>
    intro d k val h _
    by_cases hd : d < numDevs
    · obtain ⟨val1, h1, h2, h3⟩ := ih (d + stride) (k + 1)
        (Function.update val k (read_msr_by_idx st d msr)) (by omega) (by omega)
      refine ⟨val1, ?_, ?_, ?_⟩
      · simp only [read_all_loop, hd, if_true]
        exact h1
      · intro j hj
        cases j with
        | zero =>
          have := h3 k (by omega)
          simp only [Nat.zero_mul, Nat.add_zero] at *
          rw [this]
          simp [read_msr_by_idx]
        | succ j =>
          have e : (j + 1) * stride = j * stride + stride := Nat.succ_mul j stride
          have := h2 j (by omega)
          have e1 : k + 1 + j = k + (j + 1) := by omega
          have e2 : d + stride + j * stride = d + (j + 1) * stride := by omega
          rw [e1, e2] at this
          exact this
      · intro j hj
        have := h3 j (by omega)
        rw [this]
        have hne : j ≠ k := by omega
        simp [Function.update, hne]
    · refine ⟨val, ?_, ?_, ?_⟩
      · simp only [read_all_loop, hd, if_false]
      · intro j hj
        omega
      · intro j _
        rfl

theorem write_all_v_loop_spec (numDevs stride msr : Nat) (val : Nat → Nat) (hs : 0 < stride) :
    ∀ (fuel dev_idx val_idx : Nat) (st : RegFile), numDevs < dev_idx + fuel → 0 < fuel →
      ∃ st1, write_all_v_loop numDevs stride msr val fuel dev_idx val_idx st = some st1 ∧
        (∀ j, dev_idx + j * stride < numDevs →
          st1 (dev_idx + j * stride) msr = val (val_idx + j)) ∧
        (∀ dev m, (∀ j, dev_idx + j * stride < numDevs → dev = dev_idx + j * stride → m ≠ msr) →
          st1 dev m = st dev m) := by
  intro fuel
  induction fuel with
  | zero =>
    intro d k st _ h0
    omega
  | succ fuel ih =>
    intro d k st h _
    by_cases hd : d < numDevs
    · obtain ⟨st1, h1, h2, h3⟩ := ih (d + stride) (k + 1)
        (write_msr_by_idx st d msr (val k)) (by omega) (by omega)
      refine ⟨st1, ?_, ?_, ?_⟩
      · simp only [write_all_v_loop, hd, if_true]
        exact h1
      · intro j hj
        cases j with
        | zero =>
          simp only [Nat.zero_mul, Nat.add_zero]
          have := h3 d msr (by intro j _ hj2; omega)
          rw [this]
          simp [write_msr_by_idx]
        | succ j =>
          have e : (j + 1) * stride = j * stride + stride := Nat.succ_mul j stride
          have := h2 j (by omega)
          have e1 : k + 1 + j = k + (j + 1) := by omega
          have e2 : d + stride + j * stride = d + (j + 1) * stride := by omega
          rw [e1, e2] at this
          exact this
      · intro dev m hdm
        have := h3 dev m (by
          intro j hj1 hj2
          have e : (j + 1) * stride = j * stride + stride := Nat.succ_mul j stride
          exact hdm (j + 1) (by omega) (by omega))
        rw [this]
        have hne : ¬ (dev = d ∧ m = msr) := by
          intro ⟨hd1, hm1⟩
          exact hdm 0 (by simpa using hd) (by simpa using hd1) hm1
        simp [write_msr_by_idx, hne]
    · refine ⟨st, ?_, ?_, ?_⟩
      · simp only [write_all_v_loop, hd, if_false]
      · intro j hj
        omega
      · intro dev m _
        rfl

theorem get_loop_spec {α : Type} (rawOf : α → Nat) (body : Nat → α) :
    ∀ (n i : Nat) (s : Nat → α) (j : Nat),
      get_loop rawOf body n i s j =
        if i ≤ j ∧ j < i + n then body (rawOf (s j)) else s j := by
  intro n
  induction n with
  | zero =>
    intro i s j
    have h : ¬ (i ≤ j ∧ j < i + 0) := by omega
    simp only [get_loop, h, if_false]
  | succ n ih =>
    intro i s j
    simp only [get_loop]
    rw [ih]
    by_cases hij : j = i
    · subst hij
      have h1 : ¬ (j + 1 ≤ j ∧ j < j + 1 + n) := by omega
      have h2 : j ≤ j ∧ j < j + (n + 1) := by omega
      simp [h1, h2]
    · by_cases h : i ≤ j ∧ j < i + (n + 1)
      · have h1 : i + 1 ≤ j ∧ j < i + 1 + n := by omega
        simp [h, h1, Function.update, hij]
      · have h1 : ¬ (i + 1 ≤ j ∧ j < i + 1 + n) := by omega
        simp [h, h1, Function.update, hij]

theorem set_loop_ok {α : Type} (asserts : α → Bool) (update : α → Nat → Nat) (s : Nat → α) :
    ∀ (n i : Nat) (msrVal : Nat → Nat), (∀ j, i ≤ j → j < i + n → asserts (s j) = true) →
      set_loop asserts update s n i msrVal =
        some (fun j => if i ≤ j ∧ j < i + n then update (s j) (msrVal j) else msrVal j) := by
  intro n
  induction n with
  | zero =>
    intro i msrVal _
    simp only [set_loop]
    congr 1
    funext j
    have h : ¬ (i ≤ j ∧ j < i + 0) := by omega
    rw [if_neg h]
  | succ n ih =>
    intro i msrVal h
    have hi : asserts (s i) = true := h i (le_refl i) (by omega)
    simp only [set_loop, hi, if_true]
    rw [ih (i + 1) _ (fun j h1 h2 => h j (by omega) (by omega))]
    congr 1
    funext j
    by_cases hij : j = i
    · subst hij
      have h1 : ¬ (j + 1 ≤ j ∧ j < j + 1 + n) := by omega
      have h2 : j ≤ j ∧ j < j + (n + 1) := by omega
      simp [h1, h2]
    · by_cases hc : i ≤ j ∧ j < i + (n + 1)
      · have h1 : i + 1 ≤ j ∧ j < i + 1 + n := by omega
        simp [hc, h1, Function.update, hij]
      · have h1 : ¬ (i + 1 ≤ j ∧ j < i + 1 + n) := by omega
        simp [hc, h1, Function.update, hij]

theorem set_loop_fail {α : Type} (asserts : α → Bool) (update : α → Nat → Nat) (s : Nat → α) :
    ∀ (n i : Nat) (msrVal : Nat → Nat), (∃ j, i ≤ j ∧ j < i + n ∧ asserts (s j) = false) →
      set_loop asserts update s n i msrVal = none := by
  intro n
  induction n with
  | zero =>
    intro i msrVal ⟨j, h1, h2, _⟩
    omega
  | succ n ih =>
    intro i msrVal ⟨j, h1, h2, h3⟩
    simp only [set_loop]
    by_cases hi : asserts (s i) = true
    · simp only [hi, if_true]
      apply ih
      refine ⟨j, ?_, by omega, h3⟩
      by_cases hij : j = i
      · subst hij
        rw [h3] at hi
        exact absurd hi (by decide)
      · omega
    · simp [hi]

/-! ## One register value: interrupt registers -/

theorem toNat_decide_eq_one {b : Nat} (hb : b ≤ 1) : (decide (b = 1)).toNat = b := by
  interval_cases b <;> simp

theorem decide_flag_eq_one (x : Nat) {n : Nat} (hn : n < 64) :
    decide (MASK_VAL x n n = 1) = x.testBit n := by
  rw [MASK_VAL_flag x hn]
  cases x.testBit n <;> simp

/-- A threshold statement whose value was decoded from the same seven bits. -/
theorem sevenBits_decoded (i : Nat) (m : Bool) (raw : Nat) (hi k : Nat) (h : hi = k + 6)
    (hk : hi < 64) :
    sevenBits i m k (MASK_VAL raw hi k) =
      (decide (i < 64) &&
        ((m && !(decide (k ≤ i) && decide (i < k + 3))) ||
          (decide (k ≤ i) && (decide (i ≤ hi) && raw.testBit i)))) := by
  subst h
  unfold sevenBits
  rw [testBit_MASK_VAL raw (by omega) hk (by omega)]
  by_cases hki : k ≤ i
  · have e : k + (i - k) = i := by omega
    have e2 : decide (i - k ≤ k + 6 - k) = decide (i ≤ k + 6) :=
      decide_eq_decide.mpr (by omega)
    rw [e, e2]
  · simp [hki]

/-- With the thresholds of the view equal to those of the register, the value
`set_therm_interrupt` computes is the register with the eight flags replaced. -/
theorem testBit_set_therm_interrupt_update_flags (s : therm_interrupt) (raw : Nat)
    (hraw : raw < 2 ^ 64) (h : set_therm_interrupt_asserts s = true)
    (h1 : s.thresh1_val = MASK_VAL raw 14 8) (h2 : s.thresh2_val = MASK_VAL raw 22 16)
    (i : Nat) :
    (set_therm_interrupt_update s raw).testBit i =
      if i = 0 then decide (s.high_temp_enable = 1)
      else if i = 1 then decide (s.low_temp_enable = 1)
      else if i = 2 then decide (s.PROCHOT_enable = 1)
      else if i = 3 then decide (s.FORCEPR_enable = 1)
      else if i = 4 then decide (s.crit_temp_enable = 1)
      else if i = 15 then decide (s.thresh1_enable = 1)
      else if i = 23 then decide (s.thresh2_enable = 1)
      else if i = 24 then decide (s.pwr_limit_notification_enable = 1)
      else raw.testBit i := by
  rw [testBit_set_therm_interrupt_update s raw hraw h, h1, h2,
    sevenBits_decoded _ _ raw 14 8 rfl (by decide),
    sevenBits_decoded _ _ raw 22 16 rfl (by decide)]
  by_cases hi : i < 25
  · interval_cases i <;> simp [flagBit]
  · have h64 : decide (i < 64) = true ∨ raw.testBit i = false := by
      by_cases h64 : i < 64
      · left; simp [h64]
      · right; exact testBit_of_lt_u64 hraw (by omega)
    have e0 : ¬ i = 0 := by omega
    have e1 : ¬ i = 1 := by omega
    have e2 : ¬ i = 2 := by omega
    have e3 : ¬ i = 3 := by omega
    have e4 : ¬ i = 4 := by omega
    have e15 : ¬ i = 15 := by omega
    have e23 : ¬ i = 23 := by omega
    have e24 : ¬ i = 24 := by omega
    have a1 : ¬ i ≤ 14 := by omega
    have a2 : ¬ i ≤ 22 := by omega
    have a3 : ¬ i < 11 := by omega
    have a4 : ¬ i < 19 := by omega
    rcases h64 with h64 | h64 <;>
      simp [flagBit, e0, e1, e2, e3, e4, e15, e23, e24, a1, a2, a3, a4, h64]

theorem flag_field_eq {new : Nat} {k f : Nat} (hk : k < 64) (hf : f ≤ 1)
    (hbit : new.testBit k = decide (f = 1)) : MASK_VAL new k k = f := by
  rw [MASK_VAL_flag new hk, hbit]
  exact toNat_decide_eq_one hf

theorem range_field_eq {new raw : Nat} {m n : Nat} (hnm : n ≤ m) (hm : m < 64)
    (hw : m - n < 63) (hbits : ∀ i, n ≤ i → i ≤ m → new.testBit i = raw.testBit i) :
    MASK_VAL new m n = MASK_VAL raw m n := by
  apply Nat.eq_of_testBit_eq
  intro j
  rw [testBit_MASK_VAL new hnm hm hw, testBit_MASK_VAL raw hnm hm hw]
  by_cases hj : j ≤ m - n
  · rw [hbits (n + j) (by omega) (by omega)]
  · simp [hj]

/-- Decoding the value `set_therm_interrupt` computes gives back the view. -/
theorem get_set_therm_interrupt_body (s : therm_interrupt) (raw : Nat)
    (hraw : raw < 2 ^ 64) (h : set_therm_interrupt_asserts s = true)
    (h1 : s.thresh1_val = MASK_VAL raw 14 8) (h2 : s.thresh2_val = MASK_VAL raw 22 16) :
    get_therm_interrupt_body (set_therm_interrupt_update s raw) =
      { s with raw := set_therm_interrupt_update s raw } := by
  have hb := testBit_set_therm_interrupt_update_flags s raw hraw h h1 h2
  simp only [set_therm_interrupt_asserts, Bool.and_eq_true] at h
  obtain ⟨⟨⟨⟨⟨⟨⟨a1, a2⟩, a3⟩, a4⟩, a5⟩, a6⟩, a7⟩, a8⟩ := h
  simp only [get_therm_interrupt_body, therm_interrupt.mk.injEq, true_and]
  refine ⟨?_, ?_, ?_, ?_, ?_, ?_, ?_, ?_, ?_, ?_⟩
  · exact flag_field_eq (by decide) (le_one_of_isBool a1) (by rw [hb]; simp)
  · exact flag_field_eq (by decide) (le_one_of_isBool a2) (by rw [hb]; simp)
  · exact flag_field_eq (by decide) (le_one_of_isBool a3) (by rw [hb]; simp)
  · exact flag_field_eq (by decide) (le_one_of_isBool a4) (by rw [hb]; simp)
  · exact flag_field_eq (by decide) (le_one_of_isBool a5) (by rw [hb]; simp)
  · rw [h1]
    apply range_field_eq (by decide) (by decide) (by decide)
    intro i hi1 hi2
    rw [hb]
    interval_cases i <;> simp
  · exact flag_field_eq (by decide) (le_one_of_isBool a6) (by rw [hb]; simp)
  · rw [h2]
    apply range_field_eq (by decide) (by decide) (by decide)
    intro i hi1 hi2
    rw [hb]
    interval_cases i <;> simp
  · exact flag_field_eq (by decide) (le_one_of_isBool a7) (by rw [hb]; simp)
  · exact flag_field_eq (by decide) (le_one_of_isBool a8) (by rw [hb]; simp)

/-- Writing back the decoded view computes the value that was read. -/
theorem set_get_therm_interrupt_body (raw : Nat) (hraw : raw < 2 ^ 64) :
    set_therm_interrupt_update (get_therm_interrupt_body raw) raw = raw := by
  apply Nat.eq_of_testBit_eq
  intro i
  rw [testBit_set_therm_interrupt_update_flags _ _ hraw (get_therm_interrupt_body_asserts raw)
    rfl rfl]
  simp only [get_therm_interrupt_body]
  repeat rw [decide_flag_eq_one raw (by decide)]
  split_ifs <;> simp_all

theorem get_pkg_therm_interrupt_body_asserts (raw : Nat) :
    set_pkg_therm_interrupt_asserts (get_pkg_therm_interrupt_body raw) = true := by
  have h : ∀ n, n < 64 → isBool (MASK_VAL raw n n) = true := by
    intro n hn
    have := MASK_VAL_flag_le raw hn
    rw [isBool_iff]; omega
  simp only [set_pkg_therm_interrupt_asserts, get_pkg_therm_interrupt_body, Bool.and_eq_true]
  refine ⟨⟨⟨⟨⟨⟨?_, ?_⟩, ?_⟩, ?_⟩, ?_⟩, ?_⟩, ?_⟩ <;> exact h _ (by decide)

/-- With the thresholds of the view equal to those of the register, the value
`set_pkg_therm_interrupt` computes is the register with the seven flags
replaced. -/
theorem testBit_set_pkg_therm_interrupt_update_flags (s : pkg_therm_interrupt) (raw : Nat)
    (hraw : raw < 2 ^ 64) (h : set_pkg_therm_interrupt_asserts s = true)
    (h1 : s.thresh1_val = MASK_VAL raw 14 8) (h2 : s.thresh2_val = MASK_VAL raw 22 16)
    (i : Nat) :
    (set_pkg_therm_interrupt_update s raw).testBit i =
      if i = 0 then decide (s.high_temp_enable = 1)
      else if i = 1 then decide (s.low_temp_enable = 1)
      else if i = 2 then decide (s.PROCHOT_enable = 1)
      else if i = 4 then decide (s.crit_temp_enable = 1)
      else if i = 15 then decide (s.thresh1_enable = 1)
      else if i = 23 then decide (s.thresh2_enable = 1)
      else if i = 24 then decide (s.pwr_limit_notification_enable = 1)
      else raw.testBit i := by
  rw [testBit_set_pkg_therm_interrupt_update s raw hraw h, h1, h2,
    sevenBits_decoded _ _ raw 14 8 rfl (by decide),
    sevenBits_decoded _ _ raw 22 16 rfl (by decide)]
  by_cases hi : i < 25
  · interval_cases i <;> simp [flagBit]
  · have h64 : decide (i < 64) = true ∨ raw.testBit i = false := by
      by_cases h64 : i < 64
      · left; simp [h64]
      · right; exact testBit_of_lt_u64 hraw (by omega)
    have e0 : ¬ i = 0 := by omega
    have e1 : ¬ i = 1 := by omega
    have e2 : ¬ i = 2 := by omega
    have e4 : ¬ i = 4 := by omega
    have e15 : ¬ i = 15 := by omega
    have e23 : ¬ i = 23 := by omega
    have e24 : ¬ i = 24 := by omega
    have a1 : ¬ i ≤ 14 := by omega
    have a2 : ¬ i ≤ 22 := by omega
    have a3 : ¬ i < 11 := by omega
    have a4 : ¬ i < 19 := by omega
    rcases h64 with h64 | h64 <;>
      simp [flagBit, e0, e1, e2, e4, e15, e23, e24, a1, a2, a3, a4, h64]

/-- Decoding the value `set_pkg_therm_interrupt` computes gives back the view. -/
theorem get_set_pkg_therm_interrupt_body (s : pkg_therm_interrupt) (raw : Nat)
    (hraw : raw < 2 ^ 64) (h : set_pkg_therm_interrupt_asserts s = true)
    (h1 : s.thresh1_val = MASK_VAL raw 14 8) (h2 : s.thresh2_val = MASK_VAL raw 22 16) :
    get_pkg_therm_interrupt_body (set_pkg_therm_interrupt_update s raw) =
      { s with raw := set_pkg_therm_interrupt_update s raw } := by
  have hb := testBit_set_pkg_therm_interrupt_update_flags s raw hraw h h1 h2
  simp only [set_pkg_therm_interrupt_asserts, Bool.and_eq_true] at h
  obtain ⟨⟨⟨⟨⟨⟨a1, a2⟩, a3⟩, a5⟩, a6⟩, a7⟩, a8⟩ := h
  simp only [get_pkg_therm_interrupt_body, pkg_therm_interrupt.mk.injEq, true_and]
  refine ⟨?_, ?_, ?_, ?_, ?_, ?_, ?_, ?_, ?_⟩
  · exact flag_field_eq (by decide) (le_one_of_isBool a1) (by rw [hb]; simp)
  · exact flag_field_eq (by decide) (le_one_of_isBool a2) (by rw [hb]; simp)
  · exact flag_field_eq (by decide) (le_one_of_isBool a3) (by rw [hb]; simp)
  · exact flag_field_eq (by decide) (le_one_of_isBool a5) (by rw [hb]; simp)
  · rw [h1]
    apply range_field_eq (by decide) (by decide) (by decide)
    intro i hi1 hi2
    rw [hb]
    interval_cases i <;> simp
  · exact flag_field_eq (by decide) (le_one_of_isBool a6) (by rw [hb]; simp)
  · rw [h2]
    apply range_field_eq (by decide) (by decide) (by decide)
    intro i hi1 hi2
    rw [hb]
    interval_cases i <;> simp
  · exact flag_field_eq (by decide) (le_one_of_isBool a7) (by rw [hb]; simp)
  · exact flag_field_eq (by decide) (le_one_of_isBool a8) (by rw [hb]; simp)

/-- Writing back the decoded view computes the value that was read. -/
theorem set_get_pkg_therm_interrupt_body (raw : Nat) (hraw : raw < 2 ^ 64) :
    set_pkg_therm_interrupt_update (get_pkg_therm_interrupt_body raw) raw = raw := by
  apply Nat.eq_of_testBit_eq
  intro i
  rw [testBit_set_pkg_therm_interrupt_update_flags _ _ hraw
    (get_pkg_therm_interrupt_body_asserts raw) rfl rfl]
  simp only [get_pkg_therm_interrupt_body]
  repeat rw [decide_flag_eq_one raw (by decide)]
  split_ifs <;> simp_all

/-! ## Batched access: what the loops read and write -/

theorem cores_index_lt (cfg : Config) (hT : 0 < cfg.NUM_THREADS_PER_CORE) (j : Nat) :
    j * cfg.NUM_THREADS_PER_CORE < cfg.NUM_DEVS ↔ j < cfg.NUM_CORES := by
  unfold Config.NUM_DEVS Config.NUM_CORES
  rw [Nat.mul_lt_mul_right hT, Nat.mul_comm cfg.NUM_SOCKETS]

theorem sockets_index_lt (cfg : Config) (hC : 0 < cfg.NUM_CORES_PER_SOCKET)
    (hT : 0 < cfg.NUM_THREADS_PER_CORE) (j : Nat) :
    j * (cfg.NUM_CORES_PER_SOCKET * cfg.NUM_THREADS_PER_CORE) < cfg.NUM_DEVS ↔
      j < cfg.NUM_SOCKETS := by
  unfold Config.NUM_DEVS
  rw [Nat.mul_assoc, Nat.mul_lt_mul_right (Nat.mul_pos hC hT)]

theorem read_all_loop_total (st : RegFile) (numDevs stride msr : Nat)
    (h : 0 < stride ∨ numDevs = 0) (val : Nat → Nat) :
    ∃ val1, read_all_loop st numDevs stride msr (numDevs + 1) 0 0 val = some val1 := by
  rcases h with h | h
  · obtain ⟨val1, h1, _⟩ :=
      read_all_loop_spec st numDevs stride msr h (numDevs + 1) 0 0 val (by omega) (by omega)
    exact ⟨val1, h1⟩
  · subst h
    exact ⟨val, by simp [read_all_loop]⟩

theorem write_all_v_loop_total (numDevs stride msr : Nat) (val : Nat → Nat)
    (h : 0 < stride ∨ numDevs = 0) (st : RegFile) :
    ∃ st1, write_all_v_loop numDevs stride msr val (numDevs + 1) 0 0 st = some st1 := by
  rcases h with h | h
  · obtain ⟨st1, h1, _⟩ :=
      write_all_v_loop_spec numDevs stride msr val h (numDevs + 1) 0 0 st (by omega) (by omega)
    exact ⟨st1, h1⟩
  · subst h
    exact ⟨st, by simp [write_all_v_loop]⟩

theorem cores_stride_ok (cfg : Config) : 0 < cfg.NUM_THREADS_PER_CORE ∨ cfg.NUM_DEVS = 0 := by
  by_cases h : 0 < cfg.NUM_THREADS_PER_CORE
  · exact Or.inl h
  · right
    have h0 : cfg.NUM_THREADS_PER_CORE = 0 := by omega
    simp [Config.NUM_DEVS, h0]

theorem sockets_stride_ok (cfg : Config) :
    0 < cfg.NUM_CORES_PER_SOCKET * cfg.NUM_THREADS_PER_CORE ∨ cfg.NUM_DEVS = 0 := by
  by_cases h : 0 < cfg.NUM_CORES_PER_SOCKET * cfg.NUM_THREADS_PER_CORE
  · exact Or.inl h
  · right
    have h0 : cfg.NUM_CORES_PER_SOCKET * cfg.NUM_THREADS_PER_CORE = 0 := by omega
    simp [Config.NUM_DEVS, Nat.mul_assoc, h0]

theorem read_all_cores_total (cfg : Config) (st : RegFile) (msr : Nat) (val : Nat → Nat) :
    ∃ val1, read_all_cores cfg st msr val = some val1 :=
  read_all_loop_total st _ _ msr (cores_stride_ok cfg) val

theorem read_all_sockets_total (cfg : Config) (st : RegFile) (msr : Nat) (val : Nat → Nat) :
    ∃ val1, read_all_sockets cfg st msr val = some val1 :=
  read_all_loop_total st _ _ msr (sockets_stride_ok cfg) val

theorem read_all_cores_reps (cfg : Config) (hT : 0 < cfg.NUM_THREADS_PER_CORE) :
    ReadsReps (read_all_cores cfg) cfg.NUM_CORES cfg.NUM_THREADS_PER_CORE := by
  intro st msr val
  obtain ⟨val1, h1, h2, _⟩ := read_all_loop_spec st cfg.NUM_DEVS cfg.NUM_THREADS_PER_CORE msr hT
    (cfg.NUM_DEVS + 1) 0 0 val (by omega) (by omega)
  refine ⟨val1, h1, ?_⟩
  intro j hj
  have := h2 j (by simpa using (cores_index_lt cfg hT j).mpr hj)
  simpa using this

theorem read_all_sockets_reps (cfg : Config) (hC : 0 < cfg.NUM_CORES_PER_SOCKET)
    (hT : 0 < cfg.NUM_THREADS_PER_CORE) :
    ReadsReps (read_all_sockets cfg) cfg.NUM_SOCKETS
      (cfg.NUM_CORES_PER_SOCKET * cfg.NUM_THREADS_PER_CORE) := by
  intro st msr val
  obtain ⟨val1, h1, h2, _⟩ := read_all_loop_spec st cfg.NUM_DEVS
    (cfg.NUM_CORES_PER_SOCKET * cfg.NUM_THREADS_PER_CORE) msr (Nat.mul_pos hC hT)
    (cfg.NUM_DEVS + 1) 0 0 val (by omega) (by omega)
  refine ⟨val1, h1, ?_⟩
  intro j hj
  have := h2 j (by simpa using (sockets_index_lt cfg hC hT j).mpr hj)
  simpa using this

theorem write_all_cores_v_reps (cfg : Config) (hT : 0 < cfg.NUM_THREADS_PER_CORE) :
    WritesReps (write_all_cores_v cfg) cfg.NUM_CORES cfg.NUM_THREADS_PER_CORE := by
  intro st msr val
  obtain ⟨st1, h1, h2, h3⟩ := write_all_v_loop_spec cfg.NUM_DEVS cfg.NUM_THREADS_PER_CORE msr
    val hT (cfg.NUM_DEVS + 1) 0 0 st (by omega) (by omega)
  refine ⟨st1, h1, ?_, ?_⟩
  · intro j hj
    have := h2 j (by simpa using (cores_index_lt cfg hT j).mpr hj)
    simpa using this
  · intro dev m hdm
    apply h3
    intro j hj1 hj2
    exact hdm j ((cores_index_lt cfg hT j).mp (by simpa using hj1)) (by simpa using hj2)

theorem write_all_sockets_v_reps (cfg : Config) (hC : 0 < cfg.NUM_CORES_PER_SOCKET)
    (hT : 0 < cfg.NUM_THREADS_PER_CORE) :
    WritesReps (write_all_sockets_v cfg) cfg.NUM_SOCKETS
      (cfg.NUM_CORES_PER_SOCKET * cfg.NUM_THREADS_PER_CORE) := by
  intro st msr val
  obtain ⟨st1, h1, h2, h3⟩ := write_all_v_loop_spec cfg.NUM_DEVS
    (cfg.NUM_CORES_PER_SOCKET * cfg.NUM_THREADS_PER_CORE) msr
    val (Nat.mul_pos hC hT) (cfg.NUM_DEVS + 1) 0 0 st (by omega) (by omega)
  refine ⟨st1, h1, ?_, ?_⟩
  · intro j hj
    have := h2 j (by simpa using (sockets_index_lt cfg hC hT j).mpr hj)
    simpa using this
  · intro dev m hdm
    apply h3
    intro j hj1 hj2
    exact hdm j ((sockets_index_lt cfg hC hT j).mp (by simpa using hj1)) (by simpa using hj2)

/-! ## The shape of a `set_*` routine -/

theorem set_routine_done {α : Type}
    {readAll : RegFile → Nat → (Nat → Nat) → Option (Nat → Nat)}
    {writeAllV : RegFile → Nat → (Nat → Nat) → Option RegFile} {n stride : Nat}
    (hR : ReadsReps readAll n stride) (hW : WritesReps writeAllV n stride) (msr : Nat)
    (asserts : α → Bool) (update : α → Nat → Nat) (s : Nat → α) (st : RegFile)
    (hok : ∀ j, j < n → asserts (s j) = true) :
    ∃ st1, set_routine readAll writeAllV msr n asserts update s st = Outcome.done st1 ∧
      (∀ j, j < n → st1 (j * stride) msr = update (s j) (st (j * stride) msr)) ∧
      (∀ dev m, (∀ j, j < n → dev = j * stride → m ≠ msr) → st1 dev m = st dev m) := by
  obtain ⟨val1, hr1, hr2⟩ := hR st msr (fun _ => 0)
  have hl := set_loop_ok asserts update s n 0 val1 (fun j _ h2 => hok j (by omega))
  obtain ⟨st1, hw1, hw2, hw3⟩ := hW st msr
    (fun j => if 0 ≤ j ∧ j < 0 + n then update (s j) (val1 j) else val1 j)
  refine ⟨st1, ?_, ?_, hw3⟩
  · simp only [set_routine, hr1, hl, hw1]
  · intro j hj
    have hc : 0 ≤ j ∧ j < 0 + n := by omega
    rw [hw2 j hj, if_pos hc, hr2 j hj]

theorem set_routine_aborted {α : Type}
    {readAll : RegFile → Nat → (Nat → Nat) → Option (Nat → Nat)}
    (writeAllV : RegFile → Nat → (Nat → Nat) → Option RegFile) (n : Nat)
    (hR : ∀ st msr val, ∃ val1, readAll st msr val = some val1) (msr : Nat)
    (asserts : α → Bool) (update : α → Nat → Nat) (s : Nat → α) (st : RegFile)
    (hbad : ∃ j, j < n ∧ asserts (s j) = false) :
    set_routine readAll writeAllV msr n asserts update s st = Outcome.aborted st := by
  obtain ⟨val1, hr1⟩ := hR st msr (fun _ => 0)
  obtain ⟨j, hj, hb⟩ := hbad
  have hl := set_loop_fail asserts update s n 0 val1 ⟨j, by omega, by omega, hb⟩
  simp only [set_routine, hr1, hl]

theorem set_routine_not_aborted {α : Type}
    (readAll : RegFile → Nat → (Nat → Nat) → Option (Nat → Nat))
    (writeAllV : RegFile → Nat → (Nat → Nat) → Option RegFile) (n msr : Nat)
    (asserts : α → Bool) (update : α → Nat → Nat) (s : Nat → α) (st : RegFile)
    (hok : ∀ j, j < n → asserts (s j) = true) :
    (set_routine readAll writeAllV msr n asserts update s st).isAborted = false := by
  unfold set_routine
  cases hr : readAll st msr (fun _ => 0) with
  | none => rfl
  | some val1 =>
    have hl := set_loop_ok asserts update s n 0 val1 (fun j _ h2 => hok j (by omega))
    simp only [hl]
    cases writeAllV st msr _ <;> rfl

/-! ## The `get_*` routines decode the representative registers -/

theorem get_therm_stat_spec (cfg : Config) (hT : 0 < cfg.NUM_THREADS_PER_CORE)
    (st : RegFile) (s0 : Nat → therm_stat) :
    ∃ s, get_therm_stat cfg st s0 = some s ∧ ∀ j, j < cfg.NUM_CORES →
      s j = get_therm_stat_body (st (j * cfg.NUM_THREADS_PER_CORE) IA32_THERM_STATUS) := by
  obtain ⟨raw, hr1, hr2⟩ := read_all_cores_reps cfg hT st IA32_THERM_STATUS (fun i => (s0 i).raw)
  refine ⟨get_loop therm_stat.raw get_therm_stat_body cfg.NUM_CORES 0 (fun i => { s0 i with raw := raw i }), ?_, ?_⟩
  · simp only [get_therm_stat, hr1]
  intro j hj
  have hc : 0 ≤ j ∧ j < 0 + cfg.NUM_CORES := by omega
  rw [get_loop_spec, if_pos hc, hr2 j hj]

theorem get_therm_interrupt_spec (cfg : Config) (hT : 0 < cfg.NUM_THREADS_PER_CORE)
    (st : RegFile) (s0 : Nat → therm_interrupt) :
    ∃ s, get_therm_interrupt cfg st s0 = some s ∧ ∀ j, j < cfg.NUM_CORES →
      s j = get_therm_interrupt_body
        (st (j * cfg.NUM_THREADS_PER_CORE) IA32_THERM_INTERRUPT) := by
  obtain ⟨raw, hr1, hr2⟩ :=
    read_all_cores_reps cfg hT st IA32_THERM_INTERRUPT (fun i => (s0 i).raw)
  refine ⟨get_loop therm_interrupt.raw get_therm_interrupt_body cfg.NUM_CORES 0 (fun i => { s0 i with raw := raw i }), ?_, ?_⟩
  · simp only [get_therm_interrupt, hr1]
  intro j hj
  have hc : 0 ≤ j ∧ j < 0 + cfg.NUM_CORES := by omega
  rw [get_loop_spec, if_pos hc, hr2 j hj]

theorem get_pkg_therm_stat_spec (cfg : Config) (hC : 0 < cfg.NUM_CORES_PER_SOCKET)
    (hT : 0 < cfg.NUM_THREADS_PER_CORE) (st : RegFile) (s0 : Nat → pkg_therm_stat) :
    ∃ s, get_pkg_therm_stat cfg st s0 = some s ∧ ∀ j, j < cfg.NUM_SOCKETS →
      s j = get_pkg_therm_stat_body
        (st (j * (cfg.NUM_CORES_PER_SOCKET * cfg.NUM_THREADS_PER_CORE))
          IA32_PACKAGE_THERM_STATUS) := by
  obtain ⟨raw, hr1, hr2⟩ :=
    read_all_sockets_reps cfg hC hT st IA32_PACKAGE_THERM_STATUS (fun i => (s0 i).raw)
  refine ⟨get_loop pkg_therm_stat.raw get_pkg_therm_stat_body cfg.NUM_SOCKETS 0 (fun i => { s0 i with raw := raw i }), ?_, ?_⟩
  · simp only [get_pkg_therm_stat, hr1]
  intro j hj
  have hc : 0 ≤ j ∧ j < 0 + cfg.NUM_SOCKETS := by omega
  rw [get_loop_spec, if_pos hc, hr2 j hj]

theorem get_pkg_therm_interrupt_spec (cfg : Config) (hC : 0 < cfg.NUM_CORES_PER_SOCKET)
    (hT : 0 < cfg.NUM_THREADS_PER_CORE) (st : RegFile) (s0 : Nat → pkg_therm_interrupt) :
    ∃ s, get_pkg_therm_interrupt cfg st s0 = some s ∧ ∀ j, j < cfg.NUM_SOCKETS →
      s j = get_pkg_therm_interrupt_body
        (st (j * (cfg.NUM_CORES_PER_SOCKET * cfg.NUM_THREADS_PER_CORE))
          IA32_PACKAGE_THERM_INTERRUPT) := by
  obtain ⟨raw, hr1, hr2⟩ :=
    read_all_sockets_reps cfg hC hT st IA32_PACKAGE_THERM_INTERRUPT (fun i => (s0 i).raw)
  refine ⟨get_loop pkg_therm_interrupt.raw get_pkg_therm_interrupt_body cfg.NUM_SOCKETS 0 (fun i => { s0 i with raw := raw i }), ?_, ?_⟩
  · simp only [get_pkg_therm_interrupt, hr1]
  intro j hj
  have hc : 0 ≤ j ∧ j < 0 + cfg.NUM_SOCKETS := by omega
  rw [get_loop_spec, if_pos hc, hr2 j hj]

/-! ## One register value: bits no statement owns -/

theorem flagBit_of_ne {i : Nat} (m : Bool) {clr pos : Nat} (b : Nat) (h1 : i ≠ clr)
    (h2 : i ≠ pos) : flagBit i m clr pos b = m := by
  simp [flagBit, h1, h2]

theorem sevenBits_outside {i : Nat} (m : Bool) {k v : Nat} (hv : v < 2 ^ 7)
    (h : i < k ∨ k + 7 ≤ i) : sevenBits i m k v = (decide (i < 64) && m) := by
  unfold sevenBits
  rcases h with h | h
  · have h1 : ¬ k ≤ i := by omega
    simp [h1]
  · have h1 : k ≤ i := by omega
    have h2 : ¬ i < k + 3 := by omega
    have h3 : v.testBit (i - k) = false := by
      apply Nat.testBit_lt_two_pow
      exact lt_of_lt_of_le hv (Nat.pow_le_pow_right (by decide) (by omega))
    simp [h1, h2, h3]

theorem and_lt64_testBit {raw : Nat} (hraw : raw < 2 ^ 64) (i : Nat) :
    (decide (i < 64) && raw.testBit i) = raw.testBit i := by
  by_cases h : i < 64
  · simp [h]
  · simp [h, testBit_of_lt_u64 hraw (Nat.le_of_not_lt h)]

theorem frame_set_therm_stat_update (s : therm_stat) (raw : Nat) (hraw : raw < 2 ^ 64)
    (h : set_therm_stat_asserts s = true) (i : Nat) (hi : i ∉ [1, 3, 5, 7, 9, 11]) :
    (set_therm_stat_update s raw).testBit i = raw.testBit i := by
  simp only [List.mem_cons, List.mem_singleton, List.not_mem_nil, or_false, not_or] at hi
  obtain ⟨e1, e3, e5, e7, e9, e11⟩ := hi
  rw [testBit_set_therm_stat_update s raw hraw h, flagBit_of_ne _ _ e11 e1,
    flagBit_of_ne _ _ e9 e1, flagBit_of_ne _ _ e7 e1, flagBit_of_ne _ _ e5 e1,
    flagBit_of_ne _ _ e3 e1, flagBit_of_ne _ _ e1 e1]

theorem frame_set_pkg_therm_stat_update (s : pkg_therm_stat) (raw : Nat)
    (hraw : raw < 2 ^ 64)
    (h1 : s.status_log ≤ 1) (h2 : s.PROCHOT_log ≤ 1) (h3 : s.crit_temp_log ≤ 1)
    (h4 : s.therm_thresh1_log ≤ 1) (h5 : s.therm_thresh2_log ≤ 1)
    (h6 : s.power_notification_log ≤ 1) (i : Nat) (hi : i ∉ [1, 3, 5, 7, 9, 11]) :
    (set_pkg_therm_stat_update s raw).testBit i = raw.testBit i := by
  simp only [List.mem_cons, List.mem_singleton, List.not_mem_nil, or_false, not_or] at hi
  obtain ⟨e1, e3, e5, e7, e9, e11⟩ := hi
  rw [testBit_set_pkg_therm_stat_update s raw hraw h1 h2 h3 h4 h5 h6,
    flagBit_of_ne _ _ e11 e11,
    flagBit_of_ne _ _ e9 e9, flagBit_of_ne _ _ e7 e7, flagBit_of_ne _ _ e5 e5,
    flagBit_of_ne _ _ e3 e3, flagBit_of_ne _ _ e1 e1]

theorem frame_set_therm_interrupt_update (s : therm_interrupt) (raw : Nat)
    (hraw : raw < 2 ^ 64) (h : set_therm_interrupt_asserts s = true)
    (h1 : s.thresh1_val ≤ 127) (h2 : s.thresh2_val ≤ 127) (i : Nat)
    (hi : ¬ (i ≤ 4 ∨ (8 ≤ i ∧ i ≤ 24))) :
    (set_therm_interrupt_update s raw).testBit i = raw.testBit i := by
  rw [testBit_set_therm_interrupt_update s raw hraw h,
    flagBit_of_ne _ _ (by omega) (by omega), flagBit_of_ne _ _ (by omega) (by omega),
    sevenBits_outside _ (by omega) (by omega), flagBit_of_ne _ _ (by omega) (by omega),
    sevenBits_outside _ (by omega) (by omega), flagBit_of_ne _ _ (by omega) (by omega),
    flagBit_of_ne _ _ (by omega) (by omega), flagBit_of_ne _ _ (by omega) (by omega),
    flagBit_of_ne _ _ (by omega) (by omega), flagBit_of_ne _ _ (by omega) (by omega),
    and_lt64_testBit hraw, and_lt64_testBit hraw]

theorem frame_set_pkg_therm_interrupt_update (s : pkg_therm_interrupt) (raw : Nat)
    (hraw : raw < 2 ^ 64) (h : set_pkg_therm_interrupt_asserts s = true)
    (h1 : s.thresh1_val ≤ 127) (h2 : s.thresh2_val ≤ 127) (i : Nat)
    (hi : ¬ (i ≤ 2 ∨ i = 4 ∨ (8 ≤ i ∧ i ≤ 24))) :
    (set_pkg_therm_interrupt_update s raw).testBit i = raw.testBit i := by
  rw [testBit_set_pkg_therm_interrupt_update s raw hraw h,
    flagBit_of_ne _ _ (by omega) (by omega), flagBit_of_ne _ _ (by omega) (by omega),
    sevenBits_outside _ (by omega) (by omega), flagBit_of_ne _ _ (by omega) (by omega),
    sevenBits_outside _ (by omega) (by omega), flagBit_of_ne _ _ (by omega) (by omega),
    flagBit_of_ne _ _ (by omega) (by omega), flagBit_of_ne _ _ (by omega) (by omega),
    flagBit_of_ne _ _ (by omega) (by omega),
    and_lt64_testBit hraw, and_lt64_testBit hraw]

/-! ## Assertions and the boolean fields -/

theorem set_therm_stat_asserts_iff (s : therm_stat) :
    set_therm_stat_asserts s = true ↔ s.flagsBoolean := by
  simp only [set_therm_stat_asserts, therm_stat.flagsBoolean, Bool.and_eq_true, isBool_iff,
    and_assoc]

theorem set_therm_interrupt_asserts_iff (s : therm_interrupt) :
    set_therm_interrupt_asserts s = true ↔ s.flagsBoolean := by
  simp only [set_therm_interrupt_asserts, therm_interrupt.flagsBoolean, Bool.and_eq_true,
    isBool_iff, and_assoc]

theorem set_pkg_therm_interrupt_asserts_iff (s : pkg_therm_interrupt) :
    set_pkg_therm_interrupt_asserts s = true ↔ s.flagsBoolean := by
  simp only [set_pkg_therm_interrupt_asserts, pkg_therm_interrupt.flagsBoolean,
    Bool.and_eq_true, isBool_iff, and_assoc]

theorem regs1_is64 (msr v : Nat) (hv : v < 2 ^ 64) : (regs1 msr v).is64 := by
  intro d m
  unfold regs1
  split
  · exact hv
  · exact Nat.two_pow_pos 64

/-! ## From the representative registers to the register file -/

theorem sameBit_of_reps (upd : Nat → Nat → Nat) {n stride msr : Nat} {st st1 : RegFile}
    (h2 : ∀ j, j < n → st1 (j * stride) msr = upd j (st (j * stride) msr))
    (h3 : ∀ dev m, (∀ j, j < n → dev = j * stride → m ≠ msr) → st1 dev m = st dev m)
    (i : Nat)
    (hf : ∀ j, j < n →
      (upd j (st (j * stride) msr)).testBit i = (st (j * stride) msr).testBit i) :
    sameBit st st1 i := by
  intro dev m
  by_cases h : ∃ j, j < n ∧ dev = j * stride ∧ m = msr
  · obtain ⟨j, hj, hd, hm⟩ := h
    subst hd hm
    rw [h2 j hj]
    exact hf j hj
  · rw [h3 dev m]
    intro j hj hd hm
    exact h ⟨j, hj, hd, hm⟩

theorem eq_of_reps (upd : Nat → Nat → Nat) {n stride msr : Nat} {st st1 : RegFile}
    (h2 : ∀ j, j < n → st1 (j * stride) msr = upd j (st (j * stride) msr))
    (h3 : ∀ dev m, (∀ j, j < n → dev = j * stride → m ≠ msr) → st1 dev m = st dev m)
    (hf : ∀ j, j < n → upd j (st (j * stride) msr) = st (j * stride) msr) :
    st1 = st := by
  funext dev m
  by_cases h : ∃ j, j < n ∧ dev = j * stride ∧ m = msr
  · obtain ⟨j, hj, hd, hm⟩ := h
    subst hd hm
    rw [h2 j hj]
    exact hf j hj
  · rw [h3 dev m]
    intro j hj hd hm
    exact h ⟨j, hj, hd, hm⟩

theorem le_one_of_eq {f : Nat} (h : f = 0 ∨ f = 1) : f ≤ 1 := by
  omega

theorem regsAll_is64 (v : Nat) (hv : v < 2 ^ 64) : (regsAll v).is64 :=
  fun _ _ => hv

/-- Bit `i`, for `15 ≤ i < 64`, after the last five statements of the two
interrupt set routines (`thresh1_val`, `thresh1_enable`, `thresh2_val`,
`thresh2_enable`, `pwr_limit_notification_enable`), from bit `i` before them. -/
theorem threshold_tail_bits (i : Nat) (h1 : 15 ≤ i) (h2 : i < 64) (m : Bool)
    (t1 en1 t2 en2 pl : Nat) :
    flagBit i (flagBit i (sevenBits i (flagBit i (sevenBits i m 8 t1) 15 15 en1) 16 t2)
      23 23 en2) 24 24 pl =
      if i = 15 then decide (en1 = 1)
      else if i ≤ 18 then t2.testBit (i - 16)
      else if i = 23 then decide (en2 = 1)
      else if i = 24 then decide (pl = 1)
      else (m || t1.testBit (i - 8) || t2.testBit (i - 16)) := by
  unfold flagBit sevenBits
  by_cases a : i = 15
  · subst a
    simp
  · by_cases b : i ≤ 18
    · have b1 : 16 ≤ i := by omega
      have b2 : i < 19 := by omega
      have b3 : i ≠ 23 := by omega
      have b4 : i ≠ 24 := by omega
      simp [a, b, b1, b2, b3, b4, h2]
    · by_cases c : i = 23
      · subst c
        simp
      · by_cases d : i = 24
        · subst d
          simp
        · have e1 : 8 ≤ i := by omega
          have e2 : ¬ i < 11 := by omega
          have e3 : 16 ≤ i := by omega
          have e4 : ¬ i < 19 := by omega
          simp [a, b, c, d, e1, e2, e3, e4, h2]

theorem upper_bits_set_therm_interrupt_update (s : therm_interrupt) (raw : Nat)
    (hraw : raw < 2 ^ 64) (h : set_therm_interrupt_asserts s = true) (i : Nat)
    (h1 : 15 ≤ i) (h2 : i < 64) :
    (set_therm_interrupt_update s raw).testBit i =
      if i = 15 then decide (s.thresh1_enable = 1)
      else if i ≤ 18 then s.thresh2_val.testBit (i - 16)
      else if i = 23 then decide (s.thresh2_enable = 1)
      else if i = 24 then decide (s.pwr_limit_notification_enable = 1)
      else (raw.testBit i || s.thresh1_val.testBit (i - 8) ||
        s.thresh2_val.testBit (i - 16)) := by
  rw [testBit_set_therm_interrupt_update s raw hraw h, threshold_tail_bits i h1 h2,
    flagBit_of_ne _ _ (by omega) (by omega), flagBit_of_ne _ _ (by omega) (by omega),
    flagBit_of_ne _ _ (by omega) (by omega), flagBit_of_ne _ _ (by omega) (by omega),
    flagBit_of_ne _ _ (by omega) (by omega)]

theorem upper_bits_set_pkg_therm_interrupt_update (s : pkg_therm_interrupt) (raw : Nat)
    (hraw : raw < 2 ^ 64) (h : set_pkg_therm_interrupt_asserts s = true) (i : Nat)
    (h1 : 15 ≤ i) (h2 : i < 64) :
    (set_pkg_therm_interrupt_update s raw).testBit i =
      if i = 15 then decide (s.thresh1_enable = 1)
      else if i ≤ 18 then s.thresh2_val.testBit (i - 16)
      else if i = 23 then decide (s.thresh2_enable = 1)
      else if i = 24 then decide (s.pwr_limit_notification_enable = 1)
      else (raw.testBit i || s.thresh1_val.testBit (i - 8) ||
        s.thresh2_val.testBit (i - 16)) := by
  rw [testBit_set_pkg_therm_interrupt_update s raw hraw h, threshold_tail_bits i h1 h2,
    flagBit_of_ne _ _ (by omega) (by omega), flagBit_of_ne _ _ (by omega) (by omega),
    flagBit_of_ne _ _ (by omega) (by omega), flagBit_of_ne _ _ (by omega) (by omega)]

theorem therm_interrupt_setFlag_asserts (s : therm_interrupt) (F : therm_interrupt_flag)
    (v : Nat) (h : set_therm_interrupt_asserts s = true) (hv : v = 0 ∨ v = 1) :
    set_therm_interrupt_asserts (s.setFlag F v) = true := by
  rw [set_therm_interrupt_asserts_iff] at *
  unfold therm_interrupt.flagsBoolean at *
  obtain ⟨a1, a2, a3, a4, a5, a6, a7, a8⟩ := h
  cases F
  · exact ⟨hv, a2, a3, a4, a5, a6, a7, a8⟩
  · exact ⟨a1, hv, a3, a4, a5, a6, a7, a8⟩
  · exact ⟨a1, a2, hv, a4, a5, a6, a7, a8⟩
  · exact ⟨a1, a2, a3, hv, a5, a6, a7, a8⟩
  · exact ⟨a1, a2, a3, a4, hv, a6, a7, a8⟩
  · exact ⟨a1, a2, a3, a4, a5, hv, a7, a8⟩
  · exact ⟨a1, a2, a3, a4, a5, a6, hv, a8⟩
  · exact ⟨a1, a2, a3, a4, a5, a6, a7, hv⟩

theorem pkg_therm_interrupt_setFlag_asserts (s : pkg_therm_interrupt)
    (F : pkg_therm_interrupt_flag) (v : Nat) (h : set_pkg_therm_interrupt_asserts s = true)
    (hv : v = 0 ∨ v = 1) :
    set_pkg_therm_interrupt_asserts (s.setFlag F v) = true := by
  rw [set_pkg_therm_interrupt_asserts_iff] at *
  unfold pkg_therm_interrupt.flagsBoolean at *
  obtain ⟨a1, a2, a3, a5, a6, a7, a8⟩ := h
  cases F
  · exact ⟨hv, a2, a3, a5, a6, a7, a8⟩
  · exact ⟨a1, hv, a3, a5, a6, a7, a8⟩
  · exact ⟨a1, a2, hv, a5, a6, a7, a8⟩
  · exact ⟨a1, a2, a3, hv, a6, a7, a8⟩
  · exact ⟨a1, a2, a3, a5, hv, a7, a8⟩
  · exact ⟨a1, a2, a3, a5, a6, hv, a8⟩
  · exact ⟨a1, a2, a3, a5, a6, a7, hv⟩

theorem therm_interrupt_setFlag_thresh (s : therm_interrupt) (F : therm_interrupt_flag)
    (v : Nat) :
    (s.setFlag F v).thresh1_val = s.thresh1_val ∧ (s.setFlag F v).thresh2_val = s.thresh2_val := by
  cases F <;> exact ⟨rfl, rfl⟩

theorem pkg_therm_interrupt_setFlag_thresh (s : pkg_therm_interrupt)
    (F : pkg_therm_interrupt_flag) (v : Nat) :
    (s.setFlag F v).thresh1_val = s.thresh1_val ∧ (s.setFlag F v).thresh2_val = s.thresh2_val := by
  cases F <;> exact ⟨rfl, rfl⟩

theorem therm_interrupt_getFlag_setFlag (s : therm_interrupt) (F : therm_interrupt_flag)
    (v r : Nat) : ({ s.setFlag F v with raw := r } : therm_interrupt).getFlag F = v := by
  cases F <;> rfl

theorem pkg_therm_interrupt_getFlag_setFlag (s : pkg_therm_interrupt)
    (F : pkg_therm_interrupt_flag) (v r : Nat) :
    ({ s.setFlag F v with raw := r } : pkg_therm_interrupt).getFlag F = v := by
  cases F <;> rfl

theorem set_routine_aborted_iff {α : Type}
    {readAll : RegFile → Nat → (Nat → Nat) → Option (Nat → Nat)}
    (writeAllV : RegFile → Nat → (Nat → Nat) → Option RegFile) (n : Nat)
    (hR : ∀ st msr val, ∃ val1, readAll st msr val = some val1) (msr : Nat)
    (asserts : α → Bool) (update : α → Nat → Nat) (s : Nat → α) (st : RegFile) :
    ((set_routine readAll writeAllV msr n asserts update s st).isAborted = true ↔
        ∃ j, j < n ∧ asserts (s j) = false) ∧
      ((set_routine readAll writeAllV msr n asserts update s st).isAborted = true →
        set_routine readAll writeAllV msr n asserts update s st = Outcome.aborted st) := by
  by_cases hbad : ∃ j, j < n ∧ asserts (s j) = false
  · have e := set_routine_aborted writeAllV n hR msr asserts update s st hbad
    rw [e]
    exact ⟨⟨fun _ => hbad, fun _ => rfl⟩, fun _ => rfl⟩
  · have hok : ∀ j, j < n → asserts (s j) = true := by
      intro j hj
      cases hb : asserts (s j)
      · exact absurd ⟨j, hj, hb⟩ hbad
      · rfl
    have e := set_routine_not_aborted readAll writeAllV n msr asserts update s st hok
    rw [e]
    exact ⟨⟨fun h => absurd h (by decide), fun h => absurd h hbad⟩,
      fun h => absurd h (by decide)⟩

theorem asserts_false_iff {α : Type} (asserts : α → Bool) (P : α → Prop)
    (h : ∀ a, asserts a = true ↔ P a) (s : Nat → α) (n : Nat) :
    (∃ j, j < n ∧ asserts (s j) = false) ↔ ∃ j, j < n ∧ ¬ P (s j) := by
  constructor
  · rintro ⟨j, hj, hb⟩
    refine ⟨j, hj, fun hp => ?_⟩
    rw [(h _).mpr hp] at hb
    exact absurd hb (by decide)
  · rintro ⟨j, hj, hp⟩
    refine ⟨j, hj, ?_⟩
    cases hb : asserts (s j)
    · rfl
    · exact absurd ((h _).mp hb) hp

/-! ## Claims -/

/-- C1 (the code departs from the claim).  On one core whose thermal-status
register holds `0`, the view decoded by `get_therm_stat` with
`PROCHOT_or_FORCEPR_log` replaced by `1` makes `set_therm_stat` write `0x2`;
decoding that value gives `PROCHOT_or_FORCEPR_log = 0`, not `1`, and
`status_log = 1` although it decoded to `0` before. -/
theorem set_therm_stat_round_trip_broken :
    ∃ s st1 s1,
      get_therm_stat cfg1 (regs1 IA32_THERM_STATUS 0) therm_stat_zero = some s ∧
      set_therm_stat cfg1 (Function.update s 0 { s 0 with PROCHOT_or_FORCEPR_log := 1 })
        (regs1 IA32_THERM_STATUS 0) = Outcome.done st1 ∧
      st1 0 IA32_THERM_STATUS = 0x2 ∧
      get_therm_stat cfg1 st1 therm_stat_zero = some s1 ∧
      (s1 0).PROCHOT_or_FORCEPR_log = 0 ∧ (s1 0).status_log = 1 ∧ (s 0).status_log = 0 :=
  ⟨_, _, _, rfl, rfl, by decide, rfl, by decide, by decide, by decide⟩

/-- C2 (the code departs from the claim).  On one core whose thermal-status
register holds `0x8`, `set_therm_stat` applied to the view `get_therm_stat`
produced writes `0x2`, not `0x8`. -/
theorem set_therm_stat_get_not_idempotent :
    ∃ s st1,
      get_therm_stat cfg1 (regs1 IA32_THERM_STATUS 0x8) therm_stat_zero = some s ∧
      set_therm_stat cfg1 s (regs1 IA32_THERM_STATUS 0x8) = Outcome.done st1 ∧
      st1 0 IA32_THERM_STATUS = 0x2 :=
  ⟨_, _, rfl, rfl, by decide⟩

/-- C4 (the code departs from the claim).  With the interrupt register of the
one core (resp. socket) holding `0x7F00`, the decoded view with `thresh1_val`
replaced by `0` makes `set_therm_interrupt` (resp. `set_pkg_therm_interrupt`)
write `0x7800`, which decodes to `thresh1_val = 120`, not `0`. -/
theorem set_interrupt_threshold_round_trip_broken :
    (∃ s st1 s1,
      get_therm_interrupt cfg1 (regs1 IA32_THERM_INTERRUPT 0x7F00) therm_interrupt_zero
        = some s ∧
      set_therm_interrupt cfg1 (Function.update s 0 { s 0 with thresh1_val := 0 })
        (regs1 IA32_THERM_INTERRUPT 0x7F00) = Outcome.done st1 ∧
      st1 0 IA32_THERM_INTERRUPT = 0x7800 ∧
      get_therm_interrupt cfg1 st1 therm_interrupt_zero = some s1 ∧
      (s1 0).thresh1_val = 120) ∧
    (∃ s st1 s1,
      get_pkg_therm_interrupt cfg1 (regs1 IA32_PACKAGE_THERM_INTERRUPT 0x7F00)
        pkg_therm_interrupt_zero = some s ∧
      set_pkg_therm_interrupt cfg1 (Function.update s 0 { s 0 with thresh1_val := 0 })
        (regs1 IA32_PACKAGE_THERM_INTERRUPT 0x7F00) = Outcome.done st1 ∧
      st1 0 IA32_PACKAGE_THERM_INTERRUPT = 0x7800 ∧
      get_pkg_therm_interrupt cfg1 st1 pkg_therm_interrupt_zero = some s1 ∧
      (s1 0).thresh1_val = 120) :=
  ⟨⟨_, _, _, rfl, rfl, by decide, rfl, by decide⟩,
   ⟨_, _, _, rfl, rfl, by decide, rfl, by decide⟩⟩

/-- C7 (the code departs from the claim).  With the package thermal-status
register of the one socket holding `0x20` (only `crit_temp_log` set),
`set_pkg_therm_stat` applied to the view `get_pkg_therm_stat` produced fails
its third assertion and writes nothing. -/
theorem set_pkg_therm_stat_get_aborts :
    ∃ s,
      get_pkg_therm_stat cfg1 (regs1 IA32_PACKAGE_THERM_STATUS 0x20) pkg_therm_stat_zero
        = some s ∧
      (s 0).crit_temp_log = 1 ∧ (s 0).PROCHOT_log = 0 ∧
      (set_pkg_therm_stat cfg1 s (regs1 IA32_PACKAGE_THERM_STATUS 0x20)).isAborted = true :=
  ⟨_, rfl, by decide, by decide, by decide⟩

/-- C9 (the code departs from the claim).  On one socket whose register holds
`0`: the view with `crit_temp_log = 1` and the other five log fields `0` is
rejected although all six are `0` or `1`; the view with `crit_temp_log = 2` and
`PROCHOT_log = 1` is accepted and `0x48` is written. -/
theorem set_pkg_therm_stat_validation_broken :
    (set_pkg_therm_stat cfg1
        (fun _ => { pkg_therm_stat_zero 0 with crit_temp_log := 1 })
        (regs1 IA32_PACKAGE_THERM_STATUS 0)).isAborted = true ∧
    (set_pkg_therm_stat cfg1
        (fun _ => { pkg_therm_stat_zero 0 with crit_temp_log := 2, PROCHOT_log := 1 })
        (regs1 IA32_PACKAGE_THERM_STATUS 0)).read 0 IA32_PACKAGE_THERM_STATUS = some 0x48 :=
  ⟨by decide, by decide⟩

/-- C10, as stated, fails.  On one core (resp. socket) whose interrupt register
holds `0`, the view with every flag `0` and `thresh1_val = 2048` is not
rejected: `0x80000` is written, bit 19, which lies in the field of
`thresh2_val`. -/
theorem set_interrupt_accepts_wide_threshold :
    (set_therm_interrupt cfg1
        (fun _ => { therm_interrupt_zero 0 with thresh1_val := 2048 })
        (regs1 IA32_THERM_INTERRUPT 0)).read 0 IA32_THERM_INTERRUPT = some 0x80000 ∧
    (set_pkg_therm_interrupt cfg1
        (fun _ => { pkg_therm_interrupt_zero 0 with thresh1_val := 2048 })
        (regs1 IA32_PACKAGE_THERM_INTERRUPT 0)).read 0 IA32_PACKAGE_THERM_INTERRUPT
      = some 0x80000 :=
  ⟨by decide, by decide⟩

/-- C3.  For a topology with at least one core per socket and one thread per
core, a register file of 64-bit values, and views whose written boolean fields
are `0` or `1` and whose thresholds are at most `127`: `set_therm_stat` returns
and the register file agrees with the one before on every bit outside
`{1,3,5,7,9,11}`; `set_therm_interrupt` returns and agrees outside
`{0..4, 8..24}`; `set_pkg_therm_interrupt` returns and agrees outside
`{0,1,2,4, 8..24}`; `set_pkg_therm_stat` ends (by returning, or by a failed
assertion before its write) with a register file that agrees outside
`{1,3,5,7,9,11}`. -/
theorem set_routines_preserve_unowned_bits (cfg : Config)
    (hC : 0 < cfg.NUM_CORES_PER_SOCKET) (hT : 0 < cfg.NUM_THREADS_PER_CORE)
    (st : RegFile) (hst : st.is64)
    (s1 : Nat → therm_stat) (s2 : Nat → therm_interrupt)
    (s3 : Nat → pkg_therm_stat) (s4 : Nat → pkg_therm_interrupt)
    (h1 : ∀ j, j < cfg.NUM_CORES → (s1 j).flagsBoolean)
    (h2 : ∀ j, j < cfg.NUM_CORES →
      (s2 j).flagsBoolean ∧ (s2 j).thresh1_val ≤ 127 ∧ (s2 j).thresh2_val ≤ 127)
    (h3 : ∀ j, j < cfg.NUM_SOCKETS → (s3 j).flagsBoolean)
    (h4 : ∀ j, j < cfg.NUM_SOCKETS →
      (s4 j).flagsBoolean ∧ (s4 j).thresh1_val ≤ 127 ∧ (s4 j).thresh2_val ≤ 127) :
    (∃ st1, set_therm_stat cfg s1 st = Outcome.done st1 ∧
      ∀ i, i ∉ [1, 3, 5, 7, 9, 11] → sameBit st st1 i) ∧
    ((∃ st1, set_pkg_therm_stat cfg s3 st = Outcome.done st1 ∧
        ∀ i, i ∉ [1, 3, 5, 7, 9, 11] → sameBit st st1 i) ∨
      set_pkg_therm_stat cfg s3 st = Outcome.aborted st) ∧
    (∃ st1, set_therm_interrupt cfg s2 st = Outcome.done st1 ∧
      ∀ i, ¬ (i ≤ 4 ∨ (8 ≤ i ∧ i ≤ 24)) → sameBit st st1 i) ∧
    (∃ st1, set_pkg_therm_interrupt cfg s4 st = Outcome.done st1 ∧
      ∀ i, ¬ (i ≤ 2 ∨ i = 4 ∨ (8 ≤ i ∧ i ≤ 24)) → sameBit st st1 i) := by
  refine ⟨?_, ?_, ?_, ?_⟩
  · have hok : ∀ j, j < cfg.NUM_CORES → set_therm_stat_asserts (s1 j) = true :=
      fun j hj => (set_therm_stat_asserts_iff _).mpr (h1 j hj)
    obtain ⟨st1, e1, e2, e3⟩ := set_routine_done (read_all_cores_reps cfg hT)
      (write_all_cores_v_reps cfg hT) IA32_THERM_STATUS set_therm_stat_asserts
      set_therm_stat_update s1 st hok
    refine ⟨st1, e1, ?_⟩
    intro i hi
    exact sameBit_of_reps (fun j => set_therm_stat_update (s1 j)) e2 e3 i
      (fun j hj => frame_set_therm_stat_update _ _ (hst _ _) (hok j hj) i hi)
  · by_cases hok : ∀ j, j < cfg.NUM_SOCKETS → set_pkg_therm_stat_asserts (s3 j) = true
    · left
      obtain ⟨st1, e1, e2, e3⟩ := set_routine_done (read_all_sockets_reps cfg hC hT)
        (write_all_sockets_v_reps cfg hC hT) IA32_PACKAGE_THERM_STATUS
        set_pkg_therm_stat_asserts set_pkg_therm_stat_update s3 st hok
      refine ⟨st1, e1, ?_⟩
      intro i hi
      refine sameBit_of_reps (fun j => set_pkg_therm_stat_update (s3 j)) e2 e3 i ?_
      intro j hj
      obtain ⟨a1, a2, a3, a4, a5, a6⟩ := h3 j hj
      exact frame_set_pkg_therm_stat_update _ _ (hst _ _) (le_one_of_eq a1) (le_one_of_eq a2)
        (le_one_of_eq a3) (le_one_of_eq a4) (le_one_of_eq a5) (le_one_of_eq a6) i hi
    · right
      have hbad : ∃ j, j < cfg.NUM_SOCKETS ∧ set_pkg_therm_stat_asserts (s3 j) = false := by
        by_contra hcon
        apply hok
        intro j hj
        cases hb : set_pkg_therm_stat_asserts (s3 j)
        · exact absurd ⟨j, hj, hb⟩ hcon
        · rfl
      exact set_routine_aborted (write_all_sockets_v cfg) cfg.NUM_SOCKETS
        (read_all_sockets_total cfg) IA32_PACKAGE_THERM_STATUS set_pkg_therm_stat_asserts
        set_pkg_therm_stat_update s3 st hbad
  · have hok : ∀ j, j < cfg.NUM_CORES → set_therm_interrupt_asserts (s2 j) = true :=
      fun j hj => (set_therm_interrupt_asserts_iff _).mpr (h2 j hj).1
    obtain ⟨st1, e1, e2, e3⟩ := set_routine_done (read_all_cores_reps cfg hT)
      (write_all_cores_v_reps cfg hT) IA32_THERM_INTERRUPT set_therm_interrupt_asserts
      set_therm_interrupt_update s2 st hok
    refine ⟨st1, e1, ?_⟩
    intro i hi
    exact sameBit_of_reps (fun j => set_therm_interrupt_update (s2 j)) e2 e3 i
      (fun j hj => frame_set_therm_interrupt_update _ _ (hst _ _) (hok j hj)
        (h2 j hj).2.1 (h2 j hj).2.2 i hi)
  · have hok : ∀ j, j < cfg.NUM_SOCKETS → set_pkg_therm_interrupt_asserts (s4 j) = true :=
      fun j hj => (set_pkg_therm_interrupt_asserts_iff _).mpr (h4 j hj).1
    obtain ⟨st1, e1, e2, e3⟩ := set_routine_done (read_all_sockets_reps cfg hC hT)
      (write_all_sockets_v_reps cfg hC hT) IA32_PACKAGE_THERM_INTERRUPT
      set_pkg_therm_interrupt_asserts set_pkg_therm_interrupt_update s4 st hok
    refine ⟨st1, e1, ?_⟩
    intro i hi
    exact sameBit_of_reps (fun j => set_pkg_therm_interrupt_update (s4 j)) e2 e3 i
      (fun j hj => frame_set_pkg_therm_interrupt_update _ _ (hst _ _) (hok j hj)
        (h4 j hj).2.1 (h4 j hj).2.2 i hi)

/-- Witness of C3: two sockets of two cores of two threads, every register
holding `2 ^ 64 - 1`, views with every written flag `1` and both thresholds
`127`. -/
theorem set_routines_preserve_unowned_bits_witness :
    (∃ st1, set_therm_stat cfg2 (fun _ => get_therm_stat_body (2 ^ 64 - 1))
        (regsAll (2 ^ 64 - 1)) = Outcome.done st1 ∧
      ∀ i, i ∉ [1, 3, 5, 7, 9, 11] → sameBit (regsAll (2 ^ 64 - 1)) st1 i) ∧
    ((∃ st1, set_pkg_therm_stat cfg2 (fun _ => get_pkg_therm_stat_body (2 ^ 64 - 1))
        (regsAll (2 ^ 64 - 1)) = Outcome.done st1 ∧
        ∀ i, i ∉ [1, 3, 5, 7, 9, 11] → sameBit (regsAll (2 ^ 64 - 1)) st1 i) ∨
      set_pkg_therm_stat cfg2 (fun _ => get_pkg_therm_stat_body (2 ^ 64 - 1))
        (regsAll (2 ^ 64 - 1)) = Outcome.aborted (regsAll (2 ^ 64 - 1))) ∧
    (∃ st1, set_therm_interrupt cfg2 (fun _ => get_therm_interrupt_body (2 ^ 64 - 1))
        (regsAll (2 ^ 64 - 1)) = Outcome.done st1 ∧
      ∀ i, ¬ (i ≤ 4 ∨ (8 ≤ i ∧ i ≤ 24)) → sameBit (regsAll (2 ^ 64 - 1)) st1 i) ∧
    (∃ st1, set_pkg_therm_interrupt cfg2
        (fun _ => get_pkg_therm_interrupt_body (2 ^ 64 - 1))
        (regsAll (2 ^ 64 - 1)) = Outcome.done st1 ∧
      ∀ i, ¬ (i ≤ 2 ∨ i = 4 ∨ (8 ≤ i ∧ i ≤ 24)) → sameBit (regsAll (2 ^ 64 - 1)) st1 i) :=
  set_routines_preserve_unowned_bits cfg2 (by decide) (by decide) (regsAll (2 ^ 64 - 1))
    (regsAll_is64 _ (by decide)) _ _ _ _ (fun _ _ => by decide) (fun _ _ => by decide)
    (fun _ _ => by decide) (fun _ _ => by decide)

/-- C5.  For a topology with at least one core per socket and one thread per
core and a register file of 64-bit values: take the view `get_therm_interrupt`
decodes, replace boolean field `F` of core `k` by `v` in `{0,1}`, pass it to
`set_therm_interrupt` and decode again with `get_therm_interrupt`.  Every call
returns, field `F` of core `k` is `v`, and every other decoded field of core `k`
is as in the first decoding.  The same holds for `get_pkg_therm_interrupt` and
`set_pkg_therm_interrupt` with a socket `k` and their seven boolean fields. -/
theorem set_interrupt_flag_round_trip (cfg : Config)
    (hC : 0 < cfg.NUM_CORES_PER_SOCKET) (hT : 0 < cfg.NUM_THREADS_PER_CORE)
    (st : RegFile) (hst : st.is64) (v : Nat) (hv : v = 0 ∨ v = 1)
    (F : therm_interrupt_flag) (kc : Nat) (hkc : kc < cfg.NUM_CORES)
    (c0 c0' : Nat → therm_interrupt)
    (G : pkg_therm_interrupt_flag) (ks : Nat) (hks : ks < cfg.NUM_SOCKETS)
    (p0 p0' : Nat → pkg_therm_interrupt) :
    (∃ s st1 s1,
      get_therm_interrupt cfg st c0 = some s ∧
      set_therm_interrupt cfg (Function.update s kc ((s kc).setFlag F v)) st
        = Outcome.done st1 ∧
      get_therm_interrupt cfg st1 c0' = some s1 ∧
      (s1 kc).getFlag F = v ∧
      s1 kc = { (s kc).setFlag F v with raw := (s1 kc).raw }) ∧
    (∃ s st1 s1,
      get_pkg_therm_interrupt cfg st p0 = some s ∧
      set_pkg_therm_interrupt cfg (Function.update s ks ((s ks).setFlag G v)) st
        = Outcome.done st1 ∧
      get_pkg_therm_interrupt cfg st1 p0' = some s1 ∧
      (s1 ks).getFlag G = v ∧
      s1 ks = { (s ks).setFlag G v with raw := (s1 ks).raw }) := by
  constructor
  · obtain ⟨s, hg, hs⟩ := get_therm_interrupt_spec cfg hT st c0
    have hok : ∀ j, j < cfg.NUM_CORES → set_therm_interrupt_asserts
        (Function.update s kc ((s kc).setFlag F v) j) = true := by
      intro j hj
      by_cases hjk : j = kc
      · subst hjk
        rw [Function.update_same, hs j hj]
        exact therm_interrupt_setFlag_asserts _ F v (get_therm_interrupt_body_asserts _) hv
      · rw [Function.update_noteq hjk, hs j hj]
        exact get_therm_interrupt_body_asserts _
    obtain ⟨st1, e1, e2, _⟩ := set_routine_done (read_all_cores_reps cfg hT)
      (write_all_cores_v_reps cfg hT) IA32_THERM_INTERRUPT set_therm_interrupt_asserts
      set_therm_interrupt_update _ st hok
    obtain ⟨s1, hg1, hs1⟩ := get_therm_interrupt_spec cfg hT st1 c0'
    have key : s1 kc = { (s kc).setFlag F v with raw := (s1 kc).raw } := by
      have hth := therm_interrupt_setFlag_thresh (s kc) F v
      have hdec := get_set_therm_interrupt_body ((s kc).setFlag F v)
        (st (kc * cfg.NUM_THREADS_PER_CORE) IA32_THERM_INTERRUPT) (hst _ _)
        (by
          have := hok kc hkc
          rwa [Function.update_same] at this)
        (by rw [hth.1, hs kc hkc]; rfl) (by rw [hth.2, hs kc hkc]; rfl)
      have e := e2 kc hkc
      rw [Function.update_same] at e
      rw [hs1 kc hkc, e, hdec]
    refine ⟨s, st1, s1, hg, e1, hg1, ?_, key⟩
    rw [key]
    exact therm_interrupt_getFlag_setFlag _ F v _
  · obtain ⟨s, hg, hs⟩ := get_pkg_therm_interrupt_spec cfg hC hT st p0
    have hok : ∀ j, j < cfg.NUM_SOCKETS → set_pkg_therm_interrupt_asserts
        (Function.update s ks ((s ks).setFlag G v) j) = true := by
      intro j hj
      by_cases hjk : j = ks
      · subst hjk
        rw [Function.update_same, hs j hj]
        exact pkg_therm_interrupt_setFlag_asserts _ G v
          (get_pkg_therm_interrupt_body_asserts _) hv
      · rw [Function.update_noteq hjk, hs j hj]
        exact get_pkg_therm_interrupt_body_asserts _
    obtain ⟨st1, e1, e2, _⟩ := set_routine_done (read_all_sockets_reps cfg hC hT)
      (write_all_sockets_v_reps cfg hC hT) IA32_PACKAGE_THERM_INTERRUPT
      set_pkg_therm_interrupt_asserts set_pkg_therm_interrupt_update _ st hok
    obtain ⟨s1, hg1, hs1⟩ := get_pkg_therm_interrupt_spec cfg hC hT st1 p0'
    have key : s1 ks = { (s ks).setFlag G v with raw := (s1 ks).raw } := by
      have hth := pkg_therm_interrupt_setFlag_thresh (s ks) G v
      have hdec := get_set_pkg_therm_interrupt_body ((s ks).setFlag G v)
        (st (ks * (cfg.NUM_CORES_PER_SOCKET * cfg.NUM_THREADS_PER_CORE))
          IA32_PACKAGE_THERM_INTERRUPT) (hst _ _)
        (by
          have := hok ks hks
          rwa [Function.update_same] at this)
        (by rw [hth.1, hs ks hks]; rfl) (by rw [hth.2, hs ks hks]; rfl)
      have e := e2 ks hks
      rw [Function.update_same] at e
      rw [hs1 ks hks, e, hdec]
    refine ⟨s, st1, s1, hg, e1, hg1, ?_, key⟩
    rw [key]
    exact pkg_therm_interrupt_getFlag_setFlag _ G v _

/-- Witness of C5: two sockets of two cores of two threads, every register
holding `0x5555`, `FORCEPR_enable` of core 3 and `crit_temp_enable` of socket 1
replaced by `1`. -/
theorem set_interrupt_flag_round_trip_witness :
    (∃ s st1 s1,
      get_therm_interrupt cfg2 (regsAll 0x5555) therm_interrupt_zero = some s ∧
      set_therm_interrupt cfg2
        (Function.update s 3 ((s 3).setFlag therm_interrupt_flag.FORCEPR_enable 1))
        (regsAll 0x5555) = Outcome.done st1 ∧
      get_therm_interrupt cfg2 st1 therm_interrupt_zero = some s1 ∧
      (s1 3).getFlag therm_interrupt_flag.FORCEPR_enable = 1 ∧
      s1 3 = { (s 3).setFlag therm_interrupt_flag.FORCEPR_enable 1 with
        raw := (s1 3).raw }) ∧
    (∃ s st1 s1,
      get_pkg_therm_interrupt cfg2 (regsAll 0x5555) pkg_therm_interrupt_zero = some s ∧
      set_pkg_therm_interrupt cfg2
        (Function.update s 1 ((s 1).setFlag pkg_therm_interrupt_flag.crit_temp_enable 1))
        (regsAll 0x5555) = Outcome.done st1 ∧
      get_pkg_therm_interrupt cfg2 st1 pkg_therm_interrupt_zero = some s1 ∧
      (s1 1).getFlag pkg_therm_interrupt_flag.crit_temp_enable = 1 ∧
      s1 1 = { (s 1).setFlag pkg_therm_interrupt_flag.crit_temp_enable 1 with
        raw := (s1 1).raw }) :=
  set_interrupt_flag_round_trip cfg2 (by decide) (by decide) (regsAll 0x5555)
    (regsAll_is64 _ (by decide)) 1 (Or.inr rfl) therm_interrupt_flag.FORCEPR_enable 3
    (by decide) therm_interrupt_zero therm_interrupt_zero
    pkg_therm_interrupt_flag.crit_temp_enable 1 (by decide) pkg_therm_interrupt_zero
    pkg_therm_interrupt_zero

/-- C6.  For a topology with at least one core per socket and one thread per
core and a register file of 64-bit values, `get_therm_interrupt` returns a
view on which `set_therm_interrupt` returns, no assertion failing, with the
register file exactly as it was; likewise `get_pkg_therm_interrupt` and
`set_pkg_therm_interrupt`. -/
theorem set_interrupt_get_idempotent (cfg : Config)
    (hC : 0 < cfg.NUM_CORES_PER_SOCKET) (hT : 0 < cfg.NUM_THREADS_PER_CORE)
    (st : RegFile) (hst : st.is64)
    (c0 : Nat → therm_interrupt) (p0 : Nat → pkg_therm_interrupt) :
    (∃ s, get_therm_interrupt cfg st c0 = some s ∧
      set_therm_interrupt cfg s st = Outcome.done st) ∧
    (∃ s, get_pkg_therm_interrupt cfg st p0 = some s ∧
      set_pkg_therm_interrupt cfg s st = Outcome.done st) := by
  constructor
  · obtain ⟨s, hg, hs⟩ := get_therm_interrupt_spec cfg hT st c0
    have hok : ∀ j, j < cfg.NUM_CORES → set_therm_interrupt_asserts (s j) = true := by
      intro j hj
      rw [hs j hj]
      exact get_therm_interrupt_body_asserts _
    obtain ⟨st1, e1, e2, e3⟩ := set_routine_done (read_all_cores_reps cfg hT)
      (write_all_cores_v_reps cfg hT) IA32_THERM_INTERRUPT set_therm_interrupt_asserts
      set_therm_interrupt_update s st hok
    have e : st1 = st :=
      eq_of_reps (fun j => set_therm_interrupt_update (s j)) e2 e3
        (fun j hj => by
          show set_therm_interrupt_update (s j) _ = _
          rw [hs j hj]
          exact set_get_therm_interrupt_body _ (hst _ _))
    subst e
    exact ⟨s, hg, e1⟩
  · obtain ⟨s, hg, hs⟩ := get_pkg_therm_interrupt_spec cfg hC hT st p0
    have hok : ∀ j, j < cfg.NUM_SOCKETS → set_pkg_therm_interrupt_asserts (s j) = true := by
      intro j hj
      rw [hs j hj]
      exact get_pkg_therm_interrupt_body_asserts _
    obtain ⟨st1, e1, e2, e3⟩ := set_routine_done (read_all_sockets_reps cfg hC hT)
      (write_all_sockets_v_reps cfg hC hT) IA32_PACKAGE_THERM_INTERRUPT
      set_pkg_therm_interrupt_asserts set_pkg_therm_interrupt_update s st hok
    have e : st1 = st :=
      eq_of_reps (fun j => set_pkg_therm_interrupt_update (s j)) e2 e3
        (fun j hj => by
          show set_pkg_therm_interrupt_update (s j) _ = _
          rw [hs j hj]
          exact set_get_pkg_therm_interrupt_body _ (hst _ _))
    subst e
    exact ⟨s, hg, e1⟩

/-- Witness of C6: two sockets of two cores of two threads, every register
holding `2 ^ 64 - 1`. -/
theorem set_interrupt_get_idempotent_witness :
    (∃ s, get_therm_interrupt cfg2 (regsAll (2 ^ 64 - 1)) therm_interrupt_zero = some s ∧
      set_therm_interrupt cfg2 s (regsAll (2 ^ 64 - 1))
        = Outcome.done (regsAll (2 ^ 64 - 1))) ∧
    (∃ s, get_pkg_therm_interrupt cfg2 (regsAll (2 ^ 64 - 1)) pkg_therm_interrupt_zero
        = some s ∧
      set_pkg_therm_interrupt cfg2 s (regsAll (2 ^ 64 - 1))
        = Outcome.done (regsAll (2 ^ 64 - 1))) :=
  set_interrupt_get_idempotent cfg2 (by decide) (by decide) (regsAll (2 ^ 64 - 1))
    (regsAll_is64 _ (by decide)) therm_interrupt_zero pkg_therm_interrupt_zero

/-- C8.  Each of `set_therm_stat`, `set_therm_interrupt` and
`set_pkg_therm_interrupt` ends in a failed assertion if and only if some core
(resp. socket) below `NUM_CORES` (resp. `NUM_SOCKETS`) has a written boolean
field that is neither `0` nor `1`; and when it does, the register file at the
failure is the one the call started with. -/
theorem set_boolean_validation (cfg : Config) (st : RegFile)
    (s1 : Nat → therm_stat) (s2 : Nat → therm_interrupt) (s4 : Nat → pkg_therm_interrupt) :
    (((set_therm_stat cfg s1 st).isAborted = true ↔
        ∃ j, j < cfg.NUM_CORES ∧ ¬ (s1 j).flagsBoolean) ∧
      ((set_therm_stat cfg s1 st).isAborted = true →
        set_therm_stat cfg s1 st = Outcome.aborted st)) ∧
    (((set_therm_interrupt cfg s2 st).isAborted = true ↔
        ∃ j, j < cfg.NUM_CORES ∧ ¬ (s2 j).flagsBoolean) ∧
      ((set_therm_interrupt cfg s2 st).isAborted = true →
        set_therm_interrupt cfg s2 st = Outcome.aborted st)) ∧
    (((set_pkg_therm_interrupt cfg s4 st).isAborted = true ↔
        ∃ j, j < cfg.NUM_SOCKETS ∧ ¬ (s4 j).flagsBoolean) ∧
      ((set_pkg_therm_interrupt cfg s4 st).isAborted = true →
        set_pkg_therm_interrupt cfg s4 st = Outcome.aborted st)) := by
  refine ⟨?_, ?_, ?_⟩
  · have h := set_routine_aborted_iff (write_all_cores_v cfg) cfg.NUM_CORES
      (read_all_cores_total cfg) IA32_THERM_STATUS set_therm_stat_asserts
      set_therm_stat_update s1 st
    rw [asserts_false_iff _ _ set_therm_stat_asserts_iff] at h
    exact h
  · have h := set_routine_aborted_iff (write_all_cores_v cfg) cfg.NUM_CORES
      (read_all_cores_total cfg) IA32_THERM_INTERRUPT set_therm_interrupt_asserts
      set_therm_interrupt_update s2 st
    rw [asserts_false_iff _ _ set_therm_interrupt_asserts_iff] at h
    exact h
  · have h := set_routine_aborted_iff (write_all_sockets_v cfg) cfg.NUM_SOCKETS
      (read_all_sockets_total cfg) IA32_PACKAGE_THERM_INTERRUPT
      set_pkg_therm_interrupt_asserts set_pkg_therm_interrupt_update s4 st
    rw [asserts_false_iff _ _ set_pkg_therm_interrupt_asserts_iff] at h
    exact h

/-- C10, amended.  `set_therm_interrupt` and `set_pkg_therm_interrupt` do not
check the thresholds.  For a topology with at least one core per socket and one
thread per core, a register file of 64-bit values and views whose written
boolean fields are `0` or `1`, the call returns whatever the threshold values.
For a core (resp. socket) `j` with `thresh1_val < 2 ^ 23` and
`thresh2_val < 2 ^ 15` (both shifts stay within a 32-bit `int`), the bits
`15 ≤ i < 64` of the value written are: bit `15` is `thresh1_enable`, bits
`16..18` are bits `0..2` of `thresh2_val`, bit `23` is `thresh2_enable`, bit
`24` is `pwr_limit_notification_enable`, and every other bit `i` (`19..22` and
`25..63`) is the register's bit `i` or bit `i - 8` of `thresh1_val` or bit
`i - 16` of `thresh2_val`. -/
theorem set_interrupt_threshold_unchecked (cfg : Config)
    (hC : 0 < cfg.NUM_CORES_PER_SOCKET) (hT : 0 < cfg.NUM_THREADS_PER_CORE)
    (st : RegFile) (hst : st.is64)
    (s2 : Nat → therm_interrupt) (s4 : Nat → pkg_therm_interrupt)
    (h2 : ∀ j, j < cfg.NUM_CORES → (s2 j).flagsBoolean)
    (h4 : ∀ j, j < cfg.NUM_SOCKETS → (s4 j).flagsBoolean) :
    (∃ st1, set_therm_interrupt cfg s2 st = Outcome.done st1 ∧
      ∀ j, j < cfg.NUM_CORES → (s2 j).thresh1_val < 2 ^ 23 → (s2 j).thresh2_val < 2 ^ 15 →
        ∀ i, 15 ≤ i → i < 64 →
          (st1 (j * cfg.NUM_THREADS_PER_CORE) IA32_THERM_INTERRUPT).testBit i =
            if i = 15 then decide ((s2 j).thresh1_enable = 1)
            else if i ≤ 18 then (s2 j).thresh2_val.testBit (i - 16)
            else if i = 23 then decide ((s2 j).thresh2_enable = 1)
            else if i = 24 then decide ((s2 j).pwr_limit_notification_enable = 1)
            else ((st (j * cfg.NUM_THREADS_PER_CORE) IA32_THERM_INTERRUPT).testBit i ||
              (s2 j).thresh1_val.testBit (i - 8) || (s2 j).thresh2_val.testBit (i - 16))) ∧
    (∃ st1, set_pkg_therm_interrupt cfg s4 st = Outcome.done st1 ∧
      ∀ j, j < cfg.NUM_SOCKETS → (s4 j).thresh1_val < 2 ^ 23 → (s4 j).thresh2_val < 2 ^ 15 →
        ∀ i, 15 ≤ i → i < 64 →
          (st1 (j * (cfg.NUM_CORES_PER_SOCKET * cfg.NUM_THREADS_PER_CORE))
              IA32_PACKAGE_THERM_INTERRUPT).testBit i =
            if i = 15 then decide ((s4 j).thresh1_enable = 1)
            else if i ≤ 18 then (s4 j).thresh2_val.testBit (i - 16)
            else if i = 23 then decide ((s4 j).thresh2_enable = 1)
            else if i = 24 then decide ((s4 j).pwr_limit_notification_enable = 1)
            else ((st (j * (cfg.NUM_CORES_PER_SOCKET * cfg.NUM_THREADS_PER_CORE))
                IA32_PACKAGE_THERM_INTERRUPT).testBit i ||
              (s4 j).thresh1_val.testBit (i - 8) || (s4 j).thresh2_val.testBit (i - 16))) := by
  constructor
  · have hok : ∀ j, j < cfg.NUM_CORES → set_therm_interrupt_asserts (s2 j) = true :=
      fun j hj => (set_therm_interrupt_asserts_iff _).mpr (h2 j hj)
    obtain ⟨st1, e1, e2, _⟩ := set_routine_done (read_all_cores_reps cfg hT)
      (write_all_cores_v_reps cfg hT) IA32_THERM_INTERRUPT set_therm_interrupt_asserts
      set_therm_interrupt_update s2 st hok
    refine ⟨st1, e1, ?_⟩
    intro j hj _ _ i hi1 hi2
    rw [e2 j hj]
    exact upper_bits_set_therm_interrupt_update _ _ (hst _ _) (hok j hj) i hi1 hi2
  · have hok : ∀ j, j < cfg.NUM_SOCKETS → set_pkg_therm_interrupt_asserts (s4 j) = true :=
      fun j hj => (set_pkg_therm_interrupt_asserts_iff _).mpr (h4 j hj)
    obtain ⟨st1, e1, e2, _⟩ := set_routine_done (read_all_sockets_reps cfg hC hT)
      (write_all_sockets_v_reps cfg hC hT) IA32_PACKAGE_THERM_INTERRUPT
      set_pkg_therm_interrupt_asserts set_pkg_therm_interrupt_update s4 st hok
    refine ⟨st1, e1, ?_⟩
    intro j hj _ _ i hi1 hi2
    rw [e2 j hj]
    exact upper_bits_set_pkg_therm_interrupt_update _ _ (hst _ _) (hok j hj) i hi1 hi2

/-- Witness of C10, amended: two sockets of two cores of two threads, every
register `0`, every flag `0`, `thresh1_val = 2 ^ 22 + 2048 + 128` and
`thresh2_val = 2 ^ 14 + 128`. -/
theorem set_interrupt_threshold_unchecked_witness :
    (∃ st1, set_therm_interrupt cfg2
        (fun _ => { therm_interrupt_zero 0 with
          thresh1_val := 2 ^ 22 + 2048 + 128, thresh2_val := 2 ^ 14 + 128 })
        (regsAll 0) = Outcome.done st1 ∧
      ∀ j, j < cfg2.NUM_CORES → 2 ^ 22 + 2048 + 128 < 2 ^ 23 → 2 ^ 14 + 128 < 2 ^ 15 →
        ∀ i, 15 ≤ i → i < 64 →
          (st1 (j * cfg2.NUM_THREADS_PER_CORE) IA32_THERM_INTERRUPT).testBit i =
            if i = 15 then decide ((0 : Nat) = 1)
            else if i ≤ 18 then (2 ^ 14 + 128).testBit (i - 16)
            else if i = 23 then decide ((0 : Nat) = 1)
            else if i = 24 then decide ((0 : Nat) = 1)
            else ((regsAll 0 (j * cfg2.NUM_THREADS_PER_CORE) IA32_THERM_INTERRUPT).testBit i ||
              (2 ^ 22 + 2048 + 128).testBit (i - 8) || (2 ^ 14 + 128).testBit (i - 16))) ∧
    (∃ st1, set_pkg_therm_interrupt cfg2
        (fun _ => { pkg_therm_interrupt_zero 0 with
          thresh1_val := 2 ^ 22 + 2048 + 128, thresh2_val := 2 ^ 14 + 128 })
        (regsAll 0) = Outcome.done st1 ∧
      ∀ j, j < cfg2.NUM_SOCKETS → 2 ^ 22 + 2048 + 128 < 2 ^ 23 → 2 ^ 14 + 128 < 2 ^ 15 →
        ∀ i, 15 ≤ i → i < 64 →
          (st1 (j * (cfg2.NUM_CORES_PER_SOCKET * cfg2.NUM_THREADS_PER_CORE))
              IA32_PACKAGE_THERM_INTERRUPT).testBit i =
            if i = 15 then decide ((0 : Nat) = 1)
            else if i ≤ 18 then (2 ^ 14 + 128).testBit (i - 16)
            else if i = 23 then decide ((0 : Nat) = 1)
            else if i = 24 then decide ((0 : Nat) = 1)
            else ((regsAll 0 (j * (cfg2.NUM_CORES_PER_SOCKET * cfg2.NUM_THREADS_PER_CORE))
                IA32_PACKAGE_THERM_INTERRUPT).testBit i ||
              (2 ^ 22 + 2048 + 128).testBit (i - 8) || (2 ^ 14 + 128).testBit (i - 16))) :=
  set_interrupt_threshold_unchecked cfg2 (by decide) (by decide) (regsAll 0)
    (regsAll_is64 _ (by decide))
    (fun _ => { therm_interrupt_zero 0 with
      thresh1_val := 2 ^ 22 + 2048 + 128, thresh2_val := 2 ^ 14 + 128 })
    (fun _ => { pkg_therm_interrupt_zero 0 with
      thresh1_val := 2 ^ 22 + 2048 + 128, thresh2_val := 2 ^ 14 + 128 })
    (fun _ _ => by simp [therm_interrupt.flagsBoolean, therm_interrupt_zero])
    (fun _ _ => by simp [pkg_therm_interrupt.flagsBoolean, pkg_therm_interrupt_zero])

/-! ## Batched access: order of the calls and the scalar forms -/

theorem read_all_calls_spec (numDevs stride : Nat) :
    ∀ (n fuel dev_idx val_idx : Nat), n < fuel →
      (∀ i, i < n → dev_idx + i * stride < numDevs) → numDevs ≤ dev_idx + n * stride →
      read_all_calls numDevs stride fuel dev_idx val_idx =
        some ((List.range n).map (fun i => (dev_idx + i * stride, val_idx + i))) := by
  intro n
  induction n with
  | zero =>
    intro fuel d k hf _ hN
    cases fuel with
    | zero => omega
    | succ fuel =>
      have hd : ¬ d < numDevs := by omega
      simp [read_all_calls, hd]
  | succ n ih =>
    intro fuel d k hf hlt hN
    cases fuel with
    | zero => omega
    | succ fuel =>
      have hd : d < numDevs := by simpa using hlt 0 (by omega)
      have e : ∀ i, (i + 1) * stride = i * stride + stride := fun i => Nat.succ_mul i stride
      have h1 := ih fuel (d + stride) (k + 1) (by omega)
        (fun i hi => by have := hlt (i + 1) (by omega); rw [e] at this; omega)
        (by rw [e] at hN; omega)
      simp only [read_all_calls, hd, if_true, h1, Option.map_some']
      congr 1
      rw [List.range_succ_eq_map, List.map_cons, List.map_map]
      congr 1
      · simp
      · apply List.map_congr_left
        intro i _
        simp only [Function.comp, Nat.succ_eq_add_one, Prod.mk.injEq]
        rw [e]
        omega

theorem read_all_loop_eq_foldl (st : RegFile) (numDevs stride msr : Nat) :
    ∀ (fuel dev_idx val_idx : Nat) (val : Nat → Nat),
      read_all_loop st numDevs stride msr fuel dev_idx val_idx val =
        (read_all_calls numDevs stride fuel dev_idx val_idx).map
          (fun calls => calls.foldl
            (fun v c => Function.update v c.2 (read_msr_by_idx st c.1 msr)) val) := by
  intro fuel
  induction fuel with
  | zero =>
    intro d k val
    rfl
  | succ fuel ih =>
    intro d k val
    by_cases hd : d < numDevs
    · simp only [read_all_loop, read_all_calls, hd, if_true, ih, Option.map_map]
      rfl
    · simp [read_all_loop, read_all_calls, hd]

theorem foldl_update_untouched (st : RegFile) (msr j : Nat) :
    ∀ (calls : List (Nat × Nat)) (val : Nat → Nat), (∀ c, c ∈ calls → c.2 ≠ j) →
      calls.foldl (fun v c => Function.update v c.2 (read_msr_by_idx st c.1 msr)) val j
        = val j := by
  intro calls
  induction calls with
  | nil =>
    intro val _
    rfl
  | cons c calls ih =>
    intro val h
    rw [List.foldl_cons, ih _ (fun c1 h1 => h c1 (List.mem_cons_of_mem _ h1))]
    have hne : j ≠ c.2 := fun e => h c (List.mem_cons_self _ _) e.symm
    exact Function.update_noteq hne _ _

/-- The calls a batched read makes and the elements it leaves alone. -/
theorem read_all_loop_order (st : RegFile) (stride msr n : Nat) (hs : 0 < stride)
    (val : Nat → Nat) :
    read_all_calls (n * stride) stride (n * stride + 1) 0 0 =
        some ((List.range n).map (fun k => (k * stride, k))) ∧
      ∀ val1, read_all_loop st (n * stride) stride msr (n * stride + 1) 0 0 val = some val1 →
        ∀ k, n ≤ k → val1 k = val k := by
  have hc := read_all_calls_spec (n * stride) stride n (n * stride + 1) 0 0
    (by
      have : n ≤ n * stride := Nat.le_mul_of_pos_right n hs
      omega)
    (fun i hi => by
      have := (Nat.mul_lt_mul_right hs).mpr hi
      omega)
    (by omega)
  simp only [Nat.zero_add] at hc
  refine ⟨hc, ?_⟩
  intro val1 h1 k hk
  rw [read_all_loop_eq_foldl, hc] at h1
  simp only [Option.map_some', Option.some.injEq] at h1
  rw [← h1]
  apply foldl_update_untouched
  intro c hc1
  simp only [List.mem_map, List.mem_range] at hc1
  obtain ⟨i, hi, rfl⟩ := hc1
  simp only
  omega

theorem NUM_DEVS_eq_sockets (cfg : Config) :
    cfg.NUM_DEVS = cfg.NUM_SOCKETS * (cfg.NUM_CORES_PER_SOCKET * cfg.NUM_THREADS_PER_CORE) := by
  unfold Config.NUM_DEVS
  rw [Nat.mul_assoc]

theorem NUM_DEVS_eq_cores (cfg : Config) :
    cfg.NUM_DEVS = cfg.NUM_CORES * cfg.NUM_THREADS_PER_CORE := by
  unfold Config.NUM_DEVS Config.NUM_CORES
  rw [Nat.mul_comm cfg.NUM_SOCKETS]

theorem read_all_threads_reps (cfg : Config) :
    ReadsReps (read_all_threads cfg) cfg.NUM_DEVS 1 := by
  intro st msr val
  obtain ⟨val1, h1, h2, _⟩ := read_all_loop_spec st cfg.NUM_DEVS 1 msr (by decide)
    (cfg.NUM_DEVS + 1) 0 0 val (by omega) (by omega)
  refine ⟨val1, h1, ?_⟩
  intro j hj
  have := h2 j (by omega)
  simpa using this

theorem write_all_threads_v_reps (cfg : Config) :
    WritesReps (write_all_threads_v cfg) cfg.NUM_DEVS 1 := by
  intro st msr val
  obtain ⟨st1, h1, h2, h3⟩ := write_all_v_loop_spec cfg.NUM_DEVS 1 msr
    val (by decide) (cfg.NUM_DEVS + 1) 0 0 st (by omega) (by omega)
  refine ⟨st1, h1, ?_, ?_⟩
  · intro j hj
    have := h2 j (by omega)
    simpa using this
  · intro dev m hdm
    apply h3
    intro j hj1 hj2
    exact hdm j (by omega) (by simpa using hj2)

theorem write_all_loop_eq_v (numDevs stride msr val : Nat) :
    ∀ (fuel dev_idx val_idx : Nat) (st : RegFile),
      write_all_loop numDevs stride msr val fuel dev_idx st =
        write_all_v_loop numDevs stride msr (fun _ => val) fuel dev_idx val_idx st := by
  intro fuel
  induction fuel with
  | zero =>
    intro d k st
    rfl
  | succ fuel ih =>
    intro d k st
    by_cases hd : d < numDevs
    · simp only [write_all_loop, write_all_v_loop, hd, if_true]
      exact ih _ _ _
    · simp only [write_all_loop, write_all_v_loop, hd, if_false]

/-- C13.  For a topology with at least one core per socket and one thread per
core, every register file, register and array `val`: `read_all_sockets`
returns, element `k < NUM_SOCKETS` of the result is register `msr` of unit
`k * (NUM_CORES_PER_SOCKET * NUM_THREADS_PER_CORE)`, every element from
`NUM_SOCKETS` on is as in `val`, and the calls of `read_msr_by_idx` are those
for `k = 0, 1, ..., NUM_SOCKETS - 1` in this order; likewise `read_all_cores`
with `NUM_CORES` elements and unit `k * NUM_THREADS_PER_CORE`, and
`read_all_threads` with `NUM_DEVS` elements and unit `k`. -/
theorem batched_read_sampling (cfg : Config)
    (hC : 0 < cfg.NUM_CORES_PER_SOCKET) (hT : 0 < cfg.NUM_THREADS_PER_CORE)
    (st : RegFile) (msr : Nat) (val : Nat → Nat) :
    (∃ val1, read_all_sockets cfg st msr val = some val1 ∧
      (∀ k, k < cfg.NUM_SOCKETS →
        val1 k = st (k * (cfg.NUM_CORES_PER_SOCKET * cfg.NUM_THREADS_PER_CORE)) msr) ∧
      (∀ k, cfg.NUM_SOCKETS ≤ k → val1 k = val k) ∧
      read_all_sockets_calls cfg = some ((List.range cfg.NUM_SOCKETS).map
        (fun k => (k * (cfg.NUM_CORES_PER_SOCKET * cfg.NUM_THREADS_PER_CORE), k)))) ∧
    (∃ val1, read_all_cores cfg st msr val = some val1 ∧
      (∀ k, k < cfg.NUM_CORES → val1 k = st (k * cfg.NUM_THREADS_PER_CORE) msr) ∧
      (∀ k, cfg.NUM_CORES ≤ k → val1 k = val k) ∧
      read_all_cores_calls cfg = some ((List.range cfg.NUM_CORES).map
        (fun k => (k * cfg.NUM_THREADS_PER_CORE, k)))) ∧
    (∃ val1, read_all_threads cfg st msr val = some val1 ∧
      (∀ k, k < cfg.NUM_DEVS → val1 k = st k msr) ∧
      (∀ k, cfg.NUM_DEVS ≤ k → val1 k = val k) ∧
      read_all_threads_calls cfg = some ((List.range cfg.NUM_DEVS).map (fun k => (k, k)))) := by
  refine ⟨?_, ?_, ?_⟩
  · obtain ⟨val1, h1, h2⟩ := read_all_sockets_reps cfg hC hT st msr val
    have ho := read_all_loop_order st (cfg.NUM_CORES_PER_SOCKET * cfg.NUM_THREADS_PER_CORE)
      msr cfg.NUM_SOCKETS (Nat.mul_pos hC hT) val
    refine ⟨val1, h1, h2, ?_, ?_⟩
    · intro k hk
      refine ho.2 val1 ?_ k hk
      unfold read_all_sockets at h1
      rw [NUM_DEVS_eq_sockets] at h1
      exact h1
    · unfold read_all_sockets_calls
      rw [NUM_DEVS_eq_sockets]
      exact ho.1
  · obtain ⟨val1, h1, h2⟩ := read_all_cores_reps cfg hT st msr val
    have ho := read_all_loop_order st cfg.NUM_THREADS_PER_CORE msr cfg.NUM_CORES hT val
    refine ⟨val1, h1, h2, ?_, ?_⟩
    · intro k hk
      refine ho.2 val1 ?_ k hk
      unfold read_all_cores at h1
      rw [NUM_DEVS_eq_cores] at h1
      exact h1
    · unfold read_all_cores_calls
      rw [NUM_DEVS_eq_cores]
      exact ho.1
  · obtain ⟨val1, h1, h2⟩ := read_all_threads_reps cfg st msr val
    have ho := read_all_loop_order st 1 msr cfg.NUM_DEVS (by decide) val
    simp only [Nat.mul_one] at ho h2
    refine ⟨val1, h1, h2, ?_, ho.1⟩
    intro k hk
    exact ho.2 val1 h1 k hk

/-- Witness of C13: two sockets of two cores of two threads, unit `d` holding
`d` in register `0x19C`, the array starting as all `9`. -/
theorem batched_read_sampling_witness :
    (∃ val1, read_all_sockets cfg2 regsUnit 0x19C (fun _ => 9) = some val1 ∧
      (∀ k, k < cfg2.NUM_SOCKETS →
        val1 k = regsUnit (k * (cfg2.NUM_CORES_PER_SOCKET * cfg2.NUM_THREADS_PER_CORE))
          0x19C) ∧
      (∀ k, cfg2.NUM_SOCKETS ≤ k → val1 k = 9) ∧
      read_all_sockets_calls cfg2 = some ((List.range cfg2.NUM_SOCKETS).map
        (fun k => (k * (cfg2.NUM_CORES_PER_SOCKET * cfg2.NUM_THREADS_PER_CORE), k)))) ∧
    (∃ val1, read_all_cores cfg2 regsUnit 0x19C (fun _ => 9) = some val1 ∧
      (∀ k, k < cfg2.NUM_CORES → val1 k = regsUnit (k * cfg2.NUM_THREADS_PER_CORE) 0x19C) ∧
      (∀ k, cfg2.NUM_CORES ≤ k → val1 k = 9) ∧
      read_all_cores_calls cfg2 = some ((List.range cfg2.NUM_CORES).map
        (fun k => (k * cfg2.NUM_THREADS_PER_CORE, k)))) ∧
    (∃ val1, read_all_threads cfg2 regsUnit 0x19C (fun _ => 9) = some val1 ∧
      (∀ k, k < cfg2.NUM_DEVS → val1 k = regsUnit k 0x19C) ∧
      (∀ k, cfg2.NUM_DEVS ≤ k → val1 k = 9) ∧
      read_all_threads_calls cfg2 = some ((List.range cfg2.NUM_DEVS).map (fun k => (k, k)))) :=
  batched_read_sampling cfg2 (by decide) (by decide) regsUnit 0x19C (fun _ => 9)

/-- C14.  For a topology with at least one core per socket and one thread per
core, every register file, register `msr` and vector `v`: `write_all_cores_v`
returns, `read_all_cores` on the register file it leaves returns an array whose
element `k < NUM_CORES` is `v k`, and the write left every register unchanged
except register `msr` of the units `k * NUM_THREADS_PER_CORE`, `k < NUM_CORES`;
likewise for the socket pair and the thread pair. -/
theorem vector_write_read_round_trip (cfg : Config)
    (hC : 0 < cfg.NUM_CORES_PER_SOCKET) (hT : 0 < cfg.NUM_THREADS_PER_CORE)
    (st : RegFile) (msr : Nat) (v val0 : Nat → Nat) :
    (∃ st1 val1, write_all_sockets_v cfg st msr v = some st1 ∧
      read_all_sockets cfg st1 msr val0 = some val1 ∧
      (∀ k, k < cfg.NUM_SOCKETS → val1 k = v k) ∧
      (∀ dev m, (∀ k, k < cfg.NUM_SOCKETS →
          dev = k * (cfg.NUM_CORES_PER_SOCKET * cfg.NUM_THREADS_PER_CORE) → m ≠ msr) →
        st1 dev m = st dev m)) ∧
    (∃ st1 val1, write_all_cores_v cfg st msr v = some st1 ∧
      read_all_cores cfg st1 msr val0 = some val1 ∧
      (∀ k, k < cfg.NUM_CORES → val1 k = v k) ∧
      (∀ dev m, (∀ k, k < cfg.NUM_CORES → dev = k * cfg.NUM_THREADS_PER_CORE → m ≠ msr) →
        st1 dev m = st dev m)) ∧
    (∃ st1 val1, write_all_threads_v cfg st msr v = some st1 ∧
      read_all_threads cfg st1 msr val0 = some val1 ∧
      (∀ k, k < cfg.NUM_DEVS → val1 k = v k) ∧
      (∀ dev m, (dev < cfg.NUM_DEVS → m ≠ msr) → st1 dev m = st dev m)) := by
  refine ⟨?_, ?_, ?_⟩
  · obtain ⟨st1, w1, w2, w3⟩ := write_all_sockets_v_reps cfg hC hT st msr v
    obtain ⟨val1, r1, r2⟩ := read_all_sockets_reps cfg hC hT st1 msr val0
    exact ⟨st1, val1, w1, r1, fun k hk => by rw [r2 k hk, w2 k hk], w3⟩
  · obtain ⟨st1, w1, w2, w3⟩ := write_all_cores_v_reps cfg hT st msr v
    obtain ⟨val1, r1, r2⟩ := read_all_cores_reps cfg hT st1 msr val0
    exact ⟨st1, val1, w1, r1, fun k hk => by rw [r2 k hk, w2 k hk], w3⟩
  · obtain ⟨st1, w1, w2, w3⟩ := write_all_threads_v_reps cfg st msr v
    obtain ⟨val1, r1, r2⟩ := read_all_threads_reps cfg st1 msr val0
    refine ⟨st1, val1, w1, r1, fun k hk => by rw [r2 k hk, w2 k hk], ?_⟩
    intro dev m h
    apply w3
    intro k hk hd
    exact h (by omega)

/-- Witness of C14: two sockets of two cores of two threads, every register
`0`, register `0x19B`, the vector `v k = k + 1`. -/
theorem vector_write_read_round_trip_witness :
    (∃ st1 val1, write_all_sockets_v cfg2 (regsAll 0) 0x19B (fun k => k + 1) = some st1 ∧
      read_all_sockets cfg2 st1 0x19B (fun _ => 0) = some val1 ∧
      (∀ k, k < cfg2.NUM_SOCKETS → val1 k = k + 1) ∧
      (∀ dev m, (∀ k, k < cfg2.NUM_SOCKETS →
          dev = k * (cfg2.NUM_CORES_PER_SOCKET * cfg2.NUM_THREADS_PER_CORE) → m ≠ 0x19B) →
        st1 dev m = regsAll 0 dev m)) ∧
    (∃ st1 val1, write_all_cores_v cfg2 (regsAll 0) 0x19B (fun k => k + 1) = some st1 ∧
      read_all_cores cfg2 st1 0x19B (fun _ => 0) = some val1 ∧
      (∀ k, k < cfg2.NUM_CORES → val1 k = k + 1) ∧
      (∀ dev m, (∀ k, k < cfg2.NUM_CORES → dev = k * cfg2.NUM_THREADS_PER_CORE → m ≠ 0x19B) →
        st1 dev m = regsAll 0 dev m)) ∧
    (∃ st1 val1, write_all_threads_v cfg2 (regsAll 0) 0x19B (fun k => k + 1) = some st1 ∧
      read_all_threads cfg2 st1 0x19B (fun _ => 0) = some val1 ∧
      (∀ k, k < cfg2.NUM_DEVS → val1 k = k + 1) ∧
      (∀ dev m, (dev < cfg2.NUM_DEVS → m ≠ 0x19B) → st1 dev m = regsAll 0 dev m)) :=
  vector_write_read_round_trip cfg2 (by decide) (by decide) (regsAll 0) 0x19B
    (fun k => k + 1) (fun _ => 0)

/-- C16.  For every topology, register file, register and value, each of
`write_all_sockets`, `write_all_cores` and `write_all_threads` returns, and the
register file it leaves is the one `write_all_sockets_v`, `write_all_cores_v`,
resp. `write_all_threads_v` leaves when called with the vector whose every
element is `val`. -/
theorem scalar_write_eq_constant_vector (cfg : Config) (st : RegFile) (msr val : Nat) :
    (∃ st1, write_all_sockets cfg st msr val = some st1 ∧
      write_all_sockets_v cfg st msr (fun _ => val) = some st1) ∧
    (∃ st1, write_all_cores cfg st msr val = some st1 ∧
      write_all_cores_v cfg st msr (fun _ => val) = some st1) ∧
    (∃ st1, write_all_threads cfg st msr val = some st1 ∧
      write_all_threads_v cfg st msr (fun _ => val) = some st1) := by
  refine ⟨?_, ?_, ?_⟩
  · obtain ⟨st1, h⟩ := write_all_v_loop_total cfg.NUM_DEVS _ msr (fun _ => val)
      (sockets_stride_ok cfg) st
    refine ⟨st1, ?_, h⟩
    unfold write_all_sockets
    rw [write_all_loop_eq_v _ _ _ _ _ _ 0]
    exact h
  · obtain ⟨st1, h⟩ := write_all_v_loop_total cfg.NUM_DEVS _ msr (fun _ => val)
      (cores_stride_ok cfg) st
    refine ⟨st1, ?_, h⟩
    unfold write_all_cores
    rw [write_all_loop_eq_v _ _ _ _ _ _ 0]
    exact h
  · obtain ⟨st1, h⟩ := write_all_v_loop_total cfg.NUM_DEVS 1 msr (fun _ => val)
      (Or.inl (by decide)) st
    refine ⟨st1, ?_, h⟩
    unfold write_all_threads
    rw [write_all_loop_eq_v _ _ _ _ _ _ 0]
    exact h

/-- C11 (the code departs from the claim).  With two sockets of two cores of
two threads, the triples `(0, 1, 0)` and `(1, 0, 0)` both pass the assertions
of `read_msr_by_coord` and both are served by unit `2` (the register file holds
`d` on unit `d`); and no triple within the bounds is served by unit `6` or
unit `7`. -/
theorem coord_index_not_injective :
    coord_asserts cfg2 0 1 0 = true ∧ coord_asserts cfg2 1 0 0 = true ∧
    read_msr_by_coord cfg2 regsUnit 0 1 0 0x19C = ByCoord.accessed 2 2 ∧
    read_msr_by_coord cfg2 regsUnit 1 0 0 0x19C = ByCoord.accessed 2 2 ∧
    (∀ s, s < 2 → ∀ c, c < 2 → ∀ t, t < 2 →
      coord_index cfg2 (s : Nat) (c : Nat) (t : Nat) ≠ 6 ∧
      coord_index cfg2 (s : Nat) (c : Nat) (t : Nat) ≠ 7) := by
  refine ⟨by decide, by decide, by decide, by decide, by decide⟩

/-- C12 (the code departs from the claim).  With two sockets of two cores of one
thread, the triple `(0, 3, 0)` has its core out of range: `read_msr_by_coord`
fails an assertion, but `write_msr_by_coord` makes no check and writes `val`
into the register of unit `3`. -/
theorem write_msr_by_coord_unchecked :
    coord_asserts ⟨2, 2, 1⟩ 0 3 0 = false ∧
    read_msr_by_coord ⟨2, 2, 1⟩ (regsAll 0) 0 3 0 0x19C = ByCoord.assertFailed ∧
    ∃ st1, write_msr_by_coord ⟨2, 2, 1⟩ (regsAll 0) 0 3 0 0x19C 5 = ByCoord.accessed 3 st1 ∧
      st1 3 0x19C = 5 :=
  ⟨by decide, by decide, _, rfl, by decide⟩

/-- C15 (the code departs from the claim).  With two sockets of two cores of
two threads and unit `d` holding `d`: position `1` of `read_all_sockets` is
unit `4` and position `1 * 2 + 0` of `read_all_cores` is unit `4`, while
`read_msr_by_coord (1, 0, 0)` is served by unit `2`. -/
theorem coord_disagrees_with_batched_read :
    (read_all_sockets cfg2 regsUnit 0x1B1 (fun _ => 0)).map (fun val => val 1) = some 4 ∧
    (read_all_cores cfg2 regsUnit 0x19C (fun _ => 0)).map (fun val => val (1 * 2 + 0))
      = some 4 ∧
    read_all_sockets_calls cfg2 = some [(0, 0), (4, 1)] ∧
    read_all_cores_calls cfg2 = some [(0, 0), (2, 1), (4, 2), (6, 3)] ∧
    read_msr_by_coord cfg2 regsUnit 1 0 0 0x1B1 = ByCoord.accessed 2 2 ∧
    read_msr_by_coord cfg2 regsUnit 1 0 0 0x19C = ByCoord.accessed 2 2 := by
  refine ⟨by decide, by decide, by decide, by decide, by decide, by decide⟩

/-! ## Device registry: the loops of `init_msr` and `finalize_msr` -/

theorem check_dev_fst (env : Env) (f u : Nat) : (check_dev env f u).1 = !env.ok f u := by
  unfold check_dev Env.ok
  cases env.stat_ok f u <;> cases env.rw_ok f u <;> simp [bne]

theorem check_dev_calls (env : Env) (f u : Nat) :
    ∀ c, c ∈ (check_dev env f u).2 → ∀ g v, c ≠ SysCall.openKeep g v := by
  intro c hc g v
  unfold check_dev at hc
  split at hc
  · simp only [List.mem_singleton] at hc
    subst hc
    exact fun h => SysCall.noConfusion h
  · split at hc
    · simp only [List.mem_singleton] at hc
      subst hc
      exact fun h => SysCall.noConfusion h
    · simp only [List.mem_cons, List.mem_singleton, List.not_mem_nil, or_false] at hc
      rcases hc with hc | hc <;> subst hc <;> exact fun h => SysCall.noConfusion h

theorem check_family_fst (env : Env) (f : Nat) :
    ∀ (n d : Nat), (check_family env f n d).1 = false ↔
      ∀ u, d ≤ u → u < d + n → env.ok f u = true := by
  intro n
  induction n with
  | zero =>
    intro d
    simp only [check_family, true_iff]
    intro u h1 h2
    omega
  | succ n ih =>
    intro d
    simp only [check_family]
    by_cases hd : env.ok f d = true
    · have h1 : (check_dev env f d).1 = false := by rw [check_dev_fst, hd]; rfl
      simp only [h1, Bool.false_eq_true, if_false]
      rw [ih (d + 1)]
      constructor
      · intro h u hu1 hu2
        by_cases e : u = d
        · rw [e]; exact hd
        · exact h u (by omega) (by omega)
      · intro h u hu1 hu2
        exact h u (by omega) (by omega)
    · have h1 : (check_dev env f d).1 = true := by
        rw [check_dev_fst]
        cases hb : env.ok f d
        · rfl
        · exact absurd hb hd
      simp only [h1, if_true]
      constructor
      · intro h
        exact absurd h (by decide)
      · intro h
        exact absurd (h d (le_refl d) (by omega)) hd

theorem check_family_calls (env : Env) (f : Nat) :
    ∀ (n d : Nat) (c : SysCall), c ∈ (check_family env f n d).2 →
      ∀ g v, c ≠ SysCall.openKeep g v := by
  intro n
  induction n with
  | zero =>
    intro d c hc
    simp [check_family] at hc
  | succ n ih =>
    intro d c hc
    simp only [check_family] at hc
    split at hc
    · exact check_dev_calls env f d c hc
    · simp only [List.mem_append] at hc
      rcases hc with hc | hc
      · exact check_dev_calls env f d c hc
      · exact ih (d + 1) c hc

theorem check_family_iff (env : Env) (numDevs f : Nat) :
    (check_family env f numDevs 0).1 = false ↔ env.familyOk numDevs f := by
  rw [check_family_fst]
  unfold Env.familyOk
  constructor
  · intro h u hu
    exact h u (Nat.zero_le u) (by omega)
  · intro h u _ hu
    exact h u (by omega)

theorem filename_base_isSome {a : Nat} (h : a < 3) : (filename_base a).isSome = true := by
  interval_cases a <;> rfl

/-- The search stops at the first family all of whose units pass. -/
theorem family_loop_first (env : Env) (numDevs f : Nat) (hf : f < 3)
    (hok : env.familyOk numDevs f) :
    ∀ (fuel a : Nat), a ≤ f → f - a < fuel →
      (∀ g, a ≤ g → g < f → ¬ env.familyOk numDevs g) →
      ∃ calls, family_loop env numDevs fuel a = some (f, false, calls) ∧
        ∀ c, c ∈ calls → ∀ g v, c ≠ SysCall.openKeep g v := by
  intro fuel
  induction fuel with
  | zero =>
    intro a _ h _
    omega
  | succ fuel ih =>
    intro a haf hfuel hfirst
    by_cases e : a = f
    · subst e
      have h1 := (check_family_iff env numDevs a).mpr hok
      refine ⟨(check_family env a numDevs 0).2, ?_, check_family_calls env a numDevs 0⟩
      simp only [family_loop, h1, Bool.false_eq_true, if_false]
    · have hbad : (check_family env a numDevs 0).1 = true := by
        cases hb : (check_family env a numDevs 0).1
        · exact absurd ((check_family_iff env numDevs a).mp hb) (hfirst a (le_refl a) (by omega))
        · rfl
      obtain ⟨calls, h1, h2⟩ := ih (a + 1) (by omega) (by omega)
        (fun g hg1 hg2 => hfirst g (by omega) hg2)
      refine ⟨(check_family env a numDevs 0).2 ++ calls, ?_, ?_⟩
      · simp only [family_loop, hbad, if_true, filename_base_isSome (by omega : a + 1 < 3), h1,
          Option.map_some']
      · intro c hc
        rcases List.mem_append.mp hc with hc | hc
        · exact check_family_calls env a numDevs 0 c hc
        · exact h2 c hc

/-- The search ends after the third family when none passes. -/
theorem family_loop_none (env : Env) (numDevs : Nat) :
    ∀ (fuel a : Nat), a < 3 → 3 - a ≤ fuel →
      (∀ g, a ≤ g → g < 3 → ¬ env.familyOk numDevs g) →
      ∃ calls, family_loop env numDevs fuel a = some (3, true, calls) := by
  intro fuel
  induction fuel with
  | zero =>
    intro a h1 h2 _
    omega
  | succ fuel ih =>
    intro a ha hfuel hbad
    have hb : (check_family env a numDevs 0).1 = true := by
      cases hb : (check_family env a numDevs 0).1
      · exact absurd ((check_family_iff env numDevs a).mp hb) (hbad a (le_refl a) ha)
      · rfl
    by_cases e : a = 2
    · subst e
      refine ⟨(check_family env 2 numDevs 0).2, ?_⟩
      simp [family_loop, hb, filename_base]
    · obtain ⟨calls, h1⟩ := ih (a + 1) (by omega) (by omega)
        (fun g hg1 hg2 => hbad g (by omega) hg2)
      refine ⟨(check_family env a numDevs 0).2 ++ calls, ?_⟩
      simp only [family_loop, hb, if_true, filename_base_isSome (by omega : a + 1 < 3), h1,
        Option.map_some']

theorem open_loop_spec (env : Env) (f : Nat) :
    ∀ (n d : Nat) (core_fd : Nat → Int),
      (∀ u, d ≤ u → u < d + n → env.open_fd f u ≠ -1) →
      (open_loop env f n d core_fd).2.1 = false ∧
      (∀ u, (open_loop env f n d core_fd).1 u =
        if d ≤ u ∧ u < d + n then env.open_fd f u else core_fd u) ∧
      (open_loop env f n d core_fd).2.2 = (List.range' d n).map (fun u => SysCall.openKeep f u) := by
  intro n
  induction n with
  | zero =>
    intro d core_fd _
    refine ⟨rfl, ?_, rfl⟩
    intro u
    have h : ¬ (d ≤ u ∧ u < d + 0) := by omega
    rw [if_neg h]
    rfl
  | succ n ih =>
    intro d core_fd h
    have hd : (env.open_fd f d == -1) = false := by
      have := h d (le_refl d) (by omega)
      simpa using this
    obtain ⟨h1, h2, h3⟩ := ih (d + 1) (Function.update core_fd d (env.open_fd f d))
      (fun u hu1 hu2 => h u (by omega) (by omega))
    simp only [open_loop, hd, Bool.false_eq_true, if_false]
    refine ⟨h1, ?_, ?_⟩
    · intro u
      rw [h2 u]
      by_cases e : u = d
      · subst e
        have a : ¬ (u + 1 ≤ u ∧ u < u + 1 + n) := by omega
        have b : u ≤ u ∧ u < u + (n + 1) := by omega
        rw [if_neg a, if_pos b, Function.update_same]
      · by_cases c : d ≤ u ∧ u < d + (n + 1)
        · have a : d + 1 ≤ u ∧ u < d + 1 + n := by omega
          rw [if_pos a, if_pos c]
        · have a : ¬ (d + 1 ≤ u ∧ u < d + 1 + n) := by omega
          rw [if_neg a, if_neg c, Function.update_noteq e]
    · rw [h3]
      rfl

theorem finalize_loop_spec (close_rc : Nat → Int) :
    ∀ (n d : Nat) (core_fd : Nat → Int),
      (∀ u, (finalize_loop close_rc n d core_fd).1 u =
        if d ≤ u ∧ u < d + n ∧ core_fd u ≠ 0 ∧ close_rc u = 0 then 0 else core_fd u) ∧
      (finalize_loop close_rc n d core_fd).2 =
        ((List.range' d n).filter (fun u => decide (core_fd u ≠ 0))).map
          (fun u => SysCall.close u (core_fd u)) := by
  intro n
  induction n with
  | zero =>
    intro d core_fd
    refine ⟨?_, rfl⟩
    intro u
    have h : ¬ (d ≤ u ∧ u < d + 0 ∧ core_fd u ≠ 0 ∧ close_rc u = 0) := by omega
    rw [if_neg h]
    rfl
  | succ n ih =>
    intro d core_fd
    by_cases hz : core_fd d ≠ 0
    · by_cases hc : close_rc d ≠ 0
      · obtain ⟨h1, h2⟩ := ih (d + 1) core_fd
        simp only [finalize_loop, hz, hc, ne_eq, not_false_eq_true, if_true]
        refine ⟨?_, ?_⟩
        · intro u
          rw [h1 u]
          by_cases e : u = d
          · subst e
            have a : ¬ (u + 1 ≤ u ∧ u < u + 1 + n ∧ core_fd u ≠ 0 ∧ close_rc u = 0) := by omega
            have b : ¬ (u ≤ u ∧ u < u + (n + 1) ∧ core_fd u ≠ 0 ∧ close_rc u = 0) :=
              fun h => hc h.2.2.2
            rw [if_neg a, if_neg b]
          · apply if_congr _ rfl rfl
            constructor
            · intro h; exact ⟨by omega, by omega, h.2.2⟩
            · intro h; exact ⟨by omega, by omega, h.2.2⟩
        · rw [h2, List.range'_succ, List.filter_cons_of_pos (by simpa using hz), List.map_cons]
      · have hc0 : close_rc d = 0 := by
          by_contra h
          exact hc h
        obtain ⟨h1, h2⟩ := ih (d + 1) (Function.update core_fd d 0)
        simp only [finalize_loop, hz, hc0, ne_eq, not_false_eq_true, if_true, not_true_eq_false,
          if_false]
        refine ⟨?_, ?_⟩
        · intro u
          rw [h1 u]
          by_cases e : u = d
          · subst e
            have a : ¬ (u + 1 ≤ u ∧ u < u + 1 + n ∧ Function.update core_fd u 0 u ≠ 0 ∧
                close_rc u = 0) := by omega
            have b : u ≤ u ∧ u < u + (n + 1) ∧ core_fd u ≠ 0 ∧ close_rc u = 0 :=
              ⟨le_refl u, by omega, hz, hc0⟩
            rw [if_neg a, if_pos b, Function.update_same]
          · rw [Function.update_noteq e]
            apply if_congr _ rfl rfl
            constructor
            · intro h; exact ⟨by omega, by omega, h.2.2⟩
            · intro h; exact ⟨by omega, by omega, h.2.2⟩
        · rw [h2, List.range'_succ, List.filter_cons_of_pos (by simpa using hz), List.map_cons]
          congr 1
          have hmem : ∀ u, u ∈ List.range' (d + 1) n → Function.update core_fd d 0 u = core_fd u := by
            intro u hu
            have : d + 1 ≤ u := (List.mem_range'_1.mp hu).1
            exact Function.update_noteq (by omega) _ _
          rw [List.filter_congr (fun u hu => by rw [hmem u hu])]
          apply List.map_congr_left
          intro u hu
          rw [hmem u (List.mem_of_mem_filter hu)]
    · have hz0 : core_fd d = 0 := by
        by_contra h
        exact hz h
      obtain ⟨h1, h2⟩ := ih (d + 1) core_fd
      simp only [finalize_loop, hz0, ne_eq, not_true_eq_false, if_false]
      refine ⟨?_, ?_⟩
      · intro u
        rw [h1 u]
        by_cases e : u = d
        · subst e
          have a : ¬ (u + 1 ≤ u ∧ u < u + 1 + n ∧ core_fd u ≠ 0 ∧ close_rc u = 0) := by omega
          have b : ¬ (u ≤ u ∧ u < u + (n + 1) ∧ core_fd u ≠ 0 ∧ close_rc u = 0) :=
            fun h => h.2.2.1 hz0
          rw [if_neg a, if_neg b]
        · apply if_congr _ rfl rfl
          constructor
          · intro h; exact ⟨by omega, by omega, h.2.2⟩
          · intro h; exact ⟨by omega, by omega, h.2.2⟩
      · rw [h2, List.range'_succ, List.filter_cons_of_neg (by simpa using hz0)]

/-! ## Device registry: `init_msr` -/

theorem open_ne_of_ok {env : Env} {f u : Nat} (h : env.ok f u = true) :
    env.open_fd f u ≠ -1 := by
  unfold Env.ok at h
  simp only [Bool.and_eq_true, bne_iff_ne, ne_eq] at h
  exact h.2

theorem not_familyOk_iff (env : Env) (numDevs f : Nat) :
    ¬ env.familyOk numDevs f ↔ ∃ u, u < numDevs ∧ env.ok f u = false := by
  unfold Env.familyOk
  constructor
  · intro h
    by_contra hcon
    apply h
    intro u hu
    cases hb : env.ok f u
    · exact absurd ⟨u, hu, hb⟩ hcon
    · rfl
  · rintro ⟨u, hu, hb⟩ h
    rw [h u hu] at hb
    exact absurd hb (by decide)

theorem init_msr_of_initialized (cfg : Config) (env : Env) (r : Registry)
    (hr : r.initialized = true) : init_msr cfg env r = InitResult.returned 0 r [] := by
  simp only [init_msr, hr, if_true]

/-- A first call commits to the first family all of whose units pass. -/
theorem init_msr_of_first (cfg : Config) (env : Env) (r : Registry)
    (hr : r.initialized = false) (f : Nat) (hf : f < 3)
    (hok : env.familyOk cfg.NUM_DEVS f)
    (hfirst : ∀ g, g < f → ¬ env.familyOk cfg.NUM_DEVS g) :
    ∃ r1 calls, init_msr cfg env r = InitResult.returned 0 r1 calls ∧
      r1.initialized = true ∧
      (∀ u, u < cfg.NUM_DEVS → r1.core_fd u = env.open_fd f u) ∧
      (∀ g u, SysCall.openKeep g u ∈ calls ↔ g = f ∧ u < cfg.NUM_DEVS) := by
  obtain ⟨calls, h1, h2⟩ := family_loop_first env cfg.NUM_DEVS f hf hok 4 0 (Nat.zero_le f)
    (by omega) (fun g _ hg => hfirst g hg)
  obtain ⟨o1, o2, o3⟩ := open_loop_spec env f cfg.NUM_DEVS 0 r.core_fd
    (fun u _ hu => open_ne_of_ok (hok u (by omega)))
  refine ⟨{ initialized := true, core_fd := (open_loop env f cfg.NUM_DEVS 0 r.core_fd).1 },
    calls ++ (open_loop env f cfg.NUM_DEVS 0 r.core_fd).2.2, ?_, rfl, ?_, ?_⟩
  · simp only [init_msr, hr, Bool.false_eq_true, if_false, h1, o1]
  · intro u hu
    show (open_loop env f cfg.NUM_DEVS 0 r.core_fd).1 u = _
    rw [o2 u, if_pos ⟨Nat.zero_le u, by omega⟩]
  · intro g u
    rw [List.mem_append, o3]
    constructor
    · intro h
      rcases h with h | h
      · exact absurd rfl (h2 _ h g u)
      · simp only [List.mem_map, List.mem_range'_1, SysCall.openKeep.injEq] at h
        obtain ⟨v, hv, e1, e2⟩ := h
        exact ⟨e1.symm, by omega⟩
    · rintro ⟨e, hu⟩
      right
      simp only [List.mem_map, List.mem_range'_1, SysCall.openKeep.injEq]
      exact ⟨u, ⟨Nat.zero_le u, by omega⟩, e.symm, rfl⟩

/-- A first call ends the process when no family passes. -/
theorem init_msr_of_none (cfg : Config) (env : Env) (r : Registry)
    (hr : r.initialized = false)
    (hbad : ∀ f, f < 3 → ¬ env.familyOk cfg.NUM_DEVS f) :
    ∃ calls, init_msr cfg env r = InitResult.exited (-1) r calls := by
  obtain ⟨calls, h1⟩ := family_loop_none env cfg.NUM_DEVS 4 0 (by decide) (by decide)
    (fun g _ hg => hbad g hg)
  exact ⟨calls, by simp only [init_msr, hr, Bool.false_eq_true, if_false, h1, if_true]⟩

theorem exists_first_family (env : Env) (numDevs : Nat)
    (h : ∃ f, f < 3 ∧ env.familyOk numDevs f) :
    ∃ f, f < 3 ∧ env.familyOk numDevs f ∧ ∀ g, g < f → ¬ env.familyOk numDevs g := by
  by_cases h0 : env.familyOk numDevs 0
  · exact ⟨0, by decide, h0, fun g hg => by omega⟩
  · by_cases h1 : env.familyOk numDevs 1
    · refine ⟨1, by decide, h1, fun g hg => ?_⟩
      have : g = 0 := by omega
      subst this
      exact h0
    · obtain ⟨f, hf, hok⟩ := h
      have : f = 2 := by
        by_contra hne
        have : f = 0 ∨ f = 1 := by omega
        rcases this with e | e <;> subst e
        · exact h0 hok
        · exact h1 hok
      subst this
      refine ⟨2, by decide, hok, fun g hg => ?_⟩
      have : g = 0 ∨ g = 1 := by omega
      rcases this with e | e <;> subst e
      · exact h0
      · exact h1

theorem init_msr_returned_flag (cfg : Config) (env : Env) (r r1 : Registry) (ret : Int)
    (calls : List SysCall) (h : init_msr cfg env r = InitResult.returned ret r1 calls) :
    r1.initialized = true ∧ ret = 0 := by
  by_cases hi : r.initialized = true
  · rw [init_msr_of_initialized cfg env r hi] at h
    simp only [InitResult.returned.injEq] at h
    obtain ⟨e1, e2, _⟩ := h
    subst e2
    exact ⟨hi, e1.symm⟩
  · have hr : r.initialized = false := by
      cases hb : r.initialized
      · rfl
      · exact absurd hb hi
    by_cases hex : ∃ f, f < 3 ∧ env.familyOk cfg.NUM_DEVS f
    · obtain ⟨f, hf, hok, hfirst⟩ := exists_first_family env cfg.NUM_DEVS hex
      obtain ⟨r2, calls2, e, hflag, _⟩ := init_msr_of_first cfg env r hr f hf hok hfirst
      rw [e] at h
      simp only [InitResult.returned.injEq] at h
      obtain ⟨e1, e2, _⟩ := h
      subst e2
      exact ⟨hflag, e1.symm⟩
    · obtain ⟨calls2, e⟩ := init_msr_of_none cfg env r hr
        (fun f hf hok => hex ⟨f, hf, hok⟩)
      rw [e] at h
      exact InitResult.noConfusion h

theorem init_msr_calls_initialized (cfg : Config) (r : Registry) (hr : r.initialized = true) :
    ∀ envs : List Env,
      init_msr_calls cfg envs r = envs.map (fun _ => InitResult.returned 0 r []) := by
  intro envs
  induction envs with
  | nil => rfl
  | cons env envs ih =>
    simp only [init_msr_calls, init_msr_of_initialized cfg env r hr, List.map_cons, ih]

/-- C17.  On a first call (flag `initialized` clear), if `f` is the first of the
families `msr_dev`, `msr_safe`, `msr` (indices 0, 1, 2) all of whose units
`0 .. NUM_DEVS - 1` pass `ok`, then `init_msr` returns `0` with the flag set,
every `core_fd[u]`, `u < NUM_DEVS`, is the descriptor `open` gave for family `f`
and unit `u`, and the handles kept open are exactly those of family `f`, one
per unit. -/
theorem init_msr_family_selection (cfg : Config) (env : Env) (r : Registry)
    (hr : r.initialized = false) (f : Nat) (hf : f < 3)
    (hok : env.familyOk cfg.NUM_DEVS f)
    (hfirst : ∀ g, g < f → ¬ env.familyOk cfg.NUM_DEVS g) :
    ∃ r1 calls, init_msr cfg env r = InitResult.returned 0 r1 calls ∧
      r1.initialized = true ∧
      (∀ u, u < cfg.NUM_DEVS → r1.core_fd u = env.open_fd f u) ∧
      (∀ g u, SysCall.openKeep g u ∈ calls ↔ g = f ∧ u < cfg.NUM_DEVS) :=
  init_msr_of_first cfg env r hr f hf hok hfirst

/-- Witness of C17: two units; `msr_dev` lacks the write bit on unit 1,
`msr_safe` passes on both units, so the family chosen is index 1. -/
theorem init_msr_family_selection_witness :
    ∃ r1 calls, init_msr cfg12 envSafeOnly registry_zero = InitResult.returned 0 r1 calls ∧
      r1.initialized = true ∧
      (∀ u, u < cfg12.NUM_DEVS → r1.core_fd u = envSafeOnly.open_fd 1 u) ∧
      (∀ g u, SysCall.openKeep g u ∈ calls ↔ g = 1 ∧ u < cfg12.NUM_DEVS) :=
  init_msr_family_selection cfg12 envSafeOnly registry_zero rfl 1 (by decide) (by decide)
    (by decide)

/-- C18.  On a first call (flag `initialized` clear), `init_msr` ends the
process by `exit` if and only if each of the three families has a unit below
`NUM_DEVS` that fails `ok`; otherwise it returns `0` with the flag set.  Three
iterations of the loop over the families always suffice. -/
theorem init_msr_fatal_iff (cfg : Config) (env : Env) (r : Registry)
    (hr : r.initialized = false) :
    ((∃ code r1 calls, init_msr cfg env r = InitResult.exited code r1 calls) ↔
      ∀ f, f < 3 → ∃ u, u < cfg.NUM_DEVS ∧ env.ok f u = false) ∧
    ((¬ ∀ f, f < 3 → ∃ u, u < cfg.NUM_DEVS ∧ env.ok f u = false) →
      ∃ r1 calls, init_msr cfg env r = InitResult.returned 0 r1 calls ∧
        r1.initialized = true) ∧
    (∃ t, family_loop env cfg.NUM_DEVS 3 0 = some t) := by
  by_cases hex : ∃ f, f < 3 ∧ env.familyOk cfg.NUM_DEVS f
  · obtain ⟨f, hf, hok, hfirst⟩ := exists_first_family env cfg.NUM_DEVS hex
    obtain ⟨r1, calls, e, hflag, _⟩ := init_msr_of_first cfg env r hr f hf hok hfirst
    have hnot : ¬ ∀ g, g < 3 → ∃ u, u < cfg.NUM_DEVS ∧ env.ok g u = false :=
      fun h => (not_familyOk_iff env cfg.NUM_DEVS f).mpr (h f hf) hok
    refine ⟨⟨?_, fun h => absurd h hnot⟩, fun _ => ⟨r1, calls, e, hflag⟩, ?_⟩
    · rintro ⟨code, r2, calls2, e2⟩
      rw [e] at e2
      exact InitResult.noConfusion e2
    · obtain ⟨calls3, h3, _⟩ := family_loop_first env cfg.NUM_DEVS f hf hok 3 0
        (Nat.zero_le f) (by omega) (fun g _ hg => hfirst g hg)
      exact ⟨_, h3⟩
  · have hbad : ∀ f, f < 3 → ¬ env.familyOk cfg.NUM_DEVS f :=
      fun f hf hok => hex ⟨f, hf, hok⟩
    have hall : ∀ f, f < 3 → ∃ u, u < cfg.NUM_DEVS ∧ env.ok f u = false :=
      fun f hf => (not_familyOk_iff env cfg.NUM_DEVS f).mp (hbad f hf)
    obtain ⟨calls, e⟩ := init_msr_of_none cfg env r hr hbad
    refine ⟨⟨fun _ => hall, fun _ => ⟨-1, r, calls, e⟩⟩, fun h => absurd hall h, ?_⟩
    obtain ⟨calls3, h3⟩ := family_loop_none env cfg.NUM_DEVS 3 0 (by decide) (by decide)
      (fun g _ hg => hbad g hg)
    exact ⟨_, h3⟩

/-- Witness of C18: two units and no device file at all. -/
theorem init_msr_fatal_iff_witness :
    ((∃ code r1 calls, init_msr cfg12 envNone registry_zero
        = InitResult.exited code r1 calls) ↔
      ∀ f, f < 3 → ∃ u, u < cfg12.NUM_DEVS ∧ envNone.ok f u = false) ∧
    ((¬ ∀ f, f < 3 → ∃ u, u < cfg12.NUM_DEVS ∧ envNone.ok f u = false) →
      ∃ r1 calls, init_msr cfg12 envNone registry_zero = InitResult.returned 0 r1 calls ∧
        r1.initialized = true) ∧
    (∃ t, family_loop envNone cfg12.NUM_DEVS 3 0 = some t) :=
  init_msr_fatal_iff cfg12 envNone registry_zero rfl

/-- C19.  When a call of `init_msr` has returned, it returned `0` and left the
flag `initialized` set; from the registry it left, a further call returns `0`
with no system call and the same registry, whatever the device files then are,
and so does every call of any sequence of further calls. -/
theorem init_msr_idempotent (cfg : Config) (env0 : Env) (r0 : Registry) (ret : Int)
    (r1 : Registry) (calls : List SysCall)
    (h : init_msr cfg env0 r0 = InitResult.returned ret r1 calls) :
    ret = 0 ∧ r1.initialized = true ∧
    (∀ env, init_msr cfg env r1 = InitResult.returned 0 r1 []) ∧
    (∀ envs : List Env,
      init_msr_calls cfg envs r1 = envs.map (fun _ => InitResult.returned 0 r1 [])) := by
  obtain ⟨hflag, hret⟩ := init_msr_returned_flag cfg env0 r0 r1 ret calls h
  exact ⟨hret, hflag, fun env => init_msr_of_initialized cfg env r1 hflag,
    init_msr_calls_initialized cfg r1 hflag⟩

/-- Witness of C19: the first call is the one of the witness of C17. -/
theorem init_msr_idempotent_witness :
    ∃ r1 calls, init_msr cfg12 envSafeOnly registry_zero = InitResult.returned 0 r1 calls ∧
      ((0 : Int) = 0 ∧ r1.initialized = true ∧
        (∀ env, init_msr cfg12 env r1 = InitResult.returned 0 r1 []) ∧
        (∀ envs : List Env,
          init_msr_calls cfg12 envs r1 = envs.map (fun _ => InitResult.returned 0 r1 []))) :=
  ⟨_, _, rfl, init_msr_idempotent cfg12 envSafeOnly registry_zero 0 _ _ rfl⟩

/-- C20.  For every handle table and every outcome `close_rc` of the `close`
calls, `finalize_msr` calls `close` once for each unit below `NUM_DEVS` whose
handle is not `0`, in ascending order of the units and for all of them;
afterwards a handle is `0` if its `close` returned `0` and is unchanged
otherwise, and the flag `initialized` is as before. -/
theorem finalize_msr_closes_every_handle (cfg : Config) (close_rc : Nat → Int)
    (r : Registry) :
    (finalize_msr cfg close_rc r).2 =
      ((List.range cfg.NUM_DEVS).filter (fun u => decide (r.core_fd u ≠ 0))).map
        (fun u => SysCall.close u (r.core_fd u)) ∧
    (∀ u, (finalize_msr cfg close_rc r).1.core_fd u =
      if u < cfg.NUM_DEVS ∧ r.core_fd u ≠ 0 ∧ close_rc u = 0 then 0 else r.core_fd u) ∧
    (finalize_msr cfg close_rc r).1.initialized = r.initialized := by
  obtain ⟨h1, h2⟩ := finalize_loop_spec close_rc cfg.NUM_DEVS 0 r.core_fd
  refine ⟨?_, ?_, rfl⟩
  · rw [List.range_eq_range']
    exact h2
  · intro u
    show (finalize_loop close_rc cfg.NUM_DEVS 0 r.core_fd).1 u = _
    rw [h1 u]
    apply if_congr _ rfl rfl
    constructor
    · intro h; exact ⟨by omega, h.2.2⟩
    · intro h; exact ⟨Nat.zero_le u, by omega, h.2⟩

/-! ## Decode layout -/

theorem MASK_VAL_eq_bitsOf (x : Nat) {m n : Nat} (hnm : n ≤ m) (hm : m < 64)
    (hw : m - n < 63) : MASK_VAL x m n = bitsOf x m n := by
  apply Nat.eq_of_testBit_eq
  intro j
  rw [testBit_MASK_VAL x hnm hm hw]
  unfold bitsOf
  rw [Nat.testBit_mod_two_pow, Nat.testBit_shiftRight]
  by_cases hj : j ≤ m - n
  · have a : j < m - n + 1 := by omega
    simp [hj, a]
  · have a : ¬ j < m - n + 1 := by omega
    simp [hj, a]

theorem bitsOf_le (raw : Nat) {high low b : Nat} (h : 2 ^ (high - low + 1) = b + 1) :
    bitsOf raw high low ≤ b := by
  unfold bitsOf
  have := Nat.mod_lt (raw >>> low) (Nat.two_pow_pos (high - low + 1))
  omega

theorem get_therm_stat_body_layout (raw : Nat) :
    get_therm_stat_body raw = therm_stat_layout raw := by
  unfold get_therm_stat_body therm_stat_layout
  simp (disch := decide) only [MASK_VAL_eq_bitsOf]

theorem get_pkg_therm_stat_body_layout (raw : Nat) :
    get_pkg_therm_stat_body raw = pkg_therm_stat_layout raw := by
  unfold get_pkg_therm_stat_body pkg_therm_stat_layout
  simp (disch := decide) only [MASK_VAL_eq_bitsOf]

theorem get_therm_interrupt_body_layout (raw : Nat) :
    get_therm_interrupt_body raw = therm_interrupt_layout raw := by
  unfold get_therm_interrupt_body therm_interrupt_layout
  simp (disch := decide) only [MASK_VAL_eq_bitsOf]

theorem get_pkg_therm_interrupt_body_layout (raw : Nat) :
    get_pkg_therm_interrupt_body raw = pkg_therm_interrupt_layout raw := by
  unfold get_pkg_therm_interrupt_body pkg_therm_interrupt_layout
  simp (disch := decide) only [MASK_VAL_eq_bitsOf]

theorem therm_stat_layout_inRange (raw : Nat) : (therm_stat_layout raw).inRange := by
  unfold therm_stat.inRange therm_stat_layout
  refine ⟨?_, ?_, ?_, ?_, ?_, ?_, ?_, ?_, ?_, ?_, ?_, ?_, ?_, ?_⟩ <;>
    exact bitsOf_le raw (by decide)

theorem pkg_therm_stat_layout_inRange (raw : Nat) : (pkg_therm_stat_layout raw).inRange := by
  unfold pkg_therm_stat.inRange pkg_therm_stat_layout
  refine ⟨?_, ?_, ?_, ?_, ?_, ?_, ?_, ?_, ?_, ?_, ?_, ?_, ?_⟩ <;>
    exact bitsOf_le raw (by decide)

/-- C21.  For a topology with at least one core per socket and one thread per
core, `get_therm_stat` returns, and for every core `k` its view is the value
`raw` read from the core's representative unit laid out as: `status` ...
`power_notification_log` are bits `0` ... `11`, `readout` is bits `22:16`,
`resolution_deg_celsius` is bits `30:27` and `readout_valid` is bit `31`, each
`(raw >> low) mod 2 ^ (high - low + 1)`; every one-bit field is at most `1` and
`readout` at most `127`.  The same holds for `get_pkg_therm_stat` and every
socket with bits `0` ... `11` and `22:16`. -/
theorem status_decode_layout (cfg : Config)
    (hC : 0 < cfg.NUM_CORES_PER_SOCKET) (hT : 0 < cfg.NUM_THREADS_PER_CORE)
    (st : RegFile) (c0 : Nat → therm_stat) (p0 : Nat → pkg_therm_stat) :
    (∃ s, get_therm_stat cfg st c0 = some s ∧ ∀ k, k < cfg.NUM_CORES →
      s k = therm_stat_layout (st (k * cfg.NUM_THREADS_PER_CORE) IA32_THERM_STATUS) ∧
      (s k).inRange) ∧
    (∃ s, get_pkg_therm_stat cfg st p0 = some s ∧ ∀ k, k < cfg.NUM_SOCKETS →
      s k = pkg_therm_stat_layout
        (st (k * (cfg.NUM_CORES_PER_SOCKET * cfg.NUM_THREADS_PER_CORE))
          IA32_PACKAGE_THERM_STATUS) ∧
      (s k).inRange) := by
  constructor
  · obtain ⟨s, h1, h2⟩ := get_therm_stat_spec cfg hT st c0
    refine ⟨s, h1, fun k hk => ?_⟩
    rw [h2 k hk, get_therm_stat_body_layout]
    exact ⟨rfl, therm_stat_layout_inRange _⟩
  · obtain ⟨s, h1, h2⟩ := get_pkg_therm_stat_spec cfg hC hT st p0
    refine ⟨s, h1, fun k hk => ?_⟩
    rw [h2 k hk, get_pkg_therm_stat_body_layout]
    exact ⟨rfl, pkg_therm_stat_layout_inRange _⟩

/-- Witness of C21: two sockets of two cores of two threads, every register
holding `0xDEADBEEF`. -/
theorem status_decode_layout_witness :
    (∃ s, get_therm_stat cfg2 (regsAll 0xDEADBEEF) therm_stat_zero = some s ∧
      ∀ k, k < cfg2.NUM_CORES →
      s k = therm_stat_layout
        (regsAll 0xDEADBEEF (k * cfg2.NUM_THREADS_PER_CORE) IA32_THERM_STATUS) ∧
      (s k).inRange) ∧
    (∃ s, get_pkg_therm_stat cfg2 (regsAll 0xDEADBEEF) pkg_therm_stat_zero = some s ∧
      ∀ k, k < cfg2.NUM_SOCKETS →
      s k = pkg_therm_stat_layout
        (regsAll 0xDEADBEEF (k * (cfg2.NUM_CORES_PER_SOCKET * cfg2.NUM_THREADS_PER_CORE))
          IA32_PACKAGE_THERM_STATUS) ∧
      (s k).inRange) :=
  status_decode_layout cfg2 (by decide) (by decide) (regsAll 0xDEADBEEF) therm_stat_zero
    pkg_therm_stat_zero

/-- C22.  For a topology with at least one core per socket and one thread per
core, `get_therm_interrupt` returns, and for every core its view is the value
read from the core's representative unit laid out as: the five enables are
bits `0, 1, 2, 3, 4`, `thresh1_val` is bits `14:8`, `thresh1_enable` bit `15`,
`thresh2_val` bits `22:16`, `thresh2_enable` bit `23` and
`pwr_limit_notification_enable` bit `24`; `get_pkg_therm_interrupt` does the
same for every socket without a field for bit `3`.  Both thresholds are at
most `127`. -/
theorem interrupt_decode_layout (cfg : Config)
    (hC : 0 < cfg.NUM_CORES_PER_SOCKET) (hT : 0 < cfg.NUM_THREADS_PER_CORE)
    (st : RegFile) (c0 : Nat → therm_interrupt) (p0 : Nat → pkg_therm_interrupt) :
    (∃ s, get_therm_interrupt cfg st c0 = some s ∧ ∀ k, k < cfg.NUM_CORES →
      s k = therm_interrupt_layout
        (st (k * cfg.NUM_THREADS_PER_CORE) IA32_THERM_INTERRUPT) ∧
      (s k).thresh1_val ≤ 127 ∧ (s k).thresh2_val ≤ 127) ∧
    (∃ s, get_pkg_therm_interrupt cfg st p0 = some s ∧ ∀ k, k < cfg.NUM_SOCKETS →
      s k = pkg_therm_interrupt_layout
        (st (k * (cfg.NUM_CORES_PER_SOCKET * cfg.NUM_THREADS_PER_CORE))
          IA32_PACKAGE_THERM_INTERRUPT) ∧
      (s k).thresh1_val ≤ 127 ∧ (s k).thresh2_val ≤ 127) := by
  constructor
  · obtain ⟨s, h1, h2⟩ := get_therm_interrupt_spec cfg hT st c0
    refine ⟨s, h1, fun k hk => ?_⟩
    rw [h2 k hk, get_therm_interrupt_body_layout]
    exact ⟨rfl, bitsOf_le _ (by decide), bitsOf_le _ (by decide)⟩
  · obtain ⟨s, h1, h2⟩ := get_pkg_therm_interrupt_spec cfg hC hT st p0
    refine ⟨s, h1, fun k hk => ?_⟩
    rw [h2 k hk, get_pkg_therm_interrupt_body_layout]
    exact ⟨rfl, bitsOf_le _ (by decide), bitsOf_le _ (by decide)⟩

/-- Witness of C22: two sockets of two cores of two threads, every register
holding `0xDEADBEEF`. -/
theorem interrupt_decode_layout_witness :
    (∃ s, get_therm_interrupt cfg2 (regsAll 0xDEADBEEF) therm_interrupt_zero = some s ∧
      ∀ k, k < cfg2.NUM_CORES →
      s k = therm_interrupt_layout
        (regsAll 0xDEADBEEF (k * cfg2.NUM_THREADS_PER_CORE) IA32_THERM_INTERRUPT) ∧
      (s k).thresh1_val ≤ 127 ∧ (s k).thresh2_val ≤ 127) ∧
    (∃ s, get_pkg_therm_interrupt cfg2 (regsAll 0xDEADBEEF) pkg_therm_interrupt_zero
        = some s ∧
      ∀ k, k < cfg2.NUM_SOCKETS →
      s k = pkg_therm_interrupt_layout
        (regsAll 0xDEADBEEF (k * (cfg2.NUM_CORES_PER_SOCKET * cfg2.NUM_THREADS_PER_CORE))
          IA32_PACKAGE_THERM_INTERRUPT) ∧
      (s k).thresh1_val ≤ 127 ∧ (s k).thresh2_val ≤ 127) :=
  interrupt_decode_layout cfg2 (by decide) (by decide) (regsAll 0xDEADBEEF)
    therm_interrupt_zero pkg_therm_interrupt_zero

/-! ## Dump routines -/

theorem for_loop_eq_flatMap (body : Nat → List Printf) :
    ∀ (n i : Nat), for_loop body n i = (List.range' i n).flatMap body := by
  intro n
  induction n with
  | zero =>
    intro i
    rfl
  | succ n ih =>
    intro i
    rw [for_loop, ih, List.range'_succ, List.flatMap_cons]

theorem dump_loops_eq (cfg : Config) (perSocket : Nat → List Printf)
    (perCore : Nat → Nat → List Printf) :
    dump_loops cfg perSocket perCore =
      (List.range cfg.NUM_SOCKETS).flatMap (fun s =>
        perSocket s ++
        (List.range' (cfg.NUM_CORES_PER_SOCKET * s) cfg.NUM_CORES_PER_SOCKET).flatMap
          (perCore s)) := by
  unfold dump_loops
  rw [for_loop_eq_flatMap, List.range_eq_range']
  congr 1
  funext s
  rw [for_loop_eq_flatMap, Nat.mul_succ, Nat.add_sub_cancel_left]

theorem flatMap_singleton_map {α β : Type} (h : α → β) :
    ∀ l : List α, l.flatMap (fun c => [h c]) = l.map h := by
  intro l
  induction l with
  | nil => rfl
  | cons a l ih => rw [List.flatMap_cons, ih, List.map_cons, List.singleton_append]

theorem dump_loops_per_core (cfg : Config) (f : Nat → Nat → Printf) :
    dump_loops cfg (fun _ => []) (fun s c => [f s c]) =
      (List.range cfg.NUM_SOCKETS).flatMap (fun s =>
        (List.range' (cfg.NUM_CORES_PER_SOCKET * s) cfg.NUM_CORES_PER_SOCKET).map (f s)) := by
  rw [dump_loops_eq]
  congr 1
  funext s
  rw [List.nil_append, flatMap_singleton_map]

/-- The blocks of cores, socket after socket, are the cores in ascending
order. -/
theorem blocks_flat {α : Type} (C : Nat) (f : Nat → Nat → α) :
    ∀ S : Nat, (List.range S).flatMap (fun s => (List.range' (C * s) C).map (f s)) =
      (List.range (S * C)).map (fun k => f (k / C) k) := by
  intro S
  induction S with
  | zero => simp
  | succ S ih =>
    rw [List.range_succ, List.flatMap_append, ih, Nat.succ_mul, List.range_add, List.map_append]
    congr 1
    rw [List.flatMap_cons, List.flatMap_nil, List.append_nil, List.range'_eq_map_range,
      List.map_map, List.map_map]
    apply List.map_congr_left
    intro i hi
    have hi1 : i < C := List.mem_range.mp hi
    have hdiv : (S * C + i) / C = S :=
      Nat.div_eq_of_lt_le (by omega) (by rw [Nat.succ_mul]; omega)
    simp only [Function.comp]
    rw [hdiv, Nat.mul_comm C S]

theorem get_temp_target_spec (cfg : Config) (hC : 0 < cfg.NUM_CORES_PER_SOCKET)
    (hT : 0 < cfg.NUM_THREADS_PER_CORE) (st : RegFile) (s0 : Nat → msr_temp_target) :
    ∃ s, get_temp_target cfg st s0 = some s ∧ ∀ j, j < cfg.NUM_SOCKETS →
      s j = get_temp_target_body
        (st (j * (cfg.NUM_CORES_PER_SOCKET * cfg.NUM_THREADS_PER_CORE))
          MSR_TEMPERATURE_TARGET) := by
  obtain ⟨raw, hr1, hr2⟩ :=
    read_all_sockets_reps cfg hC hT st MSR_TEMPERATURE_TARGET (fun i => (s0 i).raw)
  refine ⟨get_loop msr_temp_target.raw get_temp_target_body cfg.NUM_SOCKETS 0
    (fun i => { s0 i with raw := raw i }), ?_, ?_⟩
  · simp only [get_temp_target, hr1]
  intro j hj
  have hc : 0 ≤ j ∧ j < 0 + cfg.NUM_SOCKETS := by omega
  rw [get_loop_spec, if_pos hc, hr2 j hj]

/-- What `dump_thermal_terse` leaves in the statics and prints. -/
theorem dump_thermal_terse_spec (cfg : Config) (hC : 0 < cfg.NUM_CORES_PER_SOCKET)
    (hT : 0 < cfg.NUM_THREADS_PER_CORE) (st : RegFile) (g : ThermalStatics)
    (hg : g.initialized = false) :
    ∃ g1, dump_thermal_terse cfg st g =
        some (g1, dump_loops cfg (fun _ => [])
          (fun socket core => [⟨"%d ", [actTemp g1 socket core]⟩])) ∧
      (∀ j, j < cfg.NUM_SOCKETS → g1.t_target j = get_temp_target_body
        (st (j * (cfg.NUM_CORES_PER_SOCKET * cfg.NUM_THREADS_PER_CORE))
          MSR_TEMPERATURE_TARGET)) ∧
      (∀ j, j < cfg.NUM_CORES → g1.t_stat j =
        get_therm_stat_body (st (j * cfg.NUM_THREADS_PER_CORE) IA32_THERM_STATUS)) := by
  obtain ⟨tt, ht1, ht2⟩ := get_temp_target_spec cfg hC hT st g.t_target
  obtain ⟨ts, hs1, hs2⟩ := get_therm_stat_spec cfg hT st g.t_stat
  refine ⟨{ g with t_target := tt, t_stat := ts }, ?_, ht2, hs2⟩
  simp only [dump_thermal_terse, is_init, hg, Bool.not_false, if_true, ht1, Option.map_some',
    hs1]

/-- C25.  For a topology with at least one core per socket and one thread per
core and statics in which the flag of `is_init` is clear, `dump_thermal_terse`
returns and prints, socket after socket from `0` and within socket `s` for the
cores `k` from `C * s` on, `C` of them, one `"%d "` whose argument is bits
`23:16` of register `0x1A2` of the socket's representative unit minus bits
`22:16` of register `0x19C` of the core's representative unit;
`dump_thermal_terse_label` prints a `"TempC_%02d_%02d "` with `s, k` for the
same `s` and `k` in the same order; both outputs have `S * C` entries. -/
theorem dump_thermal_terse_values (cfg : Config)
    (hC : 0 < cfg.NUM_CORES_PER_SOCKET) (hT : 0 < cfg.NUM_THREADS_PER_CORE)
    (st : RegFile) (g : ThermalStatics) (hg : g.initialized = false) :
    ∃ g1 out, dump_thermal_terse cfg st g = some (g1, out) ∧
      out = (List.range cfg.NUM_SOCKETS).flatMap (fun s =>
        (List.range' (cfg.NUM_CORES_PER_SOCKET * s) cfg.NUM_CORES_PER_SOCKET).map (fun k =>
          (⟨"%d ", [(bitsOf (st (s * (cfg.NUM_CORES_PER_SOCKET * cfg.NUM_THREADS_PER_CORE))
                MSR_TEMPERATURE_TARGET) 23 16 : Int) -
              (bitsOf (st (k * cfg.NUM_THREADS_PER_CORE) IA32_THERM_STATUS) 22 16 : Int)]⟩ :
            Printf))) ∧
      dump_thermal_terse_label cfg = (List.range cfg.NUM_SOCKETS).flatMap (fun s =>
        (List.range' (cfg.NUM_CORES_PER_SOCKET * s) cfg.NUM_CORES_PER_SOCKET).map (fun (k : Nat) =>
          (⟨"TempC_%02d_%02d ", [(s : Int), (k : Int)]⟩ : Printf))) ∧
      out.length = cfg.NUM_SOCKETS * cfg.NUM_CORES_PER_SOCKET ∧
      (dump_thermal_terse_label cfg).length = cfg.NUM_SOCKETS * cfg.NUM_CORES_PER_SOCKET := by
  obtain ⟨g1, h1, h2, h3⟩ := dump_thermal_terse_spec cfg hC hT st g hg
  have hout : dump_loops cfg (fun _ => [])
      (fun socket core => [(⟨"%d ", [actTemp g1 socket core]⟩ : Printf)]) =
      (List.range cfg.NUM_SOCKETS).flatMap (fun s =>
        (List.range' (cfg.NUM_CORES_PER_SOCKET * s) cfg.NUM_CORES_PER_SOCKET).map (fun k =>
          (⟨"%d ", [(bitsOf (st (s * (cfg.NUM_CORES_PER_SOCKET * cfg.NUM_THREADS_PER_CORE))
                MSR_TEMPERATURE_TARGET) 23 16 : Int) -
              (bitsOf (st (k * cfg.NUM_THREADS_PER_CORE) IA32_THERM_STATUS) 22 16 : Int)]⟩ :
            Printf))) := by
    rw [dump_loops_per_core]
    unfold List.flatMap
    congr 1
    apply List.map_congr_left
    intro s hs
    have hs1 : s < cfg.NUM_SOCKETS := List.mem_range.mp hs
    apply List.map_congr_left
    intro k hk
    have hk1 := List.mem_range'_1.mp hk
    have hk2 : k < cfg.NUM_CORES := by
      unfold Config.NUM_CORES
      calc k < cfg.NUM_CORES_PER_SOCKET * s + cfg.NUM_CORES_PER_SOCKET := hk1.2
        _ = cfg.NUM_CORES_PER_SOCKET * (s + 1) := (Nat.mul_succ _ _).symm
        _ ≤ cfg.NUM_CORES_PER_SOCKET * cfg.NUM_SOCKETS := Nat.mul_le_mul_left _ hs1
    unfold actTemp
    rw [h2 s hs1, h3 k hk2]
    simp only [get_temp_target_body, get_therm_stat_body]
    rw [MASK_VAL_eq_bitsOf _ (by decide) (by decide) (by decide),
      MASK_VAL_eq_bitsOf _ (by decide) (by decide) (by decide)]
  have hlab : dump_thermal_terse_label cfg = (List.range cfg.NUM_SOCKETS).flatMap (fun s =>
        (List.range' (cfg.NUM_CORES_PER_SOCKET * s) cfg.NUM_CORES_PER_SOCKET).map (fun (k : Nat) =>
          (⟨"TempC_%02d_%02d ", [(s : Int), (k : Int)]⟩ : Printf))) := by
    unfold dump_thermal_terse_label
    rw [dump_loops_per_core]
  refine ⟨g1, _, h1, hout, hlab, ?_, ?_⟩
  · rw [hout, blocks_flat, List.length_map, List.length_range]
  · rw [hlab, blocks_flat, List.length_map, List.length_range]

/-- Witness of C25: two sockets of two cores of two threads, the registers of
the scenario. -/
theorem dump_thermal_terse_values_witness :
    ∃ g1 out, dump_thermal_terse cfg2 regsScenario thermal_statics_zero = some (g1, out) ∧
      out = (List.range cfg2.NUM_SOCKETS).flatMap (fun s =>
        (List.range' (cfg2.NUM_CORES_PER_SOCKET * s) cfg2.NUM_CORES_PER_SOCKET).map (fun k =>
          (⟨"%d ", [(bitsOf (regsScenario
                (s * (cfg2.NUM_CORES_PER_SOCKET * cfg2.NUM_THREADS_PER_CORE))
                MSR_TEMPERATURE_TARGET) 23 16 : Int) -
              (bitsOf (regsScenario (k * cfg2.NUM_THREADS_PER_CORE) IA32_THERM_STATUS)
                22 16 : Int)]⟩ : Printf))) ∧
      dump_thermal_terse_label cfg2 = (List.range cfg2.NUM_SOCKETS).flatMap (fun s =>
        (List.range' (cfg2.NUM_CORES_PER_SOCKET * s) cfg2.NUM_CORES_PER_SOCKET).map (fun (k : Nat) =>
          (⟨"TempC_%02d_%02d ", [(s : Int), (k : Int)]⟩ : Printf))) ∧
      out.length = cfg2.NUM_SOCKETS * cfg2.NUM_CORES_PER_SOCKET ∧
      (dump_thermal_terse_label cfg2).length = cfg2.NUM_SOCKETS * cfg2.NUM_CORES_PER_SOCKET :=
  dump_thermal_terse_values cfg2 (by decide) (by decide) regsScenario thermal_statics_zero rfl

/-- C23, as stated, fails.  On one core whose thermal-status register holds
`0x400000` and whose socket has temperature target `85`, `get_therm_stat`
decodes `readout = 64`, not `0`, and `dump_thermal_terse` prints `21`, not
`85`. -/
theorem scenario_readout_not_zero :
    (∃ s, get_therm_stat cfg1 regsScenario therm_stat_zero = some s ∧
      (s 0).readout = 64 ∧ (s 0).readout ≠ 0) ∧
    (dump_thermal_terse cfg1 regsScenario thermal_statics_zero).map Prod.snd
      = some [⟨"%d ", [21]⟩] ∧
    (dump_thermal_terse cfg1 regsScenario thermal_statics_zero).map Prod.snd
      ≠ some [⟨"%d ", [85]⟩] :=
  ⟨⟨_, rfl, by decide, by decide⟩, by decide, by decide⟩

/-- C23, amended.  For a topology with at least one core per socket and one
thread per core: when core `k` of socket `s` has `0x400000` in its
thermal-status register, `get_therm_stat` decodes for it `readout = 64` and
every other field `0`; and when bits `23:16` of the socket's
temperature-target register are `85`, the entry `dump_thermal_terse` prints for
the core, entry `k` of its output, is `21`. -/
theorem scenario_readout (cfg : Config)
    (hC : 0 < cfg.NUM_CORES_PER_SOCKET) (hT : 0 < cfg.NUM_THREADS_PER_CORE)
    (st : RegFile) (g : ThermalStatics) (hg : g.initialized = false)
    (c0 : Nat → therm_stat) (s k : Nat) (hs : s < cfg.NUM_SOCKETS)
    (hk1 : cfg.NUM_CORES_PER_SOCKET * s ≤ k) (hk2 : k < cfg.NUM_CORES_PER_SOCKET * (s + 1))
    (hraw : st (k * cfg.NUM_THREADS_PER_CORE) IA32_THERM_STATUS = 0x400000)
    (htt : bitsOf (st (s * (cfg.NUM_CORES_PER_SOCKET * cfg.NUM_THREADS_PER_CORE))
      MSR_TEMPERATURE_TARGET) 23 16 = 85) :
    (∃ view, get_therm_stat cfg st c0 = some view ∧
      view k = ⟨0x400000, 0, 0, 0, 0, 0, 0, 0, 0, 0, 0, 0, 0, 64, 0, 0⟩) ∧
    (∃ g1 out, dump_thermal_terse cfg st g = some (g1, out) ∧
      out[k]? = some ⟨"%d ", [21]⟩) := by
  have hkS : cfg.NUM_CORES_PER_SOCKET * (s + 1) ≤ cfg.NUM_CORES_PER_SOCKET * cfg.NUM_SOCKETS :=
    Nat.mul_le_mul_left _ hs
  have hk : k < cfg.NUM_CORES := by
    unfold Config.NUM_CORES
    omega
  constructor
  · obtain ⟨view, h1, h2⟩ := get_therm_stat_spec cfg hT st c0
    refine ⟨view, h1, ?_⟩
    rw [h2 k hk, hraw]
    decide
  · obtain ⟨g1, h1, h2, h3⟩ := dump_thermal_terse_spec cfg hC hT st g hg
    refine ⟨g1, _, h1, ?_⟩
    have hlt : k < cfg.NUM_SOCKETS * cfg.NUM_CORES_PER_SOCKET := by
      rw [Nat.mul_comm]
      omega
    have hdiv : k / cfg.NUM_CORES_PER_SOCKET = s :=
      Nat.div_eq_of_lt_le (by rw [Nat.mul_comm]; exact hk1)
        (by rw [Nat.mul_comm]; exact hk2)
    have hact : actTemp g1 s k = 21 := by
      unfold actTemp
      rw [h2 s hs, h3 k hk, hraw]
      simp only [get_temp_target_body]
      rw [MASK_VAL_eq_bitsOf _ (by decide) (by decide) (by decide), htt]
      decide
    rw [dump_loops_per_core, blocks_flat, List.getElem?_map, List.getElem?_range hlt]
    simp only [Option.map_some', hdiv, hact]

/-- Witness of C23, amended: two sockets of two cores of two threads, the
registers of the scenario, core 3 of socket 1. -/
theorem scenario_readout_witness :
    (∃ view, get_therm_stat cfg2 regsScenario therm_stat_zero = some view ∧
      view 3 = ⟨0x400000, 0, 0, 0, 0, 0, 0, 0, 0, 0, 0, 0, 0, 64, 0, 0⟩) ∧
    (∃ g1 out, dump_thermal_terse cfg2 regsScenario thermal_statics_zero = some (g1, out) ∧
      out[3]? = some ⟨"%d ", [21]⟩) :=
  scenario_readout cfg2 (by decide) (by decide) regsScenario thermal_statics_zero rfl
    therm_stat_zero 1 3 (by decide) (by decide) (by decide) (by decide) (by decide)

/-- C26 (the code departs from the claim).  On one socket of one core with the
registers of the scenario, the output of `dump_thermal_verbose` is the output
of `dump_thermal_verbose_label`: fifty-three label formats with the socket and
core numbers as arguments, the first `"socket_status_%02d "` with argument `0`,
and no decoded value. -/
theorem dump_thermal_verbose_prints_labels :
    (dump_thermal_verbose cfg1 regsScenario thermal_statics_zero).map Prod.snd
      = some (dump_thermal_verbose_label cfg1) ∧
    (dump_thermal_verbose_label cfg1).head? = some ⟨"socket_status_%02d ", [0]⟩ ∧
    (dump_thermal_verbose_label cfg1).length = 53 :=
  ⟨rfl, rfl, rfl⟩

/-- C24.  For a topology with at least one thread per core: when the
thermal-status register of core `k` holds `0`, the view of core `k` has
`status_log = 1` and its other five log fields `0`, and no other core fails an
assertion, `set_therm_stat` returns and the value it leaves in the register of
core `k` is `0x2`. -/
theorem set_therm_stat_status_log_scenario (cfg : Config)
    (hT : 0 < cfg.NUM_THREADS_PER_CORE) (st : RegFile) (s : Nat → therm_stat) (k : Nat)
    (hk : k < cfg.NUM_CORES)
    (hraw : st (k * cfg.NUM_THREADS_PER_CORE) IA32_THERM_STATUS = 0x0)
    (hview : (s k).status_log = 1 ∧ (s k).PROCHOT_or_FORCEPR_log = 0 ∧
      (s k).crit_temp_log = 0 ∧ (s k).therm_thresh1_log = 0 ∧
      (s k).therm_thresh2_log = 0 ∧ (s k).power_notification_log = 0)
    (hall : ∀ j, j < cfg.NUM_CORES → (s j).flagsBoolean) :
    ∃ st1, set_therm_stat cfg s st = Outcome.done st1 ∧
      st1 (k * cfg.NUM_THREADS_PER_CORE) IA32_THERM_STATUS = 0x2 := by
  have hok : ∀ j, j < cfg.NUM_CORES → set_therm_stat_asserts (s j) = true :=
    fun j hj => (set_therm_stat_asserts_iff _).mpr (hall j hj)
  obtain ⟨st1, e1, e2, _⟩ := set_routine_done (read_all_cores_reps cfg hT)
    (write_all_cores_v_reps cfg hT) IA32_THERM_STATUS set_therm_stat_asserts
    set_therm_stat_update s st hok
  refine ⟨st1, e1, ?_⟩
  obtain ⟨a1, a2, a3, a4, a5, a6⟩ := hview
  rw [e2 k hk, hraw]
  simp only [set_therm_stat_update, a1, a2, a3, a4, a5, a6]
  decide

/-- Witness of C24: two sockets of two cores of two threads, every register `0`,
every core with `status_log = 1` and the other log fields `0`, core 3. -/
theorem set_therm_stat_status_log_scenario_witness :
    ∃ st1, set_therm_stat cfg2 (fun _ => { therm_stat_zero 0 with status_log := 1 })
        (regsAll 0) = Outcome.done st1 ∧
      st1 (3 * cfg2.NUM_THREADS_PER_CORE) IA32_THERM_STATUS = 0x2 :=
  set_therm_stat_status_log_scenario cfg2 (by decide) (regsAll 0)
    (fun _ => { therm_stat_zero 0 with status_log := 1 }) 3 (by decide) (by decide)
    (by decide) (fun _ _ => by simp [therm_stat.flagsBoolean, therm_stat_zero])

theorem set_therm_stat_update_bits (s : therm_stat) (raw : Nat) (hraw : raw < 2 ^ 64)
    (h : set_therm_stat_asserts s = true) (i : Nat) :
    (set_therm_stat_update s raw).testBit i =
      if i = 1 then
        (decide (s.status_log = 1) || decide (s.PROCHOT_or_FORCEPR_log = 1) ||
          decide (s.crit_temp_log = 1) || decide (s.therm_thresh1_log = 1) ||
          decide (s.therm_thresh2_log = 1) || decide (s.power_notification_log = 1))
      else if i = 3 ∨ i = 5 ∨ i = 7 ∨ i = 9 ∨ i = 11 then false
      else raw.testBit i := by
  rw [testBit_set_therm_stat_update s raw hraw h]
  unfold flagBit
  by_cases h1 : i = 1
  · subst h1
    simp
  · by_cases h2 : i = 3 ∨ i = 5 ∨ i = 7 ∨ i = 9 ∨ i = 11
    · rw [if_neg h1, if_pos h2]
      rcases h2 with e | e | e | e | e <;> subst e <;> simp
    · rw [if_neg h1, if_neg h2]
      simp only [not_or] at h2
      obtain ⟨e3, e5, e7, e9, e11⟩ := h2
      simp [h1, e3, e5, e7, e9, e11]

/-- C27.  For a topology with at least one thread per core, a register file of
64-bit values and a view whose six log fields are `0` or `1` on every core,
`set_therm_stat` returns, and in the value it leaves in the register of each
core bit `1` is the OR of the six log fields, bits `3, 5, 7, 9, 11` are clear
and every other bit is the bit the register had. -/
theorem set_therm_stat_actual_encoding (cfg : Config)
    (hT : 0 < cfg.NUM_THREADS_PER_CORE) (st : RegFile) (hst : st.is64)
    (s : Nat → therm_stat) (hall : ∀ j, j < cfg.NUM_CORES → (s j).flagsBoolean) :
    ∃ st1, set_therm_stat cfg s st = Outcome.done st1 ∧
      ∀ j, j < cfg.NUM_CORES → ∀ i,
        (st1 (j * cfg.NUM_THREADS_PER_CORE) IA32_THERM_STATUS).testBit i =
          if i = 1 then
            (decide ((s j).status_log = 1) || decide ((s j).PROCHOT_or_FORCEPR_log = 1) ||
              decide ((s j).crit_temp_log = 1) || decide ((s j).therm_thresh1_log = 1) ||
              decide ((s j).therm_thresh2_log = 1) ||
              decide ((s j).power_notification_log = 1))
          else if i = 3 ∨ i = 5 ∨ i = 7 ∨ i = 9 ∨ i = 11 then false
          else (st (j * cfg.NUM_THREADS_PER_CORE) IA32_THERM_STATUS).testBit i := by
  have hok : ∀ j, j < cfg.NUM_CORES → set_therm_stat_asserts (s j) = true :=
    fun j hj => (set_therm_stat_asserts_iff _).mpr (hall j hj)
  obtain ⟨st1, e1, e2, _⟩ := set_routine_done (read_all_cores_reps cfg hT)
    (write_all_cores_v_reps cfg hT) IA32_THERM_STATUS set_therm_stat_asserts
    set_therm_stat_update s st hok
  refine ⟨st1, e1, ?_⟩
  intro j hj i
  rw [e2 j hj]
  exact set_therm_stat_update_bits (s j) _ (hst _ _) (hok j hj) i

/-- Witness of C27: two sockets of two cores of two threads, every register
`2 ^ 64 - 1`, every core with `crit_temp_log = 1` and the other log fields
`0`. -/
theorem set_therm_stat_actual_encoding_witness :
    ∃ st1, set_therm_stat cfg2 (fun _ => { therm_stat_zero 0 with crit_temp_log := 1 })
        (regsAll (2 ^ 64 - 1)) = Outcome.done st1 ∧
      ∀ j, j < cfg2.NUM_CORES → ∀ i,
        (st1 (j * cfg2.NUM_THREADS_PER_CORE) IA32_THERM_STATUS).testBit i =
          if i = 1 then
            (decide ((0 : Nat) = 1) || decide ((0 : Nat) = 1) ||
              decide ((1 : Nat) = 1) || decide ((0 : Nat) = 1) ||
              decide ((0 : Nat) = 1) || decide ((0 : Nat) = 1))
          else if i = 3 ∨ i = 5 ∨ i = 7 ∨ i = 9 ∨ i = 11 then false
          else (regsAll (2 ^ 64 - 1) (j * cfg2.NUM_THREADS_PER_CORE)
            IA32_THERM_STATUS).testBit i :=
  set_therm_stat_actual_encoding cfg2 (by decide) (regsAll (2 ^ 64 - 1))
    (regsAll_is64 _ (by decide)) (fun _ => { therm_stat_zero 0 with crit_temp_log := 1 })
    (fun _ _ => by simp [therm_stat.flagsBoolean, therm_stat_zero])

/-! ## Coordinate index, registry life cycle, core configuration -/

/-- C28.  For every topology and every triple of coordinates passing the six
assertions of `read_msr_by_coord`, the index
`socket * NUM_CORES_PER_SOCKET + core * NUM_THREADS_PER_CORE + thread` is at
least `0` and below `NUM_DEVS`, and `read_msr_by_coord` reads through the entry
of `core_fd` at that index. -/
theorem coord_index_in_table (cfg : Config) (st : RegFile) (socket core thread : Int)
    (msr : Nat) (h : coord_asserts cfg socket core thread = true) :
    0 ≤ coord_index cfg socket core thread ∧
    coord_index cfg socket core thread < cfg.NUM_DEVS ∧
    read_msr_by_coord cfg st socket core thread msr =
      ByCoord.accessed (coord_index cfg socket core thread).toNat
        (read_msr_by_idx st (coord_index cfg socket core thread).toNat msr) := by
  have h0 := h
  unfold coord_asserts at h0
  simp only [Bool.and_eq_true, decide_eq_true_eq, ge_iff_le] at h0
  obtain ⟨⟨⟨⟨⟨hs, hc⟩, ht⟩, hs0⟩, hc0⟩, ht0⟩ := h0
  have hC0 : (0 : Int) ≤ (cfg.NUM_CORES_PER_SOCKET : Int) := Int.ofNat_nonneg _
  have hT0 : (0 : Int) ≤ (cfg.NUM_THREADS_PER_CORE : Int) := Int.ofNat_nonneg _
  have hT1 : (1 : Int) ≤ (cfg.NUM_THREADS_PER_CORE : Int) := by omega
  have hlo : 0 ≤ coord_index cfg socket core thread := by
    unfold coord_index
    have a1 := mul_nonneg hs0 hC0
    have a2 := mul_nonneg hc0 hT0
    omega
  have hhi : coord_index cfg socket core thread < cfg.NUM_DEVS := by
    unfold coord_index Config.NUM_DEVS
    push_cast
    have hs1 : socket ≤ (cfg.NUM_SOCKETS : Int) - 1 := by omega
    have hc1 : core ≤ (cfg.NUM_CORES_PER_SOCKET : Int) - 1 := by omega
    have b1 : socket * (cfg.NUM_CORES_PER_SOCKET : Int) ≤
        ((cfg.NUM_SOCKETS : Int) - 1) * cfg.NUM_CORES_PER_SOCKET :=
      mul_le_mul_of_nonneg_right hs1 hC0
    have b2 : core * (cfg.NUM_THREADS_PER_CORE : Int) ≤
        ((cfg.NUM_CORES_PER_SOCKET : Int) - 1) * cfg.NUM_THREADS_PER_CORE :=
      mul_le_mul_of_nonneg_right hc1 hT0
    have b3 : (0 : Int) ≤ ((cfg.NUM_SOCKETS : Int) - 1) * cfg.NUM_CORES_PER_SOCKET :=
      mul_nonneg (by omega) hC0
    have b4 : ((cfg.NUM_SOCKETS : Int) - 1) * cfg.NUM_CORES_PER_SOCKET * 1 ≤
        ((cfg.NUM_SOCKETS : Int) - 1) * cfg.NUM_CORES_PER_SOCKET * cfg.NUM_THREADS_PER_CORE :=
      mul_le_mul_of_nonneg_left hT1 b3
    nlinarith [b1, b2, b3, b4]
  refine ⟨hlo, hhi, ?_⟩
  unfold read_msr_by_coord
  rw [if_pos h]
  simp only
  rw [if_pos ⟨hlo, hhi⟩]

/-- Witness of C28: two sockets of two cores of two threads, the last thread
of the last core of the last socket (index `5`). -/
theorem coord_index_in_table_witness :
    coord_asserts cfg2 1 1 1 = true ∧
    0 ≤ coord_index cfg2 1 1 1 ∧
    coord_index cfg2 1 1 1 < cfg2.NUM_DEVS ∧
    read_msr_by_coord cfg2 regsUnit 1 1 1 IA32_THERM_STATUS =
      ByCoord.accessed (coord_index cfg2 1 1 1).toNat
        (read_msr_by_idx regsUnit (coord_index cfg2 1 1 1).toNat IA32_THERM_STATUS) :=
  ⟨by decide, coord_index_in_table cfg2 regsUnit 1 1 1 IA32_THERM_STATUS (by decide)⟩

/-- C29.  Once `init_msr` has returned, and `finalize_msr` has run with every
`close` succeeding, the flag `initialized` is still set, every entry of
`core_fd` is `0`, and a further `init_msr`, whatever the device files, returns
`0` without a system call and leaves the registry as it is. -/
theorem no_reinit_after_finalize (cfg : Config) (env : Env) (r0 r1 : Registry) (ret : Int)
    (calls : List SysCall) (close_rc : Nat → Int)
    (h : init_msr cfg env r0 = InitResult.returned ret r1 calls)
    (hc : ∀ u, close_rc u = 0) (env2 : Env) :
    (finalize_msr cfg close_rc r1).1.initialized = true ∧
    (∀ u, u < cfg.NUM_DEVS → (finalize_msr cfg close_rc r1).1.core_fd u = 0) ∧
    init_msr cfg env2 (finalize_msr cfg close_rc r1).1 =
      InitResult.returned 0 (finalize_msr cfg close_rc r1).1 [] := by
  have hflag : (finalize_msr cfg close_rc r1).1.initialized = true :=
    (init_msr_returned_flag cfg env r0 r1 ret calls h).1
  refine ⟨hflag, ?_, init_msr_of_initialized cfg env2 _ hflag⟩
  intro u hu
  show (finalize_loop close_rc cfg.NUM_DEVS 0 r1.core_fd).1 u = 0
  rw [(finalize_loop_spec close_rc cfg.NUM_DEVS 0 r1.core_fd).1 u]
  by_cases hz : r1.core_fd u = 0
  · rw [if_neg (fun a => a.2.2.1 hz), hz]
  · rw [if_pos ⟨Nat.zero_le u, by omega, hz, hc u⟩]

/-- Witness of C29: one socket of two cores of one thread, only the family
`msr_safe` usable, an empty registry, then device files that are all
unusable. -/
theorem no_reinit_after_finalize_witness :
    ∃ r1 calls, init_msr cfg12 envSafeOnly registry_zero = InitResult.returned 0 r1 calls ∧
      (finalize_msr cfg12 (fun _ => 0) r1).1.initialized = true ∧
      (∀ u, u < cfg12.NUM_DEVS → (finalize_msr cfg12 (fun _ => 0) r1).1.core_fd u = 0) ∧
      init_msr cfg12 envNone (finalize_msr cfg12 (fun _ => 0) r1).1 =
        InitResult.returned 0 (finalize_msr cfg12 (fun _ => 0) r1).1 [] :=
  ⟨_, _, rfl, no_reinit_after_finalize cfg12 envSafeOnly registry_zero _ 0 _ (fun _ => 0) rfl
    (fun _ => rfl) envNone⟩

/-- C30, as stated, fails.  When the first `cpuid` leaves `0` in the low 16
bits of `rbx`, the quotient `(rbx & 0xFFFF) / *hyperThreads` divides by zero;
when the first leaves `2` and the second `1`, `coresPerSocket` is `0` and
`allcores / *coresPerSocket` divides by zero. -/
theorem cpuid_detect_core_conf_divides_by_zero :
    cpuid_detect_core_conf 0 4 8 8 = none ∧ cpuid_detect_core_conf 2 1 8 8 = none := by
  decide

/-- C30, amended.  When `hyperThreads = EBX0 & 0xFFFF` is not `0` and is at
most `EBX1 & 0xFFFF`, `cpuid_detect_core_conf` divides by no zero, stores
`hyperThreads`, `coresPerSocket = (EBX1 & 0xFFFF) / hyperThreads` and
`sockets = allcores / coresPerSocket / hyperThreads`, and stores `1` in
`HTenabled` when the two processor counts are equal and `0` otherwise. -/
theorem cpuid_detect_core_conf_defined (rbx0 rbx1 : Nat) (allcores availcores : Int)
    (h1 : rbx0 &&& 0xFFFF ≠ 0) (h2 : rbx0 &&& 0xFFFF ≤ rbx1 &&& 0xFFFF) :
    ∃ c, cpuid_detect_core_conf rbx0 rbx1 allcores availcores = some c ∧
      c.hyperThreads = rbx0 &&& 0xFFFF ∧
      c.coresPerSocket = (rbx1 &&& 0xFFFF) / c.hyperThreads ∧
      c.coresPerSocket ≠ 0 ∧
      c.sockets = (allcores % 2 ^ 64).toNat / c.coresPerSocket / c.hyperThreads ∧
      (c.HTenabled = 1 ↔ availcores = allcores) ∧
      (c.HTenabled = 0 ↔ availcores ≠ allcores) := by
  have h3 : (rbx1 &&& 0xFFFF) / (rbx0 &&& 0xFFFF) ≠ 0 :=
    Nat.pos_iff_ne_zero.mp (Nat.div_pos h2 (Nat.pos_of_ne_zero h1))
  refine ⟨_, by simp only [cpuid_detect_core_conf, h1, h3, if_false]; rfl, rfl, rfl, h3, rfl, ?_, ?_⟩
  · by_cases e : availcores = allcores
    · simp [e]
    · simp [e]
  · by_cases e : availcores = allcores
    · simp [e]
    · simp [e]

/-- Witness of C30, amended: two threads per core, sixteen logical processors
per socket, thirty-two processors configured and available. -/
theorem cpuid_detect_core_conf_defined_witness :
    ∃ c, cpuid_detect_core_conf 2 16 32 32 = some c ∧
      c.hyperThreads = 2 &&& 0xFFFF ∧
      c.coresPerSocket = (16 &&& 0xFFFF) / c.hyperThreads ∧
      c.coresPerSocket ≠ 0 ∧
      c.sockets = ((32 : Int) % 2 ^ 64).toNat / c.coresPerSocket / c.hyperThreads ∧
      (c.HTenabled = 1 ↔ (32 : Int) = 32) ∧
      (c.HTenabled = 0 ↔ (32 : Int) ≠ 32) :=
  cpuid_detect_core_conf_defined 2 16 32 32 (by decide) (by decide)

end Libmsr
